import Mathlib

/-!
# PranaliOS: system-call emulation core (`src/libm2skernel/syscall.c`)

A shallow embedding of the system-call dispatcher `syscall_do`, of
`handle_guest_syscalls`, of `do_mmap` and of the handlers the verified
properties are about, followed by the theorems.

Conventions.
* `uint32_t` values are naturals below `2^32`; every C assignment that can
  overflow is reduced `% 4294967296` explicitly.  `int` values are integers,
  obtained from a 32-bit pattern with `toInt32`.
* `fatal(...)`, a failing `assert` and an access outside an array end the
  simulation: handlers return in `Except Abort`.
* The guest memory service, the context service and the file-descriptor table
  live outside `syscall.c`; they are modelled here from their contracts.
-/

namespace PranaliOS

/-! ## Machine integers -/

/-- Conversion of an `int` to the `uint32_t` with the same bit pattern. -/
def toU32 (i : Int) : Nat := (i % 4294967296).toNat

/-- Conversion of a `uint32_t` bit pattern to the `int` it denotes. -/
def toInt32 (n : Nat) : Int :=
  if n % 4294967296 < 2147483648 then ((n % 4294967296 : Nat) : Int)
  else ((n % 4294967296 : Nat) : Int) - 4294967296

/-- Modelled from the spec: `MEM_PAGESIZE`, the 4096-byte page of the guest
memory (declared outside `syscall.c`). -/
def MEM_PAGESIZE : Nat := 4096

/-- Modelled from the spec: `MEM_PAGESHIFT`, the shift of the 4096-byte page
(declared outside `syscall.c`). -/
def MEM_PAGESHIFT : Nat := 12

/-- Modelled from the spec: the macro `ROUND_UP` is declared outside
`syscall.c`; it rounds a value up to a multiple of the alignment.  The callers
store the result in a `uint32_t`, which is where the reduction modulo `2^32`
of `ROUND_UP32` comes from. -/
def ROUND_UP (n align : Nat) : Nat := (n + (align - 1)) / align * align

/-- The value a `uint32_t` variable holds after `x = ROUND_UP(n, MEM_PAGESIZE)`. -/
def ROUND_UP32 (n : Nat) : Nat := ROUND_UP n MEM_PAGESIZE % 4294967296

/-- Difference of two `uint32_t` values, as C computes it. -/
def sub32 (a b : Nat) : Nat := (a % 4294967296 + 4294967296 - b % 4294967296) % 4294967296

/-- Sum of two `uint32_t` values, as C computes it. -/
def add32 (a b : Nat) : Nat := (a + b) % 4294967296

/-! ## Ways a call can end the simulation -/

/-- The `fatal(...)` call sites of the cases of the `switch` that are embedded
in the section on the other cases. -/
inductive FatalSite where
  | open_path
  | unlink_path
  | chmod_path
  | utime_path
  | access_path
  | kill_pid
  | rename_path
  | mkdir_path
  | pipe_host
  | setrlimit_resource
  | getrusage_who
  | munmap_align
  | socketcall_type
  | socketcall_connect_size
  | socketcall_not_socket
  | socketcall_call
  | llseek_high
  | select_tv
  | sysctl_oldval
  | sysctl_newval
  | sched_get_priority_max_policy
  | sched_get_priority_min_policy
  | rt_sigaction_signal
  | getrlimit_resource
  | stat64_path
  | lstat64_path
  | chown_path
  | set_thread_area_seg_32bit
  | set_thread_area_already_set
  | set_thread_area_entry_number
  | set_thread_area_not_set
  | tgkill_tgid
  | tgkill_pid
  | set_robust_list_len
  | opencl_func_code
  deriving DecidableEq, Repr

/-- The `fatal(...)` call sites of the embedded code. -/
inductive Fatal where
  | not_implemented (syscode : Int)
  | waitpid_pid
  | brk_out_of_memory
  | mremap_maymove
  | mremap_zero_len
  | mremap_out_of_memory
  | sigprocmask_how
  | mmap_invalid_guest_fd
  | mmap_unaligned_offset
  | mmap_unaligned_addr
  | mmap_no_start
  | mmap_out_of_memory
  | mmap_host_failed
  | read_poll
  | ioctl_cmd
  | fcntl64_host_fd
  | fcntl64_cmd
  | poll_nfds
  | poll_events
  | poll_host_fd
  | writev_pipe
  | futex_wait_timeout
  | futex_cmp_requeue_timeout
  | futex_wake_op_operation
  | futex_wake_op_condition
  | futex_cmd (cmd : Nat)
  | clone_mandatory_flags
  | clone_unsupported_flags
  | clone_seg_32bit
  | setitimer_which
  | getitimer_which
  | getdents_host
  | getdents_buffer
  | getdents64_host
  | getdents64_buffer
  | site (s : FatalSite)
  deriving DecidableEq, Repr

/-- Abnormal ends of a handler. -/
inductive Abort where
  | fatal (site : Fatal)
  | assertion
  | undefined
  deriving DecidableEq, Repr

/-- Result of a handler: a value, or the end of the simulation. -/
abbrev Sys (α : Type) := Except Abort α

/-! ## Guest memory (service outside `syscall.c`) -/

/-- Modelled from the spec: the per-page permission set (init/read/write/exec)
of the guest memory service. -/
structure Perm where
  init : Bool
  read : Bool
  write : Bool
  exec : Bool
  deriving DecidableEq, Repr

/-- The empty permission set (the `0` of the C expressions). -/
def Perm.none : Perm := ⟨false, false, false, false⟩

/-- Union of permission sets (`|` of the C expressions). -/
def Perm.or (a b : Perm) : Perm :=
  ⟨a.init || b.init, a.read || b.read, a.write || b.write, a.exec || b.exec⟩

/-- Modelled from the spec: the permission `init` of the memory service. -/
def mem_access_init : Perm := ⟨true, false, false, false⟩

/-- Modelled from the spec: the permission `read` of the memory service. -/
def mem_access_read : Perm := ⟨false, true, false, false⟩

/-- Modelled from the spec: the permission `write` of the memory service. -/
def mem_access_write : Perm := ⟨false, false, true, false⟩

/-- Modelled from the spec: the permission `exec` of the memory service. -/
def mem_access_exec : Perm := ⟨false, false, false, true⟩

/-- Calls received by the guest memory service that change the page table,
recorded in the order they are made. -/
inductive MemCall where
  | map (addr size : Nat) (perm : Perm)
  | unmap (addr size : Nat)
  | map_host (guest_fd : Int) (addr size : Nat) (perm : Perm) (host_ptr : Nat)
  | copy (dest src size : Nat)
  | protect (addr size : Nat) (perm : Perm)
  deriving DecidableEq, Repr

/-- Modelled from the spec: the guest virtual memory object is outside
`syscall.c`.  It is a page-granular 32-bit address space: `pages p` is the
permission set of page number `p` (`none` when the page is not mapped),
`bytes a` is the byte at address `a`, and `calls` records the mapping calls. -/
structure Mem where
  pages : Nat → Option Perm
  bytes : Nat → Nat
  calls : List MemCall

/-- Number of pages of the 32-bit address space. -/
def MEM_PAGE_COUNT : Nat := 1048576

/-- Number of pages that meet the byte range `[addr, addr + size)`. -/
def page_count (addr size : Nat) : Nat :=
  if size = 0 then 0 else (addr + size + 4095) / 4096 - addr / 4096

/-- Page `p` belongs to the address space and meets `[addr, addr + size)`. -/
def in_range (addr size p : Nat) : Bool :=
  decide (addr / 4096 ≤ p ∧ p < addr / 4096 + page_count addr size ∧ p < MEM_PAGE_COUNT)

/-- Modelled from the spec: `mem_map` (outside `syscall.c`) maps a range; every
page of the range gets the permission set of this, most recent, operation,
and a page that was not mapped starts zero-filled. -/
def mem_map (m : Mem) (addr size : Nat) (perm : Perm) : Mem :=
  { pages := fun p => if in_range addr size p then some perm else m.pages p
    bytes := fun a =>
      if in_range addr size (a / 4096) && (m.pages (a / 4096)).isNone then 0 else m.bytes a
    calls := m.calls ++ [MemCall.map addr size perm] }

/-- Modelled from the spec: `mem_unmap` (outside `syscall.c`) unmaps a range;
pages of the range that were mapped are discarded. -/
def mem_unmap (m : Mem) (addr size : Nat) : Mem :=
  { pages := fun p => if in_range addr size p then none else m.pages p
    bytes := m.bytes
    calls := m.calls ++ [MemCall.unmap addr size] }

/-- All pages of `[addr, addr + size)` exist in the address space and are free. -/
def range_free (m : Mem) (addr size : Nat) : Bool :=
  decide (addr + size ≤ 4294967296) &&
    (List.range (page_count addr size)).all (fun i => (m.pages (addr / 4096 + i)).isNone)

/-- Upward search of `mem_map_space`, one page at a time. -/
def mem_map_space_from (m : Mem) (size : Nat) : Nat → Nat → Nat
  | 0, _ => 4294967295
  | fuel + 1, addr =>
    if 4294967296 < addr + size then 4294967295
    else if range_free m addr size then addr
    else mem_map_space_from m size fuel (addr + 4096)

/-- Modelled from the spec: `mem_map_space` (outside `syscall.c`) searches a
free range of `size` bytes at or above `addr`; the result is the start of the
first such range, or `(uint32_t) -1` when there is none. -/
def mem_map_space (m : Mem) (addr size : Nat) : Nat :=
  mem_map_space_from m size (MEM_PAGE_COUNT + 1) addr

/-- Downward search of `mem_map_space_down`, one page at a time. -/
def mem_map_space_down_from (m : Mem) (size : Nat) : Nat → Nat → Nat
  | 0, _ => 4294967295
  | fuel + 1, addr =>
    if range_free m addr size then addr
    else if addr < 4096 then 4294967295
    else mem_map_space_down_from m size fuel (addr - 4096)

/-- Modelled from the spec: `mem_map_space_down` (outside `syscall.c`) searches
a free range of `size` bytes at or below the hint `addr`; the result is the
start of the first such range going down, or `(uint32_t) -1`. -/
def mem_map_space_down (m : Mem) (addr size : Nat) : Nat :=
  mem_map_space_down_from m size (MEM_PAGE_COUNT + 1) addr

/-- Modelled from the spec: `mem_read` (outside `syscall.c`) reads `n` bytes at
`addr`; addresses wrap at `2^32`. -/
def mem_read (m : Mem) (addr n : Nat) : List Nat :=
  (List.range n).map (fun i => m.bytes ((addr + i) % 4294967296))

/-- Modelled from the spec: `mem_write` (outside `syscall.c`) writes the bytes
`data` at `addr`; addresses wrap at `2^32`. -/
def mem_write (m : Mem) (addr : Nat) (data : List Nat) : Mem :=
  { m with bytes := fun a =>
      if a < 4294967296 ∧ sub32 a addr < data.length then data.getD (sub32 a addr) 0
      else m.bytes a }

/-- Modelled from the spec: `mem_copy` (outside `syscall.c`) copies `size`
bytes from `src` to `dest`. -/
def mem_copy (m : Mem) (dest src size : Nat) : Mem :=
  { mem_write m dest (mem_read m src size) with
    calls := m.calls ++ [MemCall.copy dest src size] }

/-- Little-endian encoding of `v` on `n` bytes. -/
def le_encode : Nat → Nat → List Nat
  | 0, _ => []
  | n + 1, v => v % 256 :: le_encode n (v / 256)

/-- Little-endian decoding of a byte list. -/
def le_decode : List Nat → Nat
  | [] => 0
  | b :: bs => b % 256 + 256 * le_decode bs

/-- Value of a `uint64_t` stored at `addr` (`mem_read(mem, addr, 8, &x)`). -/
def mem_read64 (m : Mem) (addr : Nat) : Nat := le_decode (mem_read m addr 8)

/-- Store of a `uint64_t` at `addr` (`mem_write(mem, addr, 8, &x)`). -/
def mem_write64 (m : Mem) (addr v : Nat) : Mem := mem_write m addr (le_encode 8 v)

/-- Store of a 32-bit value at `addr` (`mem_write(mem, addr, 4, &x)`). -/
def mem_write32 (m : Mem) (addr v : Nat) : Mem := mem_write m addr (le_encode 4 v)

/-- Value of a 32-bit word stored at `addr` (`mem_read(mem, addr, 4, &x)`). -/
def mem_read32 (m : Mem) (addr : Nat) : Nat := le_decode (mem_read m addr 4)

/-- Modelled from the spec: `mem_read_string` (outside `syscall.c`) reads a
NUL-terminated string of at most `size` bytes at `addr`. -/
def mem_read_string (m : Mem) (addr size : Nat) : List Nat :=
  (mem_read m addr size).takeWhile (fun b => b != 0)

/-- Modelled from the spec: `mem_write_string` (outside `syscall.c`) writes a
NUL-terminated string at `addr`. -/
def mem_write_string (m : Mem) (addr : Nat) (str : List Nat) : Mem :=
  mem_write m addr (str.takeWhile (fun b => b != 0) ++ [0])

/-! ## Contexts (service outside `syscall.c`) -/

/-- Modelled from the spec: the status bits of a context, a bitset over
{running, suspended, zombie, finished} and the suspension reasons. -/
structure Status where
  running : Bool := false
  suspended : Bool := false
  zombie : Bool := false
  finished : Bool := false
  read : Bool := false
  write : Bool := false
  poll : Bool := false
  waitpid : Bool := false
  nanosleep : Bool := false
  sigsuspend : Bool := false
  futex : Bool := false
  io : Bool := false
  deriving DecidableEq, Repr

/-- Bitwise or of two status words. -/
def Status.or (a b : Status) : Status :=
  { running := a.running || b.running, suspended := a.suspended || b.suspended,
    zombie := a.zombie || b.zombie, finished := a.finished || b.finished,
    read := a.read || b.read, write := a.write || b.write, poll := a.poll || b.poll,
    waitpid := a.waitpid || b.waitpid, nanosleep := a.nanosleep || b.nanosleep,
    sigsuspend := a.sigsuspend || b.sigsuspend, futex := a.futex || b.futex,
    io := a.io || b.io }

/-- Removal of the bits of `b` from `a` (`a & ~b`). -/
def Status.diff (a b : Status) : Status :=
  { running := a.running && !b.running, suspended := a.suspended && !b.suspended,
    zombie := a.zombie && !b.zombie, finished := a.finished && !b.finished,
    read := a.read && !b.read, write := a.write && !b.write, poll := a.poll && !b.poll,
    waitpid := a.waitpid && !b.waitpid, nanosleep := a.nanosleep && !b.nanosleep,
    sigsuspend := a.sigsuspend && !b.sigsuspend, futex := a.futex && !b.futex,
    io := a.io && !b.io }

/-- Some bit of `b` is set in `a` (`(a & b) != 0`). -/
def Status.meets (a b : Status) : Bool :=
  (a.running && b.running) || (a.suspended && b.suspended) || (a.zombie && b.zombie) ||
  (a.finished && b.finished) || (a.read && b.read) || (a.write && b.write) ||
  (a.poll && b.poll) || (a.waitpid && b.waitpid) || (a.nanosleep && b.nanosleep) ||
  (a.sigsuspend && b.sigsuspend) || (a.futex && b.futex) || (a.io && b.io)

/-- Modelled from the spec: the status bit `ctx_suspended`. -/
def ctx_suspended : Status := { suspended := true }

/-- Modelled from the spec: the status bit `ctx_zombie`. -/
def ctx_zombie : Status := { zombie := true }

/-- Modelled from the spec: the status bit `ctx_finished`. -/
def ctx_finished : Status := { finished := true }

/-- Modelled from the spec: the status bit `ctx_read`. -/
def ctx_read : Status := { read := true }

/-- Modelled from the spec: the status bit `ctx_write`. -/
def ctx_write : Status := { write := true }

/-- Modelled from the spec: the status bit `ctx_poll`. -/
def ctx_poll : Status := { poll := true }

/-- Modelled from the spec: the status bit `ctx_waitpid`. -/
def ctx_waitpid : Status := { waitpid := true }

/-- Modelled from the spec: the status bit `ctx_nanosleep`. -/
def ctx_nanosleep : Status := { nanosleep := true }

/-- Modelled from the spec: the status bit `ctx_sigsuspend`. -/
def ctx_sigsuspend : Status := { sigsuspend := true }

/-- Modelled from the spec: the status bit `ctx_futex`. -/
def ctx_futex : Status := { futex := true }

/-- The 32-bit x86 register file the handlers read and write. -/
structure Regs where
  eax : Nat
  ebx : Nat
  ecx : Nat
  edx : Nat
  esi : Nat
  edi : Nat
  ebp : Nat
  esp : Nat
  eip : Nat
  deriving DecidableEq, Repr

/-- Kinds of file-descriptor table entries. -/
inductive FdKind where
  | regular
  | pipe
  | socket
  | virtual
  deriving DecidableEq, Repr

/-- Modelled from the spec: an entry of the file-descriptor table. -/
structure FdEntry where
  guest_fd : Int
  host_fd : Int
  kind : FdKind
  flags : Nat
  path : List Nat := []
  deriving DecidableEq, Repr

/-- The three 64-bit signal masks of a context. -/
structure SignalMasks where
  pending : Nat
  blocked : Nat
  backup : Nat
  deriving DecidableEq, Repr

/-- The loader record of a context: `brk` is the program break, `exe` and `cwd`
are the paths of the executable and of the working directory (the bytes
before the NUL), `stack_size` is the size of the stack. -/
structure Loader where
  brk : Nat
  exe : List Nat := []
  cwd : List Nat := []
  stack_size : Nat := 0
  deriving DecidableEq, Repr

/-- Modelled from the spec: the execution context, with the fields the
embedded handlers use.  `parent` is the pid of the parent context;
`sigaction` is the table `signal_handlers->sigaction` of 64 records, each
taken as its bytes. -/
structure Ctx where
  pid : Int
  uid : Int
  parent : Option Int
  status : Status
  regs : Regs
  loader : Loader
  signal_masks : SignalMasks
  fdt : List FdEntry
  wakeup_pid : Int
  exit_code : Int
  instr_slice : Int
  wakeup_fd : Int := 0
  wakeup_events : Nat := 0
  wakeup_time : Nat := 0
  wakeup_futex : Nat := 0
  wakeup_futex_bitset : Nat := 0
  wakeup_futex_sleep : Nat := 0
  exit_signal : Nat := 0
  set_child_tid : Nat := 0
  clear_child_tid : Nat := 0
  glibc_segment_base : Nat := 0
  glibc_segment_limit : Nat := 0
  initial_stack : Nat := 0
  itimer_value : List Nat := [0, 0, 0]
  itimer_interval : List Nat := [0, 0, 0]
  sigaction : List (List Nat) := List.replicate 64 (List.replicate 20 0)
  robust_list_head : Nat := 0
  deriving DecidableEq, Repr

/-- Modelled from the spec: `ctx_set_status` (outside `syscall.c`) sets the
given status bits of a context. -/
def ctx_set_status (c : Ctx) (bits : Status) : Ctx :=
  { c with status := c.status.or bits }

/-- Modelled from the spec: `ctx_clear_status` (outside `syscall.c`) clears the
given status bits of a context. -/
def ctx_clear_status (c : Ctx) (bits : Status) : Ctx :=
  { c with status := c.status.diff bits }

/-- Modelled from the spec: `ctx_get_status` (outside `syscall.c`) tells
whether one of the given status bits is set. -/
def ctx_get_status (c : Ctx) (bits : Status) : Bool := c.status.meets bits

/-- Modelled from the spec: `fdt_entry_get` (outside `syscall.c`) looks a guest
file descriptor up in a table. -/
def fdt_entry_get (fdt : List FdEntry) (guest_fd : Int) : Option FdEntry :=
  fdt.find? (fun e => e.guest_fd == guest_fd)

/-- The host functions that the cases of `syscall_do` call through
`Env.host_call`. -/
inductive HostFn where
  | host_open
  | host_unlink
  | host_time
  | host_chmod
  | host_lseek
  | host_utime
  | host_access
  | host_rename
  | host_mkdir
  | host_pipe
  | host_times
  | host_getrusage
  | host_gettimeofday
  | host_readlink
  | host_fchmod
  | host_socket
  | host_connect
  | host_getpeername
  | host_select
  | host_ftruncate
  | host_stat
  | host_lstat
  | host_fstat
  | host_getuid
  | host_getgid
  | host_geteuid
  | host_getegid
  | host_chown
  deriving DecidableEq, Repr

/-- Calls made to the host: on the simulated disk file, for host mappings, on
host descriptors, and `sys fn args bufs` for a host function called with the
integer arguments `args` and the strings or buffers `bufs`. -/
inductive HostCall where
  | mmap (len prot flags : Nat) (host_fd : Int) (offset : Nat)
  | disk_open
  | disk_seek (pos : Int)
  | disk_read (n : Int)
  | disk_write (n : Int) (data : List Nat)
  | disk_close
  | close (host_fd : Int)
  | unlink (path : List Nat)
  | poll (host_fd : Int) (events : Nat)
  | read (host_fd : Int) (count : Nat)
  | write (host_fd : Int) (data : List Nat)
  | dup (host_fd : Int)
  | ioctl (host_fd : Int) (cmd : Nat) (buf : List Nat)
  | fcntl (host_fd : Int) (cmd arg : Nat)
  | getdents (host_fd : Int) (count : Nat)
  | sys (fn : HostFn) (args : List Int) (bufs : List (List Nat))
  deriving DecidableEq, Repr

/-- The state the system-call core works on: the running context `isa_ctx`
(its registers are `isa_regs`), the other contexts of the kernel, the guest
memory `isa_mem`, the simulated disk globals and the host calls made. -/
structure Kernel where
  isa_ctx : Ctx
  ctx_list : List Ctx
  isa_mem : Mem
  blocksize : Int
  numblocks : Int
  blockowners : List Int
  host_calls : List HostCall
  futex_sleep_count : Nat := 0

/-- Value and `errno` of a host call. -/
structure HostResult where
  val : Int
  errno : Int
  deriving DecidableEq, Repr

/-- What a host function called through `Env.host_call` leaves: its return
value, `errno`, the integers it stores in the record or variables passed to it
(`ints`), and the bytes it stores in the buffer passed to it (`bytes`). -/
structure HostAnswer where
  val : Int
  errno : Int
  ints : List Int := []
  bytes : List Nat := []
  deriving DecidableEq, Repr

/-- A record of the buffer the host `getdents` fills, as the handlers read
it: `d_ino`, `d_off`, `d_reclen`, the bytes of `d_name` and the byte at
`d_reclen - 1`, which holds the file type. -/
structure linux_dirent where
  d_ino : Nat
  d_off : Nat
  d_reclen : Nat
  d_name : List Nat
  d_type : Nat
  deriving DecidableEq, Repr

/-- A zombie child of `parent` that `waitpid(pid)` accepts. -/
def zombie_match (parent : Ctx) (pid : Int) (c : Ctx) : Bool :=
  c.status.zombie && decide (c.parent = some parent.pid) && (decide (c.pid = pid) || decide (pid = -1))

/-- Index of the first context satisfying `f`. -/
def ctx_find_index (f : Ctx → Bool) : List Ctx → Option Nat
  | [] => none
  | c :: cs => if f c then some 0 else (ctx_find_index f cs).map (fun i => i + 1)

/-- Modelled from the spec: `ctx_get_zombie` (outside `syscall.c`) looks for a
zombie child of the caller; `pid == -1` accepts any child, otherwise the pid
must match.  The result is the position of the child among the contexts. -/
def ctx_get_zombie (k : Kernel) (pid : Int) : Option Nat :=
  ctx_find_index (zombie_match k.isa_ctx pid) k.ctx_list

/-- Update of the context at position `i`. -/
def ctx_update (f : Ctx → Ctx) : List Ctx → Nat → List Ctx
  | [], _ => []
  | c :: cs, 0 => f c :: cs
  | c :: cs, i + 1 => c :: ctx_update f cs i

/-- The parts of the simulator that `syscall.c` calls or includes and that are
not part of it.
* The syscall table `syscall.dat`: the table bound and the emulator-private
  numbers.
* The constants `MAX_PATH_SIZE`, `MAX_STRING_SIZE` and those of the OpenCL
  interface, with its table `opencl_func_argc`.
* Services that change the state: the event tick `ke_process_events` and its
  scheduling, `signal_handler_return`, `send_to_io`,
  `ctx_host_thread_timer_cancel`, `ctx_finish`, `ctx_finish_group`,
  `ctx_host_thread_suspend_cancel` (on the context at a position among the
  contexts of the kernel) and `opencl_func_run`.
* Services that yield a value: the simulator clock `ke_timer`; `ctx_clone`,
  which allocates the context of a new thread; `ld_get_full_path` and
  `gk_libopencl_redirect` on paths; `ctx_gen_proc_self_maps`, which gives the
  path of the temporary file it makes.
* The host: the file behind the simulated disk (`host_fread` gives the bytes
  that `fread` stores), host `mmap`, the host calls `poll`, `read`, `write`,
  `dup`, `ioctl` and `fcntl`, the host `getdents`, whose result is `none` for
  a negative return value and otherwise the records of the buffer in the
  order the handlers walk them (the return value is the sum of their
  `d_reclen`), and `host_call` for every other host function.  Each sees the
  state, with the host calls made so far. -/
structure Env where
  syscall_code_count : Int
  syscall_code_get_pid : Int
  syscall_code_set_instruction_slice : Int
  syscall_code_disk_io : Int
  MAX_PATH_SIZE : Nat
  MAX_STRING_SIZE : Nat
  OPENCL_FUNC_FIRST : Nat
  OPENCL_FUNC_LAST : Nat
  OPENCL_MAX_ARGS : Nat
  opencl_func_argc : Nat → Nat
  ke_process_events : Kernel → Kernel
  ke_process_events_schedule : Kernel → Kernel
  signal_handler_return : Kernel → Kernel
  send_to_io : Kernel → Int → Kernel
  ctx_host_thread_timer_cancel : Kernel → Kernel
  ctx_finish : Kernel → Int → Kernel
  ctx_finish_group : Kernel → Int → Kernel
  ctx_host_thread_suspend_cancel : Kernel → Nat → Kernel
  opencl_func_run : Kernel → Nat → List Nat → Int × Kernel
  ke_timer : Kernel → Nat
  ctx_clone : Kernel → Ctx
  ld_get_full_path : Kernel → List Nat → List Nat
  gk_libopencl_redirect : List Nat → List Nat
  ctx_gen_proc_self_maps : Kernel → List Nat
  host_fread : Kernel → Int → Int → List Nat
  host_mmap : Nat → Nat → Nat → Int → Nat → Option Nat
  host_poll : Kernel → Int → Nat → HostResult × Nat
  host_read : Kernel → Int → Nat → HostResult × List Nat
  host_write : Kernel → Int → List Nat → HostResult
  host_dup : Kernel → Int → HostResult
  host_ioctl : Kernel → Int → Nat → List Nat → HostResult × List Nat
  host_fcntl : Kernel → Int → Nat → Nat → HostResult
  host_getdents : Kernel → Int → Nat → Option (List linux_dirent)
  host_call : Kernel → HostFn → List Int → List (List Nat) → HostAnswer

/-! ## Syscall numbers

Modelled from the spec: `syscall.dat` is not part of `syscall.c`.  The Linux
numbers are those of the 32-bit Linux ABI, which the comments above the
`case` labels repeat (the comment above `close` reads 2, the number of `fork`;
the ABI number 6 is used); the emulator-private numbers are fields of `Env`. -/

/-- Modelled from the spec: number of `waitpid` in the 32-bit Linux ABI. -/
def syscall_code_waitpid : Int := 7

/-- Modelled from the spec: number of `brk` in the 32-bit Linux ABI. -/
def syscall_code_brk : Int := 45

/-- Modelled from the spec: number of `mmap` in the 32-bit Linux ABI. -/
def syscall_code_mmap : Int := 90

/-- Modelled from the spec: number of `sigreturn` in the 32-bit Linux ABI. -/
def syscall_code_sigreturn : Int := 119

/-- Modelled from the spec: number of `mremap` in the 32-bit Linux ABI. -/
def syscall_code_mremap : Int := 163

/-- Modelled from the spec: number of `rt_sigprocmask` in the 32-bit Linux ABI. -/
def syscall_code_rt_sigprocmask : Int := 175

/-- Modelled from the spec: number of `mmap2` in the 32-bit Linux ABI. -/
def syscall_code_mmap2 : Int := 192

/-- Modelled from the spec: number of `read` in the 32-bit Linux ABI. -/
def syscall_code_read : Int := 3

/-- Modelled from the spec: number of `write` in the 32-bit Linux ABI. -/
def syscall_code_write : Int := 4

/-- Modelled from the spec: number of `close` in the 32-bit Linux ABI. -/
def syscall_code_close : Int := 6

/-- Modelled from the spec: number of `dup` in the 32-bit Linux ABI. -/
def syscall_code_dup : Int := 41

/-- Modelled from the spec: number of `ioctl` in the 32-bit Linux ABI. -/
def syscall_code_ioctl : Int := 54

/-- Modelled from the spec: number of `clone` in the 32-bit Linux ABI. -/
def syscall_code_clone : Int := 120

/-- Modelled from the spec: number of `writev` in the 32-bit Linux ABI. -/
def syscall_code_writev : Int := 146

/-- Modelled from the spec: number of `poll` in the 32-bit Linux ABI. -/
def syscall_code_poll : Int := 168

/-- Modelled from the spec: number of `rt_sigsuspend` in the 32-bit Linux ABI. -/
def syscall_code_rt_sigsuspend : Int := 179

/-- Modelled from the spec: number of `fcntl64` in the 32-bit Linux ABI. -/
def syscall_code_fcntl64 : Int := 221

/-- Modelled from the spec: number of `futex` in the 32-bit Linux ABI. -/
def syscall_code_futex : Int := 240

/-- Modelled from the spec: number of `setitimer` in the 32-bit Linux ABI. -/
def syscall_code_setitimer : Int := 104

/-- Modelled from the spec: number of `getitimer` in the 32-bit Linux ABI. -/
def syscall_code_getitimer : Int := 105

/-- Modelled from the spec: number of `getdents` in the 32-bit Linux ABI. -/
def syscall_code_getdents : Int := 141

/-- Modelled from the spec: number of `nanosleep` in the 32-bit Linux ABI. -/
def syscall_code_nanosleep : Int := 162

/-- Modelled from the spec: number of `getdents64` in the 32-bit Linux ABI. -/
def syscall_code_getdents64 : Int := 220

/-- Modelled from the spec: number of `exit` in the 32-bit Linux ABI. -/
def syscall_code_exit : Int := 1

/-- Modelled from the spec: number of `open` in the 32-bit Linux ABI. -/
def syscall_code_open : Int := 5

/-- Modelled from the spec: number of `unlink` in the 32-bit Linux ABI. -/
def syscall_code_unlink : Int := 10

/-- Modelled from the spec: number of `time` in the 32-bit Linux ABI. -/
def syscall_code_time : Int := 13

/-- Modelled from the spec: number of `chmod` in the 32-bit Linux ABI. -/
def syscall_code_chmod : Int := 15

/-- Modelled from the spec: number of `lseek` in the 32-bit Linux ABI. -/
def syscall_code_lseek : Int := 19

/-- Modelled from the spec: number of `getpid` in the 32-bit Linux ABI. -/
def syscall_code_getpid : Int := 20

/-- Modelled from the spec: number of `utime` in the 32-bit Linux ABI. -/
def syscall_code_utime : Int := 30

/-- Modelled from the spec: number of `access` in the 32-bit Linux ABI. -/
def syscall_code_access : Int := 33

/-- Modelled from the spec: number of `kill` in the 32-bit Linux ABI. -/
def syscall_code_kill : Int := 37

/-- Modelled from the spec: number of `rename` in the 32-bit Linux ABI. -/
def syscall_code_rename : Int := 38

/-- Modelled from the spec: number of `mkdir` in the 32-bit Linux ABI. -/
def syscall_code_mkdir : Int := 39

/-- Modelled from the spec: number of `pipe` in the 32-bit Linux ABI. -/
def syscall_code_pipe : Int := 42

/-- Modelled from the spec: number of `times` in the 32-bit Linux ABI. -/
def syscall_code_times : Int := 43

/-- Modelled from the spec: number of `getppid` in the 32-bit Linux ABI. -/
def syscall_code_getppid : Int := 64

/-- Modelled from the spec: number of `setrlimit` in the 32-bit Linux ABI. -/
def syscall_code_setrlimit : Int := 75

/-- Modelled from the spec: number of `getrusage` in the 32-bit Linux ABI. -/
def syscall_code_getrusage : Int := 77

/-- Modelled from the spec: number of `gettimeofday` in the 32-bit Linux ABI. -/
def syscall_code_gettimeofday : Int := 78

/-- Modelled from the spec: number of `readlink` in the 32-bit Linux ABI. -/
def syscall_code_readlink : Int := 85

/-- Modelled from the spec: number of `munmap` in the 32-bit Linux ABI. -/
def syscall_code_munmap : Int := 91

/-- Modelled from the spec: number of `fchmod` in the 32-bit Linux ABI. -/
def syscall_code_fchmod : Int := 94

/-- Modelled from the spec: number of `socketcall` in the 32-bit Linux ABI. -/
def syscall_code_socketcall : Int := 102

/-- Modelled from the spec: number of `newuname` in the 32-bit Linux ABI. -/
def syscall_code_newuname : Int := 122

/-- Modelled from the spec: number of `mprotect` in the 32-bit Linux ABI. -/
def syscall_code_mprotect : Int := 125

/-- Modelled from the spec: number of `llseek` in the 32-bit Linux ABI. -/
def syscall_code_llseek : Int := 140

/-- Modelled from the spec: number of `select` in the 32-bit Linux ABI. -/
def syscall_code_select : Int := 142

/-- Modelled from the spec: number of `msync` in the 32-bit Linux ABI. -/
def syscall_code_msync : Int := 144

/-- Modelled from the spec: number of `sysctl` in the 32-bit Linux ABI. -/
def syscall_code_sysctl : Int := 149

/-- Modelled from the spec: number of `sched_setparam` in the 32-bit Linux ABI. -/
def syscall_code_sched_setparam : Int := 154

/-- Modelled from the spec: number of `sched_getparam` in the 32-bit Linux ABI. -/
def syscall_code_sched_getparam : Int := 155

/-- Modelled from the spec: number of `sched_getscheduler` in the 32-bit Linux ABI. -/
def syscall_code_sched_getscheduler : Int := 157

/-- Modelled from the spec: number of `sched_get_priority_max` in the 32-bit Linux ABI. -/
def syscall_code_sched_get_priority_max : Int := 159

/-- Modelled from the spec: number of `sched_get_priority_min` in the 32-bit Linux ABI. -/
def syscall_code_sched_get_priority_min : Int := 160

/-- Modelled from the spec: number of `rt_sigaction` in the 32-bit Linux ABI. -/
def syscall_code_rt_sigaction : Int := 174

/-- Modelled from the spec: number of `getcwd` in the 32-bit Linux ABI. -/
def syscall_code_getcwd : Int := 183

/-- Modelled from the spec: number of `getrlimit` in the 32-bit Linux ABI. -/
def syscall_code_getrlimit : Int := 191

/-- Modelled from the spec: number of `ftruncate64` in the 32-bit Linux ABI. -/
def syscall_code_ftruncate64 : Int := 194

/-- Modelled from the spec: number of `stat64` in the 32-bit Linux ABI. -/
def syscall_code_stat64 : Int := 195

/-- Modelled from the spec: number of `lstat64` in the 32-bit Linux ABI. -/
def syscall_code_lstat64 : Int := 196

/-- Modelled from the spec: number of `fstat64` in the 32-bit Linux ABI. -/
def syscall_code_fstat64 : Int := 197

/-- Modelled from the spec: number of `getuid` in the 32-bit Linux ABI. -/
def syscall_code_getuid : Int := 199

/-- Modelled from the spec: number of `getgid` in the 32-bit Linux ABI. -/
def syscall_code_getgid : Int := 200

/-- Modelled from the spec: number of `geteuid` in the 32-bit Linux ABI. -/
def syscall_code_geteuid : Int := 201

/-- Modelled from the spec: number of `getegid` in the 32-bit Linux ABI. -/
def syscall_code_getegid : Int := 202

/-- Modelled from the spec: number of `chown` in the 32-bit Linux ABI. -/
def syscall_code_chown : Int := 212

/-- Modelled from the spec: number of `madvise` in the 32-bit Linux ABI. -/
def syscall_code_madvise : Int := 219

/-- Modelled from the spec: number of `gettid` in the 32-bit Linux ABI. -/
def syscall_code_gettid : Int := 224

/-- Modelled from the spec: number of `sched_setaffinity` in the 32-bit Linux ABI. -/
def syscall_code_sched_setaffinity : Int := 241

/-- Modelled from the spec: number of `sched_getaffinity` in the 32-bit Linux ABI. -/
def syscall_code_sched_getaffinity : Int := 242

/-- Modelled from the spec: number of `set_thread_area` in the 32-bit Linux ABI. -/
def syscall_code_set_thread_area : Int := 243

/-- Modelled from the spec: number of `fadvise64` in the 32-bit Linux ABI. -/
def syscall_code_fadvise64 : Int := 250

/-- Modelled from the spec: number of `exit_group` in the 32-bit Linux ABI. -/
def syscall_code_exit_group : Int := 252

/-- Modelled from the spec: number of `set_tid_address` in the 32-bit Linux ABI. -/
def syscall_code_set_tid_address : Int := 258

/-- Modelled from the spec: number of `clock_getres` in the 32-bit Linux ABI. -/
def syscall_code_clock_getres : Int := 266

/-- Modelled from the spec: number of `tgkill` in the 32-bit Linux ABI. -/
def syscall_code_tgkill : Int := 270

/-- Modelled from the spec: number of `set_robust_list` in the 32-bit Linux ABI. -/
def syscall_code_set_robust_list : Int := 311

/-- Modelled from the spec: number of `opencl`, the artificial call of the
OpenCL interface. -/
def syscall_code_opencl : Int := 325

/-! ## Flag values used by the handlers -/

/-- Value `do_mmap` asserts for `PROT_READ`. -/
def PROT_READ : Nat := 1

/-- Value `do_mmap` asserts for `PROT_WRITE`. -/
def PROT_WRITE : Nat := 2

/-- Value `do_mmap` asserts for `PROT_EXEC`. -/
def PROT_EXEC : Nat := 4

/-- Value `do_mmap` asserts for `MAP_FIXED`. -/
def MAP_FIXED : Nat := 16

/-- Value `do_mmap` asserts for `MAP_ANONYMOUS`. -/
def MAP_ANONYMOUS : Nat := 32

/-- The constant `MMAP_BASE_ADDRESS`, 0xb7fb0000. -/
def MMAP_BASE_ADDRESS : Nat := 3086680064

/-! ## Handlers of `syscall_do` -/

/-- Replace the guest memory of the kernel state. -/
def Kernel.set_mem (k : Kernel) (m : Mem) : Kernel := { k with isa_mem := m }

/-- Replace the running context of the kernel state. -/
def Kernel.set_ctx (k : Kernel) (c : Ctx) : Kernel := { k with isa_ctx := c }

/-- The assignment `isa_ctx->loader->brk = v`. -/
def Kernel.set_brk (k : Kernel) (v : Nat) : Kernel :=
  { k with isa_ctx := { k.isa_ctx with loader := { k.isa_ctx.loader with brk := v } } }

/-- The assignment `isa_ctx->signal_masks->blocked = v`. -/
def Kernel.set_blocked (k : Kernel) (v : Nat) : Kernel :=
  { k with isa_ctx := { k.isa_ctx with
      signal_masks := { k.isa_ctx.signal_masks with blocked := v } } }

/-- The assignment `isa_regs->eax = v`. -/
def Kernel.set_eax (k : Kernel) (v : Nat) : Kernel :=
  { k with isa_ctx := { k.isa_ctx with regs := { k.isa_ctx.regs with eax := v } } }

/-- Body of `case syscall_code_waitpid`. -/
def sys_waitpid (k : Kernel) : Sys (Int × Kernel) :=
  let pid := toInt32 k.isa_ctx.regs.ebx
  let pstatus := k.isa_ctx.regs.ecx
  let options := k.isa_ctx.regs.edx
  if pid ≠ -1 ∧ pid ≤ 0 then .error (.fatal .waitpid_pid)
  else
    match ctx_get_zombie k pid with
    | none =>
      if options &&& 1 = 0 then
        .ok (0, k.set_ctx (ctx_set_status { k.isa_ctx with wakeup_pid := pid }
          (ctx_suspended.or ctx_waitpid)))
      else .ok (0, k)
    | some i =>
      match k.ctx_list.get? i with
      | none => .error .undefined
      | some child =>
        let k1 := if pstatus ≠ 0
          then k.set_mem (mem_write32 k.isa_mem pstatus (toU32 child.exit_code)) else k
        .ok (child.pid,
          { k1 with ctx_list := ctx_update (fun c => ctx_set_status c ctx_finished) k1.ctx_list i })

/-- Body of `case syscall_code_brk`. -/
def sys_brk (k : Kernel) : Sys (Int × Kernel) :=
  let newbrk := k.isa_ctx.regs.ebx
  let oldbrk := k.isa_ctx.loader.brk
  let newbrk_rnd := ROUND_UP32 newbrk
  let oldbrk_rnd := ROUND_UP32 oldbrk
  if newbrk = 0 then .ok (toInt32 oldbrk, k)
  else if newbrk > oldbrk then
    let size := sub32 newbrk_rnd oldbrk_rnd
    if size ≠ 0 then
      if mem_map_space k.isa_mem oldbrk_rnd size ≠ oldbrk_rnd then
        .error (.fatal .brk_out_of_memory)
      else
        .ok (toInt32 newbrk,
          (k.set_mem (mem_map k.isa_mem oldbrk_rnd size
            (mem_access_read.or mem_access_write))).set_brk newbrk)
    else .ok (toInt32 newbrk, k.set_brk newbrk)
  else if newbrk < oldbrk then
    let size := sub32 oldbrk_rnd newbrk_rnd
    if size ≠ 0 then
      .ok (toInt32 newbrk, (k.set_mem (mem_unmap k.isa_mem newbrk_rnd size)).set_brk newbrk)
    else .ok (toInt32 newbrk, k.set_brk newbrk)
  else .ok (0, k)

/-- The permission set `do_mmap` derives from `prot`. -/
def mmap_perm (prot : Nat) : Perm :=
  ((mem_access_init.or (if prot &&& PROT_READ ≠ 0 then mem_access_read else Perm.none)).or
    (if prot &&& PROT_WRITE ≠ 0 then mem_access_write else Perm.none)).or
    (if prot &&& PROT_EXEC ≠ 0 then mem_access_exec else Perm.none)

/-- The function `do_mmap`. -/
def do_mmap (env : Env) (k : Kernel) (addr len prot flags : Nat) (guest_fd : Int)
    (offset : Nat) : Sys (Nat × Kernel) :=
  let fd := fdt_entry_get k.isa_ctx.fdt guest_fd
  let host_fd : Int := match fd with
    | some e => e.host_fd
    | none => -1
  if guest_fd > 0 ∧ host_fd < 0 then .error (.fatal .mmap_invalid_guest_fd)
  else
    let perm := mmap_perm prot
    let host_fd : Int := if flags &&& MAP_ANONYMOUS ≠ 0 then -1 else host_fd
    if offset % MEM_PAGESIZE ≠ 0 then .error (.fatal .mmap_unaligned_offset)
    else if addr % MEM_PAGESIZE ≠ 0 then .error (.fatal .mmap_unaligned_addr)
    else
      let alen := ROUND_UP32 len
      let region : Sys (Nat × Kernel) :=
        if flags &&& MAP_FIXED ≠ 0 then
          if addr = 0 then .error (.fatal .mmap_no_start)
          else .ok (addr, k.set_mem (mem_unmap k.isa_mem addr alen))
        else
          let hint := if addr = 0 ∨ mem_map_space_down k.isa_mem addr alen ≠ addr
            then MMAP_BASE_ADDRESS else addr
          let found := mem_map_space_down k.isa_mem hint alen
          if found = 4294967295 then .error (.fatal .mmap_out_of_memory)
          else .ok (found, k)
      match region with
      | .error e => .error e
      | .ok (addr, k1) =>
        let k2 := k1.set_mem (mem_map k1.isa_mem addr alen perm)
        if host_fd ≥ 0 then
          match env.host_mmap len prot (flags &&& (4294967295 - MAP_FIXED)) host_fd offset with
          | none => .error (.fatal .mmap_host_failed)
          | some host_ptr =>
            .ok (addr,
              { k2 with
                isa_mem := { k2.isa_mem with calls := k2.isa_mem.calls ++
                  [MemCall.map_host guest_fd addr alen perm host_ptr] }
                host_calls := k2.host_calls ++
                  [HostCall.mmap len prot (flags &&& (4294967295 - MAP_FIXED)) host_fd offset] })
        else .ok (addr, k2)

/-- Turn the result of `do_mmap` into the `int retval` of the handler. -/
def mmap_retval (r : Sys (Nat × Kernel)) : Sys (Int × Kernel) :=
  r.map (fun p => (toInt32 p.1, p.2))

/-- Body of `case syscall_code_mmap`: the six arguments are read from guest
memory at the address in EBX. -/
def sys_mmap (env : Env) (k : Kernel) : Sys (Int × Kernel) :=
  let pargs := k.isa_ctx.regs.ebx
  mmap_retval (do_mmap env k (mem_read32 k.isa_mem pargs) (mem_read32 k.isa_mem (pargs + 4))
    (mem_read32 k.isa_mem (pargs + 8)) (mem_read32 k.isa_mem (pargs + 12))
    (toInt32 (mem_read32 k.isa_mem (pargs + 16))) (mem_read32 k.isa_mem (pargs + 20)))

/-- Body of `case syscall_code_mmap2`: the offset is given in pages. -/
def sys_mmap2 (env : Env) (k : Kernel) : Sys (Int × Kernel) :=
  let r := k.isa_ctx.regs
  mmap_retval (do_mmap env k r.ebx r.ecx r.edx r.esi (toInt32 r.edi)
    (r.ebp * 2 ^ MEM_PAGESHIFT % 4294967296))

/-- Body of `case syscall_code_mremap`. -/
def sys_mremap (k : Kernel) : Sys (Int × Kernel) :=
  let addr := k.isa_ctx.regs.ebx
  let old_len := k.isa_ctx.regs.ecx
  let new_len := k.isa_ctx.regs.edx
  let flags := k.isa_ctx.regs.esi
  if addr % MEM_PAGESIZE ≠ 0 ∨ old_len % MEM_PAGESIZE ≠ 0 ∨ new_len % MEM_PAGESIZE ≠ 0 then
    .error .assertion
  else if flags &&& 1 = 0 then .error (.fatal .mremap_maymove)
  else if old_len = 0 ∨ new_len = 0 then .error (.fatal .mremap_zero_len)
  else if new_len = old_len then .ok (toInt32 addr, k)
  else if new_len < old_len then
    .ok (toInt32 addr, k.set_mem (mem_unmap k.isa_mem (add32 addr new_len) (sub32 old_len new_len)))
  else if new_len > old_len ∧
      mem_map_space k.isa_mem (add32 addr old_len) (sub32 new_len old_len) = add32 addr old_len then
    .ok (toInt32 addr, k.set_mem (mem_map k.isa_mem (add32 addr old_len) (sub32 new_len old_len)
      (mem_access_read.or mem_access_write)))
  else
    let new_addr := mem_map_space_down k.isa_mem MMAP_BASE_ADDRESS new_len
    if new_addr = 4294967295 then .error (.fatal .mremap_out_of_memory)
    else
      let m1 := mem_map k.isa_mem new_addr new_len (mem_access_read.or mem_access_write)
      let m2 := mem_copy m1 new_addr addr (min old_len new_len)
      .ok (toInt32 new_addr, k.set_mem (mem_unmap m2 addr old_len))

/-- The blocked mask `rt_sigprocmask` stores for a valid `how`. -/
def sigprocmask_apply (how blocked set : Nat) : Option Nat :=
  if how = 0 then some (blocked ||| set)
  else if how = 1 then some (blocked &&& (18446744073709551615 ^^^ set))
  else if how = 2 then some set
  else none

/-- Body of `case syscall_code_rt_sigprocmask`, up to the event tick that
ends it. -/
def sys_rt_sigprocmask_update (k : Kernel) : Sys Kernel :=
  let how := k.isa_ctx.regs.ebx
  let pset := k.isa_ctx.regs.ecx
  let poset := k.isa_ctx.regs.edx
  let oset := k.isa_ctx.signal_masks.blocked
  let updated : Sys Kernel :=
    if pset ≠ 0 then
      let set := mem_read64 k.isa_mem pset
      match sigprocmask_apply how k.isa_ctx.signal_masks.blocked set with
      | some b => .ok (k.set_blocked b)
      | none => .error (.fatal .sigprocmask_how)
    else .ok k
  match updated with
  | .error e => .error e
  | .ok k1 => if poset ≠ 0 then .ok (k1.set_mem (mem_write64 k1.isa_mem poset oset)) else .ok k1

/-- Body of `case syscall_code_rt_sigprocmask`. -/
def sys_rt_sigprocmask (env : Env) (k : Kernel) : Sys (Int × Kernel) :=
  match sys_rt_sigprocmask_update k with
  | .error e => .error e
  | .ok k1 => .ok (0, env.ke_process_events (env.ke_process_events_schedule k1))

/-- Body of `case syscall_code_sigreturn`. -/
def sys_sigreturn (env : Env) (k : Kernel) : Sys (Int × Kernel) :=
  .ok (0, env.ke_process_events (env.ke_process_events_schedule (env.signal_handler_return k)))

/-! ## File-descriptor table and host calls (services outside `syscall.c`) -/

/-- The host `errno` value `EBADF`. -/
def EBADF : Int := 9

/-- The host poll event `POLLIN`, asserted to be 1 by the `poll` case. -/
def POLLIN : Nat := 1

/-- The host poll event `POLLOUT`, asserted to be 4 by the `poll` case. -/
def POLLOUT : Nat := 4

/-- The open flag `O_NONBLOCK`, 04000 in `open_flags_map`. -/
def O_NONBLOCK : Nat := 2048

/-- The macro `RETVAL`: a host result of -1 becomes `-errno`. -/
def RETVAL (r : HostResult) : Int := if r.val = -1 then -r.errno else r.val

/-- Record a host call. -/
def Kernel.log (k : Kernel) (c : HostCall) : Kernel :=
  { k with host_calls := k.host_calls ++ [c] }

/-- Replace the file-descriptor table of the running context. -/
def Kernel.set_fdt (k : Kernel) (fdt : List FdEntry) : Kernel :=
  { k with isa_ctx := { k.isa_ctx with fdt := fdt } }

/-- Modelled from the spec: `fdt_get_host_fd` (outside `syscall.c`) gives the
host fd of a guest fd, or -1 when the table has no entry for it. -/
def fdt_get_host_fd (fdt : List FdEntry) (guest_fd : Int) : Int :=
  match fdt_entry_get fdt guest_fd with
  | some e => e.host_fd
  | none => -1

/-- Search of the first guest fd from `n` on that has no entry. -/
def fdt_free_index (fdt : List FdEntry) : Nat → Nat → Nat
  | 0, n => n
  | fuel + 1, n =>
    if (fdt_entry_get fdt (n : Int)).isSome then fdt_free_index fdt fuel (n + 1) else n

/-- Modelled from the spec: `fdt_entry_new` (outside `syscall.c`) allocates an
entry; its guest fd is distinct from those of the table (the first free
non-negative number).  The result is the entry and the new table. -/
def fdt_entry_new (fdt : List FdEntry) (kind : FdKind) (host_fd : Int) (path : List Nat)
    (flags : Nat) : FdEntry × List FdEntry :=
  let e : FdEntry :=
    { guest_fd := (fdt_free_index fdt fdt.length 0 : Nat), host_fd := host_fd, kind := kind,
      flags := flags, path := path }
  (e, fdt ++ [e])

/-- Modelled from the spec: `fdt_entry_free` (outside `syscall.c`) frees the
entry of a guest fd and deletes the temporary file of a `virtual` entry. -/
def fdt_entry_free (k : Kernel) (guest_fd : Int) : Kernel :=
  match fdt_entry_get k.isa_ctx.fdt guest_fd with
  | none => k
  | some e =>
    let k1 := if e.kind = FdKind.virtual then k.log (HostCall.unlink e.path) else k
    k1.set_fdt (k1.isa_ctx.fdt.filter (fun x => x.guest_fd != guest_fd))

/-- The assignment `fd->flags = arg` on the entry of `guest_fd`. -/
def fdt_set_flags (fdt : List FdEntry) (guest_fd : Int) (flags : Nat) : List FdEntry :=
  fdt.map (fun e => if e.guest_fd = guest_fd then { e with flags := flags } else e)

/-- The first `n` bytes of a host buffer that starts zero-filled. -/
def buf_take (data : List Nat) (n : Nat) : List Nat :=
  (List.range n).map (fun i => data.getD i 0)

/-- Value of a `uint16_t` stored at `addr`. -/
def mem_read16 (m : Mem) (addr : Nat) : Nat := le_decode (mem_read m addr 2)

/-! ## Futex waiters (service outside `syscall.c`) -/

/-- All the contexts of the kernel, the running one first. -/
def Kernel.contexts (k : Kernel) : List Ctx := k.isa_ctx :: k.ctx_list

/-- Put back a list of contexts, the running one first. -/
def Kernel.set_contexts (k : Kernel) : List Ctx → Kernel
  | [] => k
  | c :: cs => { k with isa_ctx := c, ctx_list := cs }

/-- Modelled from the spec: a waiter of `ctx_futex_wake` (outside `syscall.c`),
a context suspended on the futex `futex` with a stored bitset that meets
`bitset`. -/
def futex_waiter (futex bitset : Nat) (c : Ctx) : Bool :=
  c.status.suspended && c.status.futex && decide (c.wakeup_futex = futex) &&
    decide (c.wakeup_futex_bitset &&& bitset ≠ 0)

/-- Modelled from the spec: the waiter `ctx_futex_wake` takes next, given by
its position and serial: the one with the least sleep serial, the first one in
the list among equal serials. -/
def futex_first_waiter (futex bitset : Nat) : List Ctx → Option (Nat × Nat)
  | [] => none
  | c :: cs =>
    match futex_first_waiter futex bitset cs with
    | none => if futex_waiter futex bitset c then some (0, c.wakeup_futex_sleep) else none
    | some (i, s) =>
      if futex_waiter futex bitset c ∧ c.wakeup_futex_sleep ≤ s
      then some (0, c.wakeup_futex_sleep) else some (i + 1, s)

/-- Modelled from the spec: the loop of `ctx_futex_wake`, which wakes at most
`count` waiters of a list, least serial first; the result is the number woken
and the new list. -/
def ctx_futex_wake_list (futex bitset : Nat) : Nat → List Ctx → Nat × List Ctx
  | 0, l => (0, l)
  | count + 1, l =>
    match futex_first_waiter futex bitset l with
    | none => (0, l)
    | some (i, _) =>
      let r := ctx_futex_wake_list futex bitset count
        (ctx_update (fun c => ctx_clear_status c (ctx_suspended.or ctx_futex)) l i)
      (r.1 + 1, r.2)

/-- Modelled from the spec: `ctx_futex_wake` (outside `syscall.c`) wakes up to
`count` contexts suspended on `futex` whose stored bitset intersects `bitset`,
in ascending sleep-serial order, and returns the number woken.  A woken
context loses the suspended and futex status bits. -/
def ctx_futex_wake (k : Kernel) (futex count bitset : Nat) : Int × Kernel :=
  let r := ctx_futex_wake_list futex bitset count k.contexts
  ((r.1 : Int), k.set_contexts r.2)

/-- Body of the requeue loop of FUTEX_CMP_REQUEUE for one context of the
suspended list. -/
def futex_requeue (addr1 addr2 : Nat) (c : Ctx) : Ctx :=
  if c.status.suspended ∧ ctx_get_status c ctx_futex ∧ c.wakeup_futex = addr1
  then { c with wakeup_futex := addr2 } else c

/-- The new futex word of FUTEX_WAKE_OP; `none` for an invalid operation. -/
def futex_op_apply (op oldval oparg : Nat) : Option Nat :=
  if op = 0 then some oparg
  else if op = 1 then some ((oldval + oparg) % 4294967296)
  else if op = 2 then some (oldval ||| oparg)
  else if op = 3 then some (oldval &&& oparg)
  else if op = 4 then some (oldval ^^^ oparg)
  else none

/-- The condition of FUTEX_WAKE_OP on the signed old value; `none` for an
invalid comparison. -/
def futex_cmp_apply (cmp : Nat) (oldval cmparg : Int) : Option Bool :=
  if cmp = 0 then some (decide (oldval = cmparg))
  else if cmp = 1 then some (decide (oldval ≠ cmparg))
  else if cmp = 2 then some (decide (oldval < cmparg))
  else if cmp = 3 then some (decide (oldval ≤ cmparg))
  else if cmp = 4 then some (decide (oldval > cmparg))
  else if cmp = 5 then some (decide (oldval ≥ cmparg))
  else none

/-! ## Handlers of `syscall_do`, continued -/

/-- Body of `case syscall_code_close`. -/
def sys_close (k : Kernel) : Sys (Int × Kernel) :=
  let guest_fd := toInt32 k.isa_ctx.regs.ebx
  let host_fd := toU32 (fdt_get_host_fd k.isa_ctx.fdt guest_fd)
  match fdt_entry_get k.isa_ctx.fdt guest_fd with
  | none => .ok (-EBADF, k)
  | some fd =>
    let k1 := if host_fd > 2 then k.log (HostCall.close (toInt32 host_fd)) else k
    .ok (0, fdt_entry_free k1 fd.guest_fd)

/-- Body of `case syscall_code_read`; the host buffer allocation is taken to
succeed. -/
def sys_read (env : Env) (k : Kernel) : Sys (Int × Kernel) :=
  let guest_fd := toInt32 k.isa_ctx.regs.ebx
  let pbuf := k.isa_ctx.regs.ecx
  let count := k.isa_ctx.regs.edx
  match fdt_entry_get k.isa_ctx.fdt guest_fd with
  | none => .ok (-EBADF, k)
  | some fd =>
    let host_fd := fd.host_fd
    let polled := env.host_poll k host_fd POLLIN
    let k1 := k.log (HostCall.poll host_fd POLLIN)
    if polled.1.val < 0 then .error (.fatal .read_poll)
    else if polled.2 ≠ 0 ∨ fd.flags &&& O_NONBLOCK ≠ 0 then
      let got := env.host_read k1 host_fd count
      let retval := RETVAL got.1
      let k2 := k1.log (HostCall.read host_fd count)
      let k3 := if retval > 0
        then k2.set_mem (mem_write k2.isa_mem pbuf (buf_take got.2 retval.toNat)) else k2
      .ok (retval, k3)
    else
      .ok (0, env.ke_process_events_schedule (k1.set_ctx (ctx_set_status
        { k1.isa_ctx with wakeup_fd := guest_fd, wakeup_events := 1 }
        (ctx_suspended.or ctx_read))))

/-- Body of `case syscall_code_write`; the host buffer allocation is taken to
succeed. -/
def sys_write (env : Env) (k : Kernel) : Sys (Int × Kernel) :=
  let guest_fd := toInt32 k.isa_ctx.regs.ebx
  let pbuf := k.isa_ctx.regs.ecx
  let count := k.isa_ctx.regs.edx
  match fdt_entry_get k.isa_ctx.fdt guest_fd with
  | none => .ok (-EBADF, k)
  | some fd =>
    let host_fd := fd.host_fd
    let buf := mem_read k.isa_mem pbuf count
    let polled := env.host_poll k host_fd POLLOUT
    let k1 := k.log (HostCall.poll host_fd POLLOUT)
    if polled.2 ≠ 0 then
      .ok (RETVAL (env.host_write k1 host_fd buf), k1.log (HostCall.write host_fd buf))
    else
      .ok (0, env.ke_process_events_schedule (k1.set_ctx (ctx_set_status
        { k1.isa_ctx with wakeup_fd := guest_fd } (ctx_suspended.or ctx_write))))

/-- Body of `case syscall_code_dup`. -/
def sys_dup (env : Env) (k : Kernel) : Sys (Int × Kernel) :=
  let guest_fd := toInt32 k.isa_ctx.regs.ebx
  match fdt_entry_get k.isa_ctx.fdt guest_fd with
  | none => .ok (-EBADF, k)
  | some fd =>
    let dup_host := env.host_dup k fd.host_fd
    let k1 := k.log (HostCall.dup fd.host_fd)
    if dup_host.val < 0 then .ok (-dup_host.errno, k1)
    else
      let created := fdt_entry_new k1.isa_ctx.fdt FdKind.regular dup_host.val fd.path fd.flags
      .ok (created.1.guest_fd, k1.set_fdt created.2)

/-- Body of `case syscall_code_ioctl`. -/
def sys_ioctl (env : Env) (k : Kernel) : Sys (Int × Kernel) :=
  let guest_fd := toInt32 k.isa_ctx.regs.ebx
  let cmd := k.isa_ctx.regs.ecx
  let arg := k.isa_ctx.regs.edx
  match fdt_entry_get k.isa_ctx.fdt guest_fd with
  | none => .ok (-EBADF, k)
  | some fd =>
    if cmd ≥ 0x5401 ∨ cmd ≤ 0x5408 then
      let buf := mem_read k.isa_mem arg 60
      let done := env.host_ioctl k fd.host_fd cmd buf
      let retval := RETVAL done.1
      let k1 := k.log (HostCall.ioctl fd.host_fd cmd buf)
      if retval = 0 then .ok (retval, k1.set_mem (mem_write k1.isa_mem arg (buf_take done.2 60)))
      else .ok (retval, k1)
    else .error (.fatal .ioctl_cmd)

/-- Body of `case syscall_code_fcntl64`. -/
def sys_fcntl64 (env : Env) (k : Kernel) : Sys (Int × Kernel) :=
  let guest_fd := toInt32 k.isa_ctx.regs.ebx
  let cmd := k.isa_ctx.regs.ecx
  let arg := k.isa_ctx.regs.edx
  match fdt_entry_get k.isa_ctx.fdt guest_fd with
  | none => .ok (-EBADF, k)
  | some fd =>
    if fd.host_fd < 0 then .error (.fatal .fcntl64_host_fd)
    else if cmd = 1 ∨ cmd = 3 then
      .ok (RETVAL (env.host_fcntl k fd.host_fd cmd 0), k.log (HostCall.fcntl fd.host_fd cmd 0))
    else if cmd = 2 then
      .ok (RETVAL (env.host_fcntl k fd.host_fd cmd arg), k.log (HostCall.fcntl fd.host_fd cmd arg))
    else if cmd = 4 then
      let k1 := k.set_fdt (fdt_set_flags k.isa_ctx.fdt fd.guest_fd arg)
      .ok (RETVAL (env.host_fcntl k1 fd.host_fd cmd arg), k1.log (HostCall.fcntl fd.host_fd cmd arg))
    else .error (.fatal .fcntl64_cmd)

/-- Body of `case syscall_code_poll`. -/
def sys_poll (env : Env) (k : Kernel) : Sys (Int × Kernel) :=
  let pfds := k.isa_ctx.regs.ebx
  let nfds := k.isa_ctx.regs.ecx
  let timeout := toInt32 k.isa_ctx.regs.edx
  if nfds ≠ 1 then .error (.fatal .poll_nfds)
  else
    let guest_fd := toInt32 (mem_read32 k.isa_mem pfds)
    let events := mem_read16 k.isa_mem (pfds + 4)
    match fdt_entry_get k.isa_ctx.fdt guest_fd with
    | none => .ok (-EBADF, k)
    | some fd =>
      if events &&& (0xffff - 0x5) ≠ 0 then .error (.fatal .poll_events)
      else if fd.host_fd < 0 then .error (.fatal .poll_host_fd)
      else
        let host_events := (if events &&& 1 ≠ 0 then POLLIN else 0) |||
          (if events &&& 4 ≠ 0 then POLLOUT else 0)
        let polled := env.host_poll k fd.host_fd host_events
        let retval := RETVAL polled.1
        let k1 := k.log (HostCall.poll fd.host_fd host_events)
        if retval < 0 then .ok (retval, k1)
        else if retval > 0 then
          if events &&& polled.2 &&& POLLOUT ≠ 0 then
            .ok (1, k1.set_mem (mem_write k1.isa_mem pfds
              (le_encode 4 (mem_read32 k.isa_mem pfds) ++ le_encode 2 events ++ le_encode 2 POLLOUT)))
          else if events &&& polled.2 &&& POLLIN ≠ 0 then
            .ok (1, k1.set_mem (mem_write k1.isa_mem pfds
              (le_encode 4 (mem_read32 k.isa_mem pfds) ++ le_encode 2 events ++ le_encode 2 POLLIN)))
          else .error .assertion
        else
          let wakeup_time := if timeout ≥ 0
            then (env.ke_timer k1 + timeout.toNat * 1000) % 18446744073709551616 else 0
          .ok (retval, env.ke_process_events_schedule (k1.set_ctx (ctx_set_status
            { k1.isa_ctx with wakeup_time := wakeup_time, wakeup_fd := guest_fd,
                              wakeup_events := events }
            (ctx_suspended.or ctx_poll))))

/-- The loop of `writev` over the `vlen` elements of the io vector. -/
def writev_loop (env : Env) (host_fd : Int) : Nat → Nat → Int → Kernel → Int × Kernel
  | 0, _, retval, k => (retval, k)
  | n + 1, piovec, retval, k =>
    let iov_base := mem_read32 k.isa_mem piovec
    let iov_len := mem_read32 k.isa_mem (piovec + 4)
    let buf := mem_read k.isa_mem iov_base iov_len
    let length := toInt32 (toU32 (env.host_write k host_fd buf).val)
    let k1 := k.log (HostCall.write host_fd buf)
    if length < 0 then (-1, k1)
    else writev_loop env host_fd n (add32 piovec 8) (toInt32 (toU32 (retval + length))) k1

/-- Body of `case syscall_code_writev`.  For an unknown guest fd the source
assigns `errno = -EBADF` and leaves `retval` at its initial 0. -/
def sys_writev (env : Env) (k : Kernel) : Sys (Int × Kernel) :=
  let guest_fd := toInt32 k.isa_ctx.regs.ebx
  let piovec := k.isa_ctx.regs.ecx
  let vlen := k.isa_ctx.regs.edx
  match fdt_entry_get k.isa_ctx.fdt guest_fd with
  | none => .ok (0, k)
  | some fd =>
    if fd.kind = FdKind.pipe then .error (.fatal .writev_pipe)
    else .ok (writev_loop env fd.host_fd vlen piovec 0 k)

/-- Body of `case syscall_code_rt_sigsuspend`, up to the event tick that ends
it. -/
def sys_rt_sigsuspend_update (k : Kernel) : Kernel :=
  let newset := mem_read64 k.isa_mem k.isa_ctx.regs.ebx
  k.set_ctx (ctx_set_status
    { k.isa_ctx with
      signal_masks := { k.isa_ctx.signal_masks with
        backup := k.isa_ctx.signal_masks.blocked, blocked := newset } }
    (ctx_suspended.or ctx_sigsuspend))

/-- Body of `case syscall_code_rt_sigsuspend`. -/
def sys_rt_sigsuspend (env : Env) (k : Kernel) : Sys (Int × Kernel) :=
  .ok (0, env.ke_process_events (env.ke_process_events_schedule (sys_rt_sigsuspend_update k)))

/-- Body of `case syscall_code_futex`. -/
def sys_futex (k : Kernel) : Sys (Int × Kernel) :=
  let addr1 := k.isa_ctx.regs.ebx
  let op := k.isa_ctx.regs.ecx
  let val1 := k.isa_ctx.regs.edx
  let ptimeout := k.isa_ctx.regs.esi
  let addr2 := k.isa_ctx.regs.edi
  let val3 := k.isa_ctx.regs.ebp
  let cmd := op &&& (0xffffffff - (256 ||| 128))
  let futex := mem_read32 k.isa_mem addr1
  if cmd = 0 ∨ cmd = 9 then
    let bitset := if cmd = 9 then val3 else 0xffffffff
    if futex ≠ val1 then .ok (-11, k)
    else if ptimeout ≠ 0 then .error (.fatal .futex_wait_timeout)
    else
      let serial := k.futex_sleep_count + 1
      .ok (0, { k with
        futex_sleep_count := serial
        isa_ctx := ctx_set_status
          { k.isa_ctx with wakeup_futex := addr1, wakeup_futex_bitset := bitset,
                           wakeup_futex_sleep := serial }
          (ctx_suspended.or ctx_futex) })
  else if cmd = 1 ∨ cmd = 10 then
    let bitset := if cmd = 10 then val3 else 0xffffffff
    .ok (ctx_futex_wake k addr1 val1 bitset)
  else if cmd = 4 then
    if ptimeout ≠ 0x7fffffff then .error (.fatal .futex_cmp_requeue_timeout)
    else if futex ≠ val3 then .ok (-11, k)
    else
      let woken := ctx_futex_wake k addr1 val1 0xffffffff
      .ok (woken.1, woken.2.set_contexts (woken.2.contexts.map (futex_requeue addr1 addr2)))
  else if cmd = 5 then
    let op := (val3 >>> 28) &&& 0xf
    let cmp := (val3 >>> 24) &&& 0xf
    let oparg := (val3 >>> 12) &&& 0xfff
    let cmparg := val3 &&& 0xfff
    let oldval := mem_read32 k.isa_mem addr2
    match futex_op_apply op oldval oparg with
    | none => .error (.fatal .futex_wake_op_operation)
    | some newval =>
      let k1 := k.set_mem (mem_write32 k.isa_mem addr2 newval)
      let woken1 := ctx_futex_wake k1 addr1 val1 0xffffffff
      match futex_cmp_apply cmp (toInt32 oldval) (cmparg : Nat) with
      | none => .error (.fatal .futex_wake_op_condition)
      | some cond =>
        if cond then
          let woken2 := ctx_futex_wake woken1.2 addr2 (ptimeout % 4294967296) 0xffffffff
          .ok (toInt32 (toU32 (woken1.1 + woken2.1)), woken2.2)
        else .ok (woken1.1, woken1.2)
  else .error (.fatal (.futex_cmd cmd))

/-- The `sim_user_desc` record at `addr`: entry_number, base_addr and limit are
the first three 32-bit words; the bit fields fill the fourth word from its
least significant bit, so `seg_32bit` is bit 0 and `limit_in_pages` is bit 4. -/
structure sim_user_desc where
  entry_number : Nat
  base_addr : Nat
  limit : Nat
  seg_32bit : Bool
  limit_in_pages : Bool
  deriving DecidableEq, Repr

/-- Read of a `sim_user_desc` from guest memory. -/
def read_user_desc (m : Mem) (addr : Nat) : sim_user_desc :=
  { entry_number := mem_read32 m addr
    base_addr := mem_read32 m (addr + 4)
    limit := mem_read32 m (addr + 8)
    seg_32bit := decide (mem_read32 m (addr + 12) &&& 1 ≠ 0)
    limit_in_pages := decide (mem_read32 m (addr + 12) &&& 16 ≠ 0) }

/-- Body of `case syscall_code_clone`.  The new context, as `ctx_clone` made it
and the handler completed it, is added at the end of the context list. -/
def sys_clone (env : Env) (k : Kernel) : Sys (Int × Kernel) :=
  let flags := k.isa_ctx.regs.ebx
  let parent_tidptr := k.isa_ctx.regs.edx
  let child_tidptr := k.isa_ctx.regs.edi
  let newsp := if k.isa_ctx.regs.ecx = 0 then k.isa_ctx.regs.esp else k.isa_ctx.regs.ecx
  let new_ctx := env.ctx_clone k
  let retval := new_ctx.pid
  if flags &&& 0x00000f00 ≠ 0x00000f00 then .error (.fatal .clone_mandatory_flags)
  else if flags &&& (0xffffffff - 0x013d0fff) ≠ 0 then .error (.fatal .clone_unsupported_flags)
  else
    let c1 := { new_ctx with exit_signal := if flags &&& 0x10000 ≠ 0 then 0 else flags &&& 0xff }
    let m1 := if flags &&& 0x100000 ≠ 0
      then mem_write32 k.isa_mem parent_tidptr (toU32 new_ctx.pid) else k.isa_mem
    let c2 := if flags &&& 0x1000000 ≠ 0 then { c1 with set_child_tid := child_tidptr } else c1
    let c3 := if flags &&& 0x200000 ≠ 0 then { c2 with clear_child_tid := child_tidptr } else c2
    let tls : Sys (Mem × Ctx) :=
      if flags &&& 0x80000 ≠ 0 then
        let puinfo := k.isa_ctx.regs.esi
        let uinfo := read_user_desc m1 puinfo
        if uinfo.seg_32bit = false then .error (.fatal .clone_seg_32bit)
        else
          let limit := if uinfo.limit_in_pages then (uinfo.limit <<< 12) % 4294967296
            else uinfo.limit
          .ok (mem_write32 m1 puinfo 6,
            { c3 with glibc_segment_base := uinfo.base_addr, glibc_segment_limit := limit })
      else .ok (m1, c3)
    match tls with
    | .error e => .error e
    | .ok (m2, c4) =>
      let c5 := { c4 with initial_stack := newsp,
                          regs := { c4.regs with esp := newsp, eax := 0 } }
      .ok (retval, { k with isa_mem := m2, ctx_list := k.ctx_list ++ [c5] })

/-! ## Interval timers, nanosleep and getdents -/

/-- Body of `case syscall_code_setitimer`.  Each product `tv_sec * 1000000` is
the product of a `uint32_t` and an `int`, taken modulo 2^32; the sum stored in
`itimer_value` is a 64-bit sum, the one stored in `itimer_interval` a 32-bit
sum.  With `pvalue` zero the handler uses `itimerval` without having read it,
which is undefined. -/
def sys_setitimer (env : Env) (k : Kernel) : Sys (Int × Kernel) :=
  let now := env.ke_timer k
  let which := k.isa_ctx.regs.ebx
  let pvalue := k.isa_ctx.regs.ecx
  if which ≥ 3 then .error (.fatal .setitimer_which)
  else if pvalue = 0 then .error .undefined
  else
    let it_interval_tv_sec := mem_read32 k.isa_mem pvalue
    let it_interval_tv_usec := mem_read32 k.isa_mem (pvalue + 4)
    let it_value_tv_sec := mem_read32 k.isa_mem (pvalue + 8)
    let it_value_tv_usec := mem_read32 k.isa_mem (pvalue + 12)
    let value := (now + it_value_tv_sec * 1000000 % 4294967296 + it_value_tv_usec) %
      18446744073709551616
    let interval := (it_interval_tv_sec * 1000000 + it_interval_tv_usec) % 4294967296
    let c := { k.isa_ctx with
      itimer_value := k.isa_ctx.itimer_value.set which value
      itimer_interval := k.isa_ctx.itimer_interval.set which interval }
    .ok (0, env.ke_process_events_schedule (env.ctx_host_thread_timer_cancel (k.set_ctx c)))

/-- Body of `case syscall_code_getitimer`. -/
def sys_getitimer (env : Env) (k : Kernel) : Sys (Int × Kernel) :=
  let now := env.ke_timer k
  let which := k.isa_ctx.regs.ebx
  let pvalue := k.isa_ctx.regs.ecx
  if which ≥ 3 then .error (.fatal .getitimer_which)
  else
    let value := k.isa_ctx.itimer_value.getD which 0
    let interval := k.isa_ctx.itimer_interval.getD which 0
    let rem := if now < value then value - now else 0
    let itimerval := le_encode 4 (interval / 1000000) ++ le_encode 4 (interval % 1000000) ++
      le_encode 4 (rem / 1000000) ++ le_encode 4 (rem % 1000000)
    .ok (0, k.set_mem (mem_write k.isa_mem pvalue itimerval))

/-- Body of `case syscall_code_nanosleep`. -/
def sys_nanosleep (env : Env) (k : Kernel) : Sys (Int × Kernel) :=
  let rqtp := k.isa_ctx.regs.ebx
  let sec := mem_read32 k.isa_mem rqtp
  let nsec := mem_read32 k.isa_mem (rqtp + 4)
  let total := sec * 1000000 + nsec / 1000
  let c := { k.isa_ctx with wakeup_time := (env.ke_timer k + total) % 18446744073709551616 }
  .ok (0, env.ke_process_events_schedule
    (k.set_ctx (ctx_set_status c (ctx_suspended.or ctx_nanosleep))))

/-- The C function `strlen` on a byte buffer: the number of bytes before the
first NUL. -/
def strlen (s : List Nat) : Nat := (s.takeWhile (fun b => b != 0)).length

/-- The value `sim_dirent.d_reclen` of the getdents case, a `uint16_t`. -/
def getdents_reclen (e : linux_dirent) : Nat := (15 + strlen e.d_name) / 4 * 4 % 65536

/-- The five stores of the getdents loop for the record `e` at `guest_offs`. -/
def getdents_record (pdirent guest_offs : Nat) (e : linux_dirent) (m : Mem) : Mem :=
  let m1 := mem_write m (pdirent + guest_offs) (le_encode 4 e.d_ino)
  let m2 := mem_write m1 (pdirent + guest_offs + 4) (le_encode 4 e.d_off)
  let m3 := mem_write m2 (pdirent + guest_offs + 8) (le_encode 2 (getdents_reclen e))
  let m4 := mem_write_string m3 (pdirent + guest_offs + 10) e.d_name
  mem_write m4 (sub32 (pdirent + guest_offs + getdents_reclen e) 1) [e.d_type % 256]

/-- The loop `while (host_offs < nread)` of the getdents case over the records
that are left; `guest_offs` is a 32-bit value compared with `count` as
unsigned. -/
def getdents_loop (pdirent count : Nat) : List linux_dirent → Nat → Mem → Sys (Nat × Mem)
  | [], guest_offs, m => .ok (guest_offs, m)
  | e :: es, guest_offs, m =>
    let m1 := getdents_record pdirent guest_offs e m
    let guest_offs1 := (guest_offs + getdents_reclen e) % 4294967296
    if guest_offs1 > count then .error (.fatal .getdents_buffer)
    else getdents_loop pdirent count es guest_offs1 m1

/-- Body of `case syscall_code_getdents`; the host buffer allocation is taken
to succeed. -/
def sys_getdents (env : Env) (k : Kernel) : Sys (Int × Kernel) :=
  let fd := k.isa_ctx.regs.ebx
  let pdirent := k.isa_ctx.regs.ecx
  let count := k.isa_ctx.regs.edx
  let host_fd := toInt32 (toU32 (fdt_get_host_fd k.isa_ctx.fdt (toInt32 fd)))
  let k1 := k.log (HostCall.getdents host_fd count)
  match env.host_getdents k host_fd count with
  | none => .error (.fatal .getdents_host)
  | some [] => .ok (0, k1)
  | some (e :: es) =>
    match getdents_loop pdirent count (e :: es) 0 k1.isa_mem with
    | .error a => .error a
    | .ok (guest_offs, m) => .ok (toInt32 guest_offs, k1.set_mem m)

/-- The value `sim_dirent.d_reclen` of the getdents64 case, a `uint16_t`. -/
def getdents64_reclen (e : linux_dirent) : Nat := (27 + strlen e.d_name) / 8 * 8 % 65536

/-- The five stores of the getdents64 loop for the record `e` at `guest_offs`. -/
def getdents64_record (pdirent guest_offs : Nat) (e : linux_dirent) (m : Mem) : Mem :=
  let m1 := mem_write m (pdirent + guest_offs) (le_encode 8 e.d_ino)
  let m2 := mem_write m1 (pdirent + guest_offs + 8) (le_encode 8 e.d_off)
  let m3 := mem_write m2 (pdirent + guest_offs + 16) (le_encode 2 (getdents64_reclen e))
  let m4 := mem_write m3 (pdirent + guest_offs + 18) [e.d_type % 256]
  mem_write_string m4 (pdirent + guest_offs + 19) e.d_name

/-- The loop `while (host_offs < nread)` of the getdents64 case. -/
def getdents64_loop (pdirent count : Nat) : List linux_dirent → Nat → Mem → Sys (Nat × Mem)
  | [], guest_offs, m => .ok (guest_offs, m)
  | e :: es, guest_offs, m =>
    let m1 := getdents64_record pdirent guest_offs e m
    let guest_offs1 := (guest_offs + getdents64_reclen e) % 4294967296
    if guest_offs1 > count then .error (.fatal .getdents64_buffer)
    else getdents64_loop pdirent count es guest_offs1 m1

/-- Body of `case syscall_code_getdents64`; the host buffer allocation is taken
to succeed. -/
def sys_getdents64 (env : Env) (k : Kernel) : Sys (Int × Kernel) :=
  let fd := k.isa_ctx.regs.ebx
  let pdirent := k.isa_ctx.regs.ecx
  let count := k.isa_ctx.regs.edx
  let host_fd := toInt32 (toU32 (fdt_get_host_fd k.isa_ctx.fdt (toInt32 fd)))
  let k1 := k.log (HostCall.getdents host_fd count)
  match env.host_getdents k host_fd count with
  | none => .error (.fatal .getdents64_host)
  | some [] => .ok (0, k1)
  | some (e :: es) =>
    match getdents64_loop pdirent count (e :: es) 0 k1.isa_mem with
    | .error a => .error a
    | .ok (guest_offs, m) => .ok (toInt32 guest_offs, k1.set_mem m)

/-- The element `blockowners[i]`; an index outside the array is undefined. -/
def blockowners_get (k : Kernel) (i : Int) : Sys Int :=
  if 0 ≤ i then
    match k.blockowners.get? i.toNat with
    | some v => .ok v
    | none => .error .undefined
  else .error .undefined

/-- Body of `case syscall_code_disk_io` of `handle_guest_syscalls`.  The disk
file is taken to exist.  The buffer `data` is `malloc(numbytes)`: a negative
`numbytes` is a size no `malloc` grants, and `fread` or `fwrite` with that
count on the NULL buffer has no defined result.  The read mode hands the buffer
to `mem_write_string` as `fread` left it, without a terminator, so the call is
defined when there is a NUL among the bytes read and undefined otherwise.  In
write mode `disk_write n data` records the count given to `fwrite` and the
bytes that `mem_read_string` put in the buffer before the NUL. -/
def sys_disk_io (env : Env) (k : Kernel) : Sys (Int × Kernel) :=
  let op := toInt32 k.isa_ctx.regs.ebx
  let numbytes := toInt32 k.isa_ctx.regs.ecx
  let addr := k.isa_ctx.regs.edx
  let blocknum := toInt32 k.isa_ctx.regs.esi
  let offset := toInt32 k.isa_ctx.regs.edi
  if blocknum ≥ k.numblocks then .ok (-1, k)
  else
    match blockowners_get k blocknum with
    | .error e => .error e
    | .ok owner =>
      if owner ≠ 0 ∧ owner ≠ k.isa_ctx.uid then .ok (-2, k)
      else if toInt32 (toU32 (offset + numbytes)) > k.blocksize then .ok (-3, k)
      else
        let pos := blocknum * k.blocksize + offset
        let k1 := { k with host_calls := k.host_calls ++ [HostCall.disk_open, HostCall.disk_seek pos] }
        if op ≠ 0 then
          if owner = 0 then .ok (-2, k1)
          else if numbytes < 0 then .error .undefined
          else
            let data := (env.host_fread k1 pos numbytes).take numbytes.toNat
            if 0 ∈ data then
              let k2 := { k1 with
                host_calls := k1.host_calls ++ [HostCall.disk_read numbytes, HostCall.disk_close]
                isa_mem := mem_write_string k1.isa_mem addr data }
              .ok (0, env.send_to_io k2 30)
            else .error .undefined
        else
          let owners := if owner = 0
            then k1.blockowners.set blocknum.toNat k.isa_ctx.uid else k1.blockowners
          if numbytes < 0 then .error .undefined
          else
            let data := mem_read_string k1.isa_mem addr numbytes.toNat
            let k2 := { k1 with
              blockowners := owners
              host_calls := k1.host_calls ++ [HostCall.disk_write numbytes data, HostCall.disk_close] }
            .ok (0, env.send_to_io k2 30)

/-! ## The fd-set translators of `select` -/

/-- The host constant `FD_SETSIZE`, the number of bits of an `fd_set`. -/
def FD_SETSIZE : Nat := 1024

/-- Modelled from the spec: `fdt_get_guest_fd` (outside `syscall.c`) gives the
guest fd of the entry with the host fd `host_fd`, or -1 when the table has no
such entry. -/
def fdt_get_guest_fd (fdt : List FdEntry) (host_fd : Int) : Int :=
  match fdt.find? (fun e => e.host_fd == host_fd) with
  | some e => e.guest_fd
  | none => -1

/-- Modelled from the spec: `mem_zero` (outside `syscall.c`) zeroes `size`
bytes at `addr`. -/
def mem_zero (m : Mem) (addr size : Nat) : Mem := mem_write m addr (List.replicate size 0)

/-- Value of an `unsigned char` stored at `addr` (`mem_read(mem, addr, 1, &c)`). -/
def mem_read8 (m : Mem) (addr : Nat) : Nat := le_decode (mem_read m addr 1)

/-- The loop of `sim_fd_set_read` over the guest fds that are left.  A host
`fd_set` is the number whose bits are its members; `FD_SET` of a host fd at or
beyond `FD_SETSIZE` is undefined. -/
def sim_fd_set_read_loop (k : Kernel) (addr : Nat) : List Nat → Nat → Sys (Int × Nat)
  | [], fds => .ok (1, fds)
  | i :: rest, fds =>
    let nbyte := i >>> 3
    let nbit := i &&& 7
    let c := mem_read8 k.isa_mem (addr + nbyte)
    if c &&& (1 <<< nbit) = 0 then sim_fd_set_read_loop k addr rest fds
    else
      let host_fd := fdt_get_host_fd k.isa_ctx.fdt (i : Int)
      if host_fd < 0 then .ok (0, fds)
      else if host_fd ≥ FD_SETSIZE then .error .undefined
      else sim_fd_set_read_loop k addr rest (fds ||| (1 <<< host_fd.toNat))

/-- The function `sim_fd_set_read`: the return value and the host set. -/
def sim_fd_set_read (k : Kernel) (addr : Nat) (n : Int) : Sys (Int × Nat) :=
  sim_fd_set_read_loop k addr (List.range n.toNat) 0

/-- The loop of `sim_fd_set_write` over the indices that are left; `FD_ISSET`
of an index at or beyond `FD_SETSIZE` is undefined. -/
def sim_fd_set_write_loop (fdt : List FdEntry) (fds addr : Nat) : List Nat → Mem → Sys Mem
  | [], m => .ok m
  | i :: rest, m =>
    if i ≥ FD_SETSIZE then .error .undefined
    else if fds.testBit i = false then sim_fd_set_write_loop fdt fds addr rest m
    else
      let guest_fd := fdt_get_guest_fd fdt (i : Int)
      if guest_fd < 0 then .error .assertion
      else
        let nbyte := guest_fd.toNat >>> 3
        let nbit := guest_fd.toNat &&& 7
        let c := mem_read8 m (addr + nbyte)
        sim_fd_set_write_loop fdt fds addr rest
          (mem_write m (addr + nbyte) [(c ||| (1 <<< nbit)) % 256])

/-- The function `sim_fd_set_write`; a negative size for `mem_zero` is
undefined. -/
def sim_fd_set_write (k : Kernel) (addr fds : Nat) (n : Int) : Sys Kernel :=
  if addr = 0 then .ok k
  else if Int.tdiv (n + 7) 8 < 0 then .error .undefined
  else
    match sim_fd_set_write_loop k.isa_ctx.fdt fds addr (List.range n.toNat)
        (mem_zero k.isa_mem addr (Int.tdiv (n + 7) 8).toNat) with
    | .error a => .error a
    | .ok m => .ok (k.set_mem m)

/-! ## The record `sim_stat64` -/

/-- Conversion of an integer to the `uint64_t` it becomes on assignment. -/
def toU64 (i : Int) : Nat := (i % 18446744073709551616).toNat

/-- The host `struct stat`, with the fields `syscall_copy_stat64` reads, each
by its integer value. -/
structure stat where
  st_dev : Int
  st_ino : Int
  st_mode : Int
  st_nlink : Int
  st_uid : Int
  st_gid : Int
  st_rdev : Int
  st_size : Int
  st_blksize : Int
  st_blocks : Int
  st_atime : Int
  st_mtime : Int
  st_ctime : Int
  deriving DecidableEq, Repr

/-- The struct `sim_stat64`; every field holds the bit pattern of its C value
(`size` is an `int64_t`). -/
structure sim_stat64 where
  dev : Nat
  pad1 : Nat
  __ino : Nat
  mode : Nat
  nlink : Nat
  uid : Nat
  gid : Nat
  rdev : Nat
  pad2 : Nat
  size : Nat
  blksize : Nat
  blocks : Nat
  atime : Nat
  atime_nsec : Nat
  mtime : Nat
  mtime_nsec : Nat
  ctime : Nat
  ctime_nsec : Nat
  ino : Nat
  deriving DecidableEq, Repr

/-- The function `syscall_copy_stat64`: `bzero`, then the assignments. -/
def syscall_copy_stat64 (real : stat) : sim_stat64 :=
  { dev := toU64 real.st_dev
    pad1 := 0
    __ino := toU32 real.st_ino
    mode := toU32 real.st_mode
    nlink := toU32 real.st_nlink
    uid := toU32 real.st_uid
    gid := toU32 real.st_gid
    rdev := toU64 real.st_rdev
    pad2 := 0
    size := toU64 real.st_size
    blksize := toU32 real.st_blksize
    blocks := toU64 real.st_blocks
    atime := toU32 real.st_atime
    atime_nsec := 0
    mtime := toU32 real.st_mtime
    mtime_nsec := 0
    ctime := toU32 real.st_ctime
    ctime_nsec := 0
    ino := toU64 real.st_ino }

/-- Widths in bytes of the fields of `struct sim_stat64`, in the order of the
declaration. -/
def sim_stat64_widths : List Nat := [8, 4, 4, 4, 4, 4, 4, 8, 4, 8, 4, 8, 4, 4, 4, 4, 4, 4, 8]

/-- The fields of a `sim_stat64`, in the order of the declaration. -/
def sim_stat64_fields (s : sim_stat64) : List Nat :=
  [s.dev, s.pad1, s.__ino, s.mode, s.nlink, s.uid, s.gid, s.rdev, s.pad2, s.size, s.blksize,
   s.blocks, s.atime, s.atime_nsec, s.mtime, s.mtime_nsec, s.ctime, s.ctime_nsec, s.ino]

/-- Offsets of the fields of a struct that is `__attribute__((packed))`: each
field starts where the one before it ends. -/
def packed_offsets : List Nat → Nat → List Nat
  | [], _ => []
  | w :: ws, off => off :: packed_offsets ws (off + w)

/-- Bytes of a packed struct on a little-endian host, from the widths and the
values of its fields. -/
def packed_bytes : List Nat → List Nat → List Nat
  | w :: ws, v :: vs => le_encode w v ++ packed_bytes ws vs
  | _, _ => []

/-- The bytes of a `sim_stat64`, as the stat64 cases copy them to the guest. -/
def sim_stat64_bytes (s : sim_stat64) : List Nat :=
  packed_bytes sim_stat64_widths (sim_stat64_fields s)

/-- Decoding of the little-endian field of `w` bytes at offset `off`. -/
def field_at (bytes : List Nat) (off w : Nat) : Nat := le_decode ((bytes.drop off).take w)

/-! ## The other cases of the `switch` of `syscall_do`

Debug output has no effect on the state and is left out.  A call to the host
is a call of `Env.host_call`, logged in `host_calls`; local buffers are taken
to be large enough for what the host stores in them. -/

/-- Little-endian bytes of 32-bit fields, each the `uint32_t` an integer
becomes on assignment. -/
def pack32 : List Int → List Nat
  | [] => []
  | v :: vs => le_encode 4 (toU32 v) ++ pack32 vs

/-- The first `n` integers of a host record; a missing one reads 0. -/
def ints_take (vals : List Int) (n : Nat) : List Int :=
  (List.range n).map (fun i => vals.getD i 0)

/-- The state after a call to the host function `fn` was logged. -/
def Kernel.log_sys (k : Kernel) (fn : HostFn) (args : List Int) (bufs : List (List Nat)) :
    Kernel :=
  k.log (HostCall.sys fn args bufs)

/-- The macro `RETVAL` on the `int` a host result becomes on assignment. -/
def RETVAL32 (r : HostAnswer) : Int :=
  if toInt32 (toU32 r.val) = -1 then -r.errno else toInt32 (toU32 r.val)

/-- Body of `case syscall_code_exit`. -/
def sys_exit (env : Env) (k : Kernel) : Sys (Int × Kernel) :=
  let status := toInt32 k.isa_ctx.regs.ebx
  .ok (0, env.ctx_finish k status)

/-- The path "/proc/self/maps". -/
def proc_self_maps : List Nat :=
  [47, 112, 114, 111, 99, 47, 115, 101, 108, 102, 47, 109, 97, 112, 115]

/-- The path "/proc/self/exe". -/
def proc_self_exe : List Nat :=
  [47, 112, 114, 111, 99, 47, 115, 101, 108, 102, 47, 101, 120, 101]

/-- Body of `case syscall_code_open`.  A path is taken as the bytes before its
NUL; `mem_read_string` found no NUL within `MAX_PATH_SIZE` bytes exactly when
the length it returns is `MAX_PATH_SIZE`. -/
def sys_open (env : Env) (k : Kernel) : Sys (Int × Kernel) :=
  let pfilename := k.isa_ctx.regs.ebx
  let flags := toInt32 k.isa_ctx.regs.ecx
  let mode := toInt32 k.isa_ctx.regs.edx
  let filename := mem_read_string k.isa_mem pfilename env.MAX_PATH_SIZE
  if filename.length ≥ env.MAX_PATH_SIZE then .error (.fatal (.site .open_path))
  else
    let fullpath := env.gk_libopencl_redirect (env.ld_get_full_path k filename)
    if fullpath = proc_self_maps then
      let temppath := env.ctx_gen_proc_self_maps k
      let opened := env.host_call k HostFn.host_open [flags, mode] [temppath]
      let k1 := k.log_sys HostFn.host_open [flags, mode] [temppath]
      if toInt32 (toU32 opened.val) > 0 then
        let created := fdt_entry_new k1.isa_ctx.fdt FdKind.virtual (toInt32 (toU32 opened.val))
          temppath k.isa_ctx.regs.ecx
        .ok (created.1.guest_fd, k1.set_fdt created.2)
      else .error .assertion
    else
      let opened := env.host_call k HostFn.host_open [flags, mode] [fullpath]
      let k1 := k.log_sys HostFn.host_open [flags, mode] [fullpath]
      if toInt32 (toU32 opened.val) < 0 then .ok (-opened.errno, k1)
      else
        let created := fdt_entry_new k1.isa_ctx.fdt FdKind.regular (toInt32 (toU32 opened.val))
          fullpath k.isa_ctx.regs.ecx
        .ok (created.1.guest_fd, k1.set_fdt created.2)

/-- Body of `case syscall_code_unlink`. -/
def sys_unlink (env : Env) (k : Kernel) : Sys (Int × Kernel) :=
  let pfilename := k.isa_ctx.regs.ebx
  let filename := mem_read_string k.isa_mem pfilename env.MAX_PATH_SIZE
  if filename.length ≥ env.MAX_PATH_SIZE then .error (.fatal (.site .unlink_path))
  else
    let fullpath := env.ld_get_full_path k filename
    let done := env.host_call k HostFn.host_unlink [] [fullpath]
    .ok (RETVAL32 done, k.log_sys HostFn.host_unlink [] [fullpath])

/-- Body of `case syscall_code_time`. -/
def sys_time (env : Env) (k : Kernel) : Sys (Int × Kernel) :=
  let ptime := k.isa_ctx.regs.ebx
  let t := toU32 (env.host_call k HostFn.host_time [] []).val
  let k1 := k.log_sys HostFn.host_time [] []
  let k2 := if ptime ≠ 0 then k1.set_mem (mem_write32 k1.isa_mem ptime t) else k1
  .ok (toInt32 t, k2)

/-- Body of `case syscall_code_chmod`. -/
def sys_chmod (env : Env) (k : Kernel) : Sys (Int × Kernel) :=
  let pfilename := k.isa_ctx.regs.ebx
  let mode := k.isa_ctx.regs.ecx
  let filename := mem_read_string k.isa_mem pfilename env.MAX_PATH_SIZE
  if filename.length ≥ env.MAX_PATH_SIZE then .error (.fatal (.site .chmod_path))
  else
    let fullpath := env.ld_get_full_path k filename
    let done := env.host_call k HostFn.host_chmod [(mode : Int)] [fullpath]
    .ok (RETVAL32 done, k.log_sys HostFn.host_chmod [(mode : Int)] [fullpath])

/-- Body of `case syscall_code_lseek`. -/
def sys_lseek (env : Env) (k : Kernel) : Sys (Int × Kernel) :=
  let fd := k.isa_ctx.regs.ebx
  let offset := k.isa_ctx.regs.ecx
  let origin := k.isa_ctx.regs.edx
  let host_fd := toU32 (fdt_get_host_fd k.isa_ctx.fdt (toInt32 fd))
  let args := [toInt32 host_fd, (offset : Int), toInt32 origin]
  let done := env.host_call k HostFn.host_lseek args []
  .ok (RETVAL32 done, k.log_sys HostFn.host_lseek args [])

/-- Body of `case syscall_code_getpid`. -/
def sys_getpid (k : Kernel) : Sys (Int × Kernel) := .ok (k.isa_ctx.pid, k)

/-- Body of `case syscall_code_utime`. -/
def sys_utime (env : Env) (k : Kernel) : Sys (Int × Kernel) :=
  let pfilename := k.isa_ctx.regs.ebx
  let putimbuf := k.isa_ctx.regs.ecx
  let filename := mem_read_string k.isa_mem pfilename env.MAX_PATH_SIZE
  if filename.length ≥ env.MAX_PATH_SIZE then .error (.fatal (.site .utime_path))
  else
    let fullpath := env.ld_get_full_path k filename
    let actime := mem_read32 k.isa_mem putimbuf
    let modtime := mem_read32 k.isa_mem (putimbuf + 4)
    let args := [(actime : Int), (modtime : Int)]
    let done := env.host_call k HostFn.host_utime args [fullpath]
    .ok (RETVAL32 done, k.log_sys HostFn.host_utime args [fullpath])

/-- Body of `case syscall_code_access`. -/
def sys_access (env : Env) (k : Kernel) : Sys (Int × Kernel) :=
  let pfilename := k.isa_ctx.regs.ebx
  let mode := k.isa_ctx.regs.ecx
  let filename := mem_read_string k.isa_mem pfilename env.MAX_PATH_SIZE
  if filename.length ≥ env.MAX_PATH_SIZE then .error (.fatal (.site .access_path))
  else
    let fullpath := env.ld_get_full_path k filename
    let done := env.host_call k HostFn.host_access [toInt32 mode] [fullpath]
    .ok (RETVAL32 done, k.log_sys HostFn.host_access [toInt32 mode] [fullpath])

/-- Modelled from the spec: `ctx_get` (outside `syscall.c`) looks a context up
by its pid; the result is its position among the contexts of the kernel. -/
def ctx_get (k : Kernel) (pid : Int) : Option Nat :=
  ctx_find_index (fun c => decide (c.pid = pid)) k.contexts

/-- Modelled from the spec: `sim_sigset_add` (outside `syscall.c`) adds the
signal `sig` to a 64-bit signal set, as bit `sig - 1`.  A number outside 1 to
64 names no bit of the set and is taken to leave it as it is. -/
def sim_sigset_add (sigset : Nat) (sig : Int) : Nat :=
  if sig < 1 ∨ sig > 64 then sigset else sigset ||| (1 <<< (sig - 1).toNat)

/-- The store `sim_sigset_add(&ctx->signal_masks->pending, sig)`. -/
def ctx_add_pending (sig : Int) (c : Ctx) : Ctx :=
  { c with signal_masks :=
      { c.signal_masks with pending := sim_sigset_add c.signal_masks.pending sig } }

/-- The end of the kill and tgkill cases: the signal is added to the pending
set of the context at position `i`, the host thread of that context is
cancelled and the event tick is scheduled and run. -/
def send_signal (env : Env) (k : Kernel) (i : Nat) (sig : Int) : Kernel :=
  let k1 := k.set_contexts (ctx_update (ctx_add_pending sig) k.contexts i)
  env.ke_process_events (env.ke_process_events_schedule
    (env.ctx_host_thread_suspend_cancel k1 i))

/-- Body of `case syscall_code_kill`. -/
def sys_kill (env : Env) (k : Kernel) : Sys (Int × Kernel) :=
  let pid := k.isa_ctx.regs.ebx
  let sig := k.isa_ctx.regs.ecx
  match ctx_get k (toInt32 pid) with
  | none => .error (.fatal (.site .kill_pid))
  | some i => .ok (0, send_signal env k i (toInt32 sig))

/-- Body of `case syscall_code_rename`. -/
def sys_rename (env : Env) (k : Kernel) : Sys (Int × Kernel) :=
  let poldpath := k.isa_ctx.regs.ebx
  let pnewpath := k.isa_ctx.regs.ecx
  let oldpath := mem_read_string k.isa_mem poldpath env.MAX_PATH_SIZE
  let newpath := mem_read_string k.isa_mem pnewpath env.MAX_PATH_SIZE
  if oldpath.length ≥ env.MAX_PATH_SIZE ∨ newpath.length ≥ env.MAX_PATH_SIZE then
    .error (.fatal (.site .rename_path))
  else
    let oldfullpath := env.ld_get_full_path k oldpath
    let newfullpath := env.ld_get_full_path k newpath
    let done := env.host_call k HostFn.host_rename [] [oldfullpath, newfullpath]
    .ok (RETVAL32 done, k.log_sys HostFn.host_rename [] [oldfullpath, newfullpath])

/-- Body of `case syscall_code_mkdir`. -/
def sys_mkdir (env : Env) (k : Kernel) : Sys (Int × Kernel) :=
  let ppath := k.isa_ctx.regs.ebx
  let mode := k.isa_ctx.regs.ecx
  let path := mem_read_string k.isa_mem ppath env.MAX_PATH_SIZE
  if path.length ≥ env.MAX_PATH_SIZE then .error (.fatal (.site .mkdir_path))
  else
    let fullpath := env.ld_get_full_path k path
    let done := env.host_call k HostFn.host_mkdir [(mode : Int)] [fullpath]
    .ok (RETVAL32 done, k.log_sys HostFn.host_mkdir [(mode : Int)] [fullpath])

/-- Body of `case syscall_code_pipe`; the host answer holds `host_fd[0]` and
`host_fd[1]`. -/
def sys_pipe (env : Env) (k : Kernel) : Sys (Int × Kernel) :=
  let pfd := k.isa_ctx.regs.ebx
  let made := env.host_call k HostFn.host_pipe [] []
  let k1 := k.log_sys HostFn.host_pipe [] []
  if toInt32 (toU32 made.val) < 0 then .error (.fatal (.site .pipe_host))
  else
    let read_fd := fdt_entry_new k1.isa_ctx.fdt FdKind.pipe (made.ints.getD 0 0) [] 0
    let write_fd := fdt_entry_new read_fd.2 FdKind.pipe (made.ints.getD 1 0) [] 1
    let m1 := mem_write32 k1.isa_mem pfd (toU32 read_fd.1.guest_fd)
    let m2 := mem_write32 m1 (pfd + 4) (toU32 write_fd.1.guest_fd)
    .ok (0, (k1.set_fdt write_fd.2).set_mem m2)

/-- Body of `case syscall_code_times`; the host answer holds the four fields of
`struct tms`, which `syscall_copy_tms` copies to 32-bit fields. -/
def sys_times (env : Env) (k : Kernel) : Sys (Int × Kernel) :=
  let ptms := k.isa_ctx.regs.ebx
  let done := env.host_call k HostFn.host_times [] []
  let k1 := k.log_sys HostFn.host_times [] []
  let sim_tms := pack32 (ints_take done.ints 4)
  let k2 := if ptms ≠ 0 then k1.set_mem (mem_write k1.isa_mem ptms sim_tms) else k1
  .ok (toInt32 (toU32 done.val), k2)

/-- Body of `case syscall_code_getppid`. -/
def sys_getppid (k : Kernel) : Sys (Int × Kernel) :=
  match k.isa_ctx.parent with
  | none => .ok (1, k)
  | some pid => .ok (pid, k)

/-- Body of `case syscall_code_setrlimit`; `RLIMIT_DATA` is 2 and
`RLIMIT_STACK` is 3 on the host. -/
def sys_setrlimit (k : Kernel) : Sys (Int × Kernel) :=
  let resource := k.isa_ctx.regs.ebx
  if resource = 2 ∨ resource = 3 then .ok (0, k)
  else .error (.fatal (.site .setrlimit_resource))

/-- Body of `case syscall_code_getrusage`; the host answer holds the 18 fields
that `syscall_copy_rusage` copies to 32-bit fields. -/
def sys_getrusage (env : Env) (k : Kernel) : Sys (Int × Kernel) :=
  let who := k.isa_ctx.regs.ebx
  let pru := k.isa_ctx.regs.ecx
  if who ≠ 0 then .error (.fatal (.site .getrusage_who))
  else
    let done := env.host_call k HostFn.host_getrusage [0] []
    let k1 := k.log_sys HostFn.host_getrusage [0] []
    let retval := RETVAL32 done
    if retval = 0 then
      .ok (retval, k1.set_mem (mem_write k1.isa_mem pru (pack32 (ints_take done.ints 18))))
    else .ok (retval, k1)

/-- Body of `case syscall_code_gettimeofday`; the host answer holds `tv_sec`,
`tv_usec`, `tz_minuteswest` and `tz_dsttime`, of which the first four bytes
are stored. -/
def sys_gettimeofday (env : Env) (k : Kernel) : Sys (Int × Kernel) :=
  let ptv := k.isa_ctx.regs.ebx
  let ptz := k.isa_ctx.regs.ecx
  let done := env.host_call k HostFn.host_gettimeofday [] []
  let k1 := k.log_sys HostFn.host_gettimeofday [] []
  let m1 := if ptv ≠ 0
    then mem_write32 (mem_write32 k1.isa_mem ptv (toU32 (done.ints.getD 0 0))) (ptv + 4)
      (toU32 (done.ints.getD 1 0))
    else k1.isa_mem
  let m2 := if ptz ≠ 0
    then mem_write32 (mem_write32 m1 ptz (toU32 (done.ints.getD 2 0))) (ptz + 4)
      (toU32 (done.ints.getD 3 0))
    else m1
  .ok (RETVAL32 done, k1.set_mem m2)

/-- Body of `case syscall_code_readlink`.  The path is used without a length
test: without a NUL within `MAX_PATH_SIZE` bytes the buffer `path_str` is not
terminated, which is undefined.  The `strcpy` of an executable path that does
not fit in `dest_path` is undefined.  The host answer holds the
`MAX_PATH_SIZE` bytes of `dest_path` after the host `readlink`, which stores no
NUL: `strlen` is undefined unless there is a NUL among them.  `EFAULT` is 14. -/
def sys_readlink (env : Env) (k : Kernel) : Sys (Int × Kernel) :=
  let path := k.isa_ctx.regs.ebx
  let buf := k.isa_ctx.regs.ecx
  let bufsz := k.isa_ctx.regs.edx
  let path_str := mem_read_string k.isa_mem path env.MAX_PATH_SIZE
  if path_str.length ≥ env.MAX_PATH_SIZE then .error .undefined
  else
    let full_path_str := env.ld_get_full_path k path_str
    if full_path_str = proc_self_exe then
      let dest_path := k.isa_ctx.loader.exe
      if strlen dest_path ≥ env.MAX_PATH_SIZE then .error .undefined
      else if strlen dest_path + 1 > bufsz then .ok (-14, k)
      else .ok (0, k.set_mem (mem_write_string k.isa_mem buf dest_path))
    else
      let done := env.host_call k HostFn.host_readlink [(env.MAX_PATH_SIZE : Int)]
        [full_path_str]
      let k1 := k.log_sys HostFn.host_readlink [(env.MAX_PATH_SIZE : Int)] [full_path_str]
      let retval := RETVAL32 done
      if retval < 0 then .ok (retval, k1)
      else
        let dest_path := done.bytes.take env.MAX_PATH_SIZE
        if 0 ∈ dest_path then
          if strlen dest_path + 1 > bufsz then .ok (-14, k1)
          else .ok (retval, k1.set_mem (mem_write_string k1.isa_mem buf dest_path))
        else .error .undefined

/-- Body of `case syscall_code_munmap`. -/
def sys_munmap (k : Kernel) : Sys (Int × Kernel) :=
  let addr := k.isa_ctx.regs.ebx
  let size := k.isa_ctx.regs.ecx
  if addr &&& (MEM_PAGESIZE - 1) ≠ 0 then .error (.fatal (.site .munmap_align))
  else .ok (0, k.set_mem (mem_unmap k.isa_mem addr (ROUND_UP32 size)))

/-- Body of `case syscall_code_fchmod`. -/
def sys_fchmod (env : Env) (k : Kernel) : Sys (Int × Kernel) :=
  let fd := k.isa_ctx.regs.ebx
  let mode := k.isa_ctx.regs.ecx
  let host_fd := toU32 (fdt_get_host_fd k.isa_ctx.fdt (toInt32 fd))
  let args := [toInt32 host_fd, (mode : Int)]
  let done := env.host_call k HostFn.host_fchmod args []
  .ok (RETVAL32 done, k.log_sys HostFn.host_fchmod args [])

/-- The branch `SYS_SOCKET` of the socketcall case; `O_RDWR` is 2. -/
def socketcall_socket (env : Env) (k : Kernel) (args : Nat) : Sys (Int × Kernel) :=
  let family := mem_read32 k.isa_mem args
  let type := mem_read32 k.isa_mem (args + 4)
  let protocol := mem_read32 k.isa_mem (args + 8)
  if type &&& 0xff ≠ 1 then .error (.fatal (.site .socketcall_type))
  else
    let hargs := [toInt32 family, toInt32 type, toInt32 protocol]
    let made := env.host_call k HostFn.host_socket hargs []
    let k1 := k.log_sys HostFn.host_socket hargs []
    if toInt32 (toU32 made.val) < 0 then .ok (-made.errno, k1)
    else
      let created := fdt_entry_new k1.isa_ctx.fdt FdKind.socket (toInt32 (toU32 made.val)) [] 2
      .ok (created.1.guest_fd, k1.set_fdt created.2)

/-- The branch `SYS_CONNECT` of the socketcall case. -/
def socketcall_connect (env : Env) (k : Kernel) (args : Nat) : Sys (Int × Kernel) :=
  let guest_fd := mem_read32 k.isa_mem args
  let paddr := mem_read32 k.isa_mem (args + 4)
  let addrlen := mem_read32 k.isa_mem (args + 8)
  if addrlen > env.MAX_STRING_SIZE then .error (.fatal (.site .socketcall_connect_size))
  else
    let addr := mem_read k.isa_mem paddr addrlen
    match fdt_entry_get k.isa_ctx.fdt (toInt32 guest_fd) with
    | none => .ok (-EBADF, k)
    | some fd =>
      if fd.kind ≠ FdKind.socket then .error (.fatal (.site .socketcall_not_socket))
      else
        let done := env.host_call k HostFn.host_connect [fd.host_fd, (addrlen : Int)] [addr]
        .ok (RETVAL32 done, k.log_sys HostFn.host_connect [fd.host_fd, (addrlen : Int)] [addr])

/-- The branch `SYS_GETPEERNAME` of the socketcall case; the host allocation is
taken to succeed.  The host answer holds the length the host stores in
`host_addrlen` and the bytes it stores in the buffer of `addrlen` bytes; the
copy of more than `addrlen` bytes out of that buffer is undefined. -/
def socketcall_getpeername (env : Env) (k : Kernel) (args : Nat) : Sys (Int × Kernel) :=
  let guest_fd := mem_read32 k.isa_mem args
  let paddr := mem_read32 k.isa_mem (args + 4)
  let paddrlen := mem_read32 k.isa_mem (args + 8)
  match fdt_entry_get k.isa_ctx.fdt (toInt32 guest_fd) with
  | none => .ok (-EBADF, k)
  | some fd =>
    let addrlen := mem_read32 k.isa_mem paddrlen
    let got := env.host_call k HostFn.host_getpeername [fd.host_fd, (addrlen : Int)] []
    let k1 := k.log_sys HostFn.host_getpeername [fd.host_fd, (addrlen : Int)] []
    let retval := RETVAL32 got
    if retval < 0 then .ok (retval, k1)
    else
      let host_addrlen := toU32 (got.ints.getD 0 0)
      if host_addrlen > addrlen then .error .undefined
      else
        let m1 := mem_write32 k1.isa_mem paddrlen host_addrlen
        .ok (retval, k1.set_mem (mem_write m1 paddr (buf_take got.bytes host_addrlen)))

/-- Body of `case syscall_code_socketcall`. -/
def sys_socketcall (env : Env) (k : Kernel) : Sys (Int × Kernel) :=
  let call := toInt32 k.isa_ctx.regs.ebx
  let args := k.isa_ctx.regs.ecx
  if call = 1 then socketcall_socket env k args
  else if call = 3 then socketcall_connect env k args
  else if call = 7 then socketcall_getpeername env k args
  else .error (.fatal (.site .socketcall_call))

/-- A field of 65 bytes of `struct sim_utsname` holding the string `s`. -/
def utsname_field (s : List Nat) : List Nat := buf_take s 65

/-- The bytes of the variable `sim_utsname`: "Linux", "multi2sim",
"2.6.18-6-686", "#1 Mon Jul 17 09:21:59 UTC 2006", "i686" and an empty
domain name. -/
def sim_utsname : List Nat :=
  utsname_field [76, 105, 110, 117, 120] ++
  utsname_field [109, 117, 108, 116, 105, 50, 115, 105, 109] ++
  utsname_field [50, 46, 54, 46, 49, 56, 45, 54, 45, 54, 56, 54] ++
  utsname_field [35, 49, 32, 77, 111, 110, 32, 74, 117, 108, 32, 49, 55, 32, 48, 57, 58, 50,
    49, 58, 53, 57, 32, 85, 84, 67, 32, 50, 48, 48, 54] ++
  utsname_field [105, 54, 56, 54] ++
  utsname_field []

/-- Body of `case syscall_code_newuname`. -/
def sys_newuname (k : Kernel) : Sys (Int × Kernel) :=
  let putsname := k.isa_ctx.regs.ebx
  .ok (0, k.set_mem (mem_write k.isa_mem putsname sim_utsname))

/-- Modelled from the spec: `mem_protect` (outside `syscall.c`) gives the
mapped pages of a range a new permission set. -/
def mem_protect (m : Mem) (addr size : Nat) (perm : Perm) : Mem :=
  { pages := fun p =>
      if in_range addr size p then (m.pages p).map (fun _ => perm) else m.pages p
    bytes := m.bytes
    calls := m.calls ++ [MemCall.protect addr size perm] }

/-- Body of `case syscall_code_mprotect`. -/
def sys_mprotect (k : Kernel) : Sys (Int × Kernel) :=
  let start := k.isa_ctx.regs.ebx
  let len := k.isa_ctx.regs.ecx
  let prot := k.isa_ctx.regs.edx
  let perm := ((if prot &&& 0x01 ≠ 0 then mem_access_read else Perm.none).or
    (if prot &&& 0x02 ≠ 0 then mem_access_write else Perm.none)).or
    (if prot &&& 0x04 ≠ 0 then mem_access_exec else Perm.none)
  .ok (0, k.set_mem (mem_protect k.isa_mem start len perm))

/-- Body of `case syscall_code_llseek`. -/
def sys_llseek (env : Env) (k : Kernel) : Sys (Int × Kernel) :=
  let fd := k.isa_ctx.regs.ebx
  let offset_high := toInt32 k.isa_ctx.regs.ecx
  let offset_low := toInt32 k.isa_ctx.regs.edx
  let presult := k.isa_ctx.regs.esi
  let origin := k.isa_ctx.regs.edi
  let host_fd := toU32 (fdt_get_host_fd k.isa_ctx.fdt (toInt32 fd))
  if offset_high ≠ -1 ∧ offset_high ≠ 0 then .error (.fatal (.site .llseek_high))
  else
    let args := [toInt32 host_fd, offset_low, toInt32 origin]
    let offset := (env.host_call k HostFn.host_lseek args []).val
    let k1 := k.log_sys HostFn.host_lseek args []
    let retval := toInt32 (toU32 offset)
    if retval ≥ 0 ∧ presult ≠ 0 then
      .ok (0, k1.set_mem (mem_write64 k1.isa_mem presult (toU64 offset)))
    else .ok (retval, k1)

/-- The end of the select case, after the three sets were read: the host
answer holds the three sets as the host `select` leaves them. -/
def select_host (env : Env) (k : Kernel) (n : Int) (inp outp exp tvp fds_in fds_out fds_ex : Nat) :
    Sys (Int × Kernel) :=
  let tv_sec := if tvp ≠ 0 then mem_read32 k.isa_mem tvp else 0
  let tv_usec := if tvp ≠ 0 then mem_read32 k.isa_mem (tvp + 4) else 0
  if tv_sec ≠ 0 ∨ tv_usec ≠ 0 then .error (.fatal (.site .select_tv))
  else
    let args := [n, (fds_in : Int), (fds_out : Int), (fds_ex : Int)]
    let done := env.host_call k HostFn.host_select args []
    let k1 := k.log_sys HostFn.host_select args []
    let retval := RETVAL32 done
    if retval < 0 then .ok (retval, k1)
    else
      match sim_fd_set_write k1 inp (done.ints.getD 0 0).toNat n with
      | .error a => .error a
      | .ok k2 =>
        match sim_fd_set_write k2 outp (done.ints.getD 1 0).toNat n with
        | .error a => .error a
        | .ok k3 =>
          match sim_fd_set_write k3 exp (done.ints.getD 2 0).toNat n with
          | .error a => .error a
          | .ok k4 => .ok (retval, k4)

/-- Body of `case syscall_code_select`. -/
def sys_select (env : Env) (k : Kernel) : Sys (Int × Kernel) :=
  let n := toInt32 k.isa_ctx.regs.ebx
  let inp := k.isa_ctx.regs.ecx
  let outp := k.isa_ctx.regs.edx
  let exp := k.isa_ctx.regs.esi
  let tvp := k.isa_ctx.regs.edi
  match sim_fd_set_read k inp n with
  | .error a => .error a
  | .ok r1 =>
    if r1.1 = 0 then .ok (-EBADF, k)
    else
      match sim_fd_set_read k outp n with
      | .error a => .error a
      | .ok r2 =>
        if r2.1 = 0 then .ok (-EBADF, k)
        else
          match sim_fd_set_read k exp n with
          | .error a => .error a
          | .ok r3 =>
            if r3.1 = 0 then .ok (-EBADF, k)
            else select_host env k n inp outp exp tvp r1.2 r2.2 r3.2

/-- Body of `case syscall_code_msync`: the call is ignored. -/
def sys_msync (k : Kernel) : Sys (Int × Kernel) := .ok (0, k)

/-- Body of `case syscall_code_sysctl`.  The loop over the `nlen` names only
prints them; its counter is an `int`, so for `nlen` above 2147483647 the
increment overflows, which is undefined. -/
def sys_sysctl (k : Kernel) : Sys (Int × Kernel) :=
  let pargs := k.isa_ctx.regs.ebx
  let nlen := mem_read32 k.isa_mem (pargs + 4)
  let poldval := mem_read32 k.isa_mem (pargs + 8)
  let oldlenp := mem_read32 k.isa_mem (pargs + 12)
  let pnewval := mem_read32 k.isa_mem (pargs + 16)
  let newlen := mem_read32 k.isa_mem (pargs + 20)
  if nlen > 2147483647 then .error .undefined
  else if oldlenp = 0 ∨ poldval = 0 then .error (.fatal (.site .sysctl_oldval))
  else if pnewval ≠ 0 ∨ newlen ≠ 0 then .error (.fatal (.site .sysctl_newval))
  else
    let m1 := mem_write32 k.isa_mem oldlenp 0
    .ok (0, k.set_mem (mem_write m1 poldval [0]))

/-- Body of `case syscall_code_sched_setparam`: the call is ignored. -/
def sys_sched_setparam (k : Kernel) : Sys (Int × Kernel) := .ok (0, k)

/-- Body of `case syscall_code_sched_getparam`. -/
def sys_sched_getparam (k : Kernel) : Sys (Int × Kernel) :=
  let pparam := k.isa_ctx.regs.ecx
  .ok (0, k.set_mem (mem_write32 k.isa_mem pparam 0))

/-- Body of `case syscall_code_sched_getscheduler`. -/
def sys_sched_getscheduler (k : Kernel) : Sys (Int × Kernel) := .ok (0, k)

/-- Body of `case syscall_code_sched_get_priority_max`. -/
def sys_sched_get_priority_max (k : Kernel) : Sys (Int × Kernel) :=
  let policy := k.isa_ctx.regs.ebx
  if policy = 0 then .ok (0, k)
  else if policy = 1 then .ok (99, k)
  else if policy = 2 then .ok (99, k)
  else .error (.fatal (.site .sched_get_priority_max_policy))

/-- Body of `case syscall_code_sched_get_priority_min`. -/
def sys_sched_get_priority_min (k : Kernel) : Sys (Int × Kernel) :=
  let policy := k.isa_ctx.regs.ebx
  if policy = 0 then .ok (0, k)
  else if policy = 1 then .ok (1, k)
  else if policy = 2 then .ok (1, k)
  else .error (.fatal (.site .sched_get_priority_min_policy))

/-- Modelled from the spec: the size of `struct sim_sigaction` (declared outside
`syscall.c`): handler(4) flags(4) restorer(4) mask(8). -/
def sim_sigaction_size : Nat := 20

/-- Body of `case syscall_code_rt_sigaction`; the table `sigaction` has 64
records, each taken as its bytes. -/
def sys_rt_sigaction (k : Kernel) : Sys (Int × Kernel) :=
  let sig := k.isa_ctx.regs.ebx
  let pact := k.isa_ctx.regs.ecx
  let poact := k.isa_ctx.regs.edx
  if sig < 1 ∨ sig > 64 then .error (.fatal (.site .rt_sigaction_signal))
  else
    let act := mem_read k.isa_mem pact sim_sigaction_size
    let m1 := if poact ≠ 0
      then mem_write k.isa_mem poact
        (buf_take (k.isa_ctx.sigaction.getD (sig - 1) []) sim_sigaction_size)
      else k.isa_mem
    let c1 := if pact ≠ 0
      then { k.isa_ctx with sigaction := k.isa_ctx.sigaction.set (sig - 1) act }
      else k.isa_ctx
    .ok (0, (k.set_mem m1).set_ctx c1)

/-- Body of `case syscall_code_getcwd`; `ERANGE` is 34. -/
def sys_getcwd (k : Kernel) : Sys (Int × Kernel) :=
  let pbuf := k.isa_ctx.regs.ebx
  let size := k.isa_ctx.regs.ecx
  let cwd := k.isa_ctx.loader.cwd
  let len := strlen cwd % 4294967296
  if size ≤ len then .ok (-34, k)
  else .ok (toInt32 (len + 1), k.set_mem (mem_write_string k.isa_mem pbuf cwd))

/-- Body of `case syscall_code_getrlimit`. -/
def sys_getrlimit (k : Kernel) : Sys (Int × Kernel) :=
  let resource := k.isa_ctx.regs.ebx
  let prlim := k.isa_ctx.regs.ecx
  let store := fun (cur max : Nat) =>
    k.set_mem (mem_write k.isa_mem prlim (le_encode 4 cur ++ le_encode 4 max))
  if resource = 2 then .ok (0, store 0xffffffff 0xffffffff)
  else if resource = 3 then .ok (0, store k.isa_ctx.loader.stack_size 0xffffffff)
  else if resource = 7 then .ok (0, store 0x400 0x400)
  else .error (.fatal (.site .getrlimit_resource))

/-- Body of `case syscall_code_ftruncate64`. -/
def sys_ftruncate64 (env : Env) (k : Kernel) : Sys (Int × Kernel) :=
  let fd := k.isa_ctx.regs.ebx
  let length := k.isa_ctx.regs.ecx
  let host_fd := toU32 (fdt_get_host_fd k.isa_ctx.fdt (toInt32 fd))
  let args := [toInt32 host_fd, (length : Int)]
  let done := env.host_call k HostFn.host_ftruncate args []
  .ok (RETVAL32 done, k.log_sys HostFn.host_ftruncate args [])

/-- The host `struct stat` of a host answer: its integers are the fields of
`stat` in the order of the declaration. -/
def stat_of_answer (r : HostAnswer) : stat :=
  { st_dev := r.ints.getD 0 0, st_ino := r.ints.getD 1 0, st_mode := r.ints.getD 2 0,
    st_nlink := r.ints.getD 3 0, st_uid := r.ints.getD 4 0, st_gid := r.ints.getD 5 0,
    st_rdev := r.ints.getD 6 0, st_size := r.ints.getD 7 0, st_blksize := r.ints.getD 8 0,
    st_blocks := r.ints.getD 9 0, st_atime := r.ints.getD 10 0, st_mtime := r.ints.getD 11 0,
    st_ctime := r.ints.getD 12 0 }

/-- The end of the three stat64 cases: when the host call returned 0 the
translated record is copied to `pstatbuf`. -/
def stat64_store (k1 : Kernel) (pstatbuf : Nat) (done : HostAnswer) : Sys (Int × Kernel) :=
  let retval := RETVAL32 done
  if retval = 0 then
    .ok (retval, k1.set_mem (mem_write k1.isa_mem pstatbuf
      (sim_stat64_bytes (syscall_copy_stat64 (stat_of_answer done)))))
  else .ok (retval, k1)

/-- Body of `case syscall_code_stat64`. -/
def sys_stat64 (env : Env) (k : Kernel) : Sys (Int × Kernel) :=
  let pfilename := k.isa_ctx.regs.ebx
  let pstatbuf := k.isa_ctx.regs.ecx
  let filename := mem_read_string k.isa_mem pfilename env.MAX_PATH_SIZE
  if filename.length ≥ env.MAX_PATH_SIZE then .error (.fatal (.site .stat64_path))
  else
    let fullpath := env.ld_get_full_path k filename
    stat64_store (k.log_sys HostFn.host_stat [] [fullpath]) pstatbuf
      (env.host_call k HostFn.host_stat [] [fullpath])

/-- Body of `case syscall_code_lstat64`. -/
def sys_lstat64 (env : Env) (k : Kernel) : Sys (Int × Kernel) :=
  let pfilename := k.isa_ctx.regs.ebx
  let pstatbuf := k.isa_ctx.regs.ecx
  let filename := mem_read_string k.isa_mem pfilename env.MAX_PATH_SIZE
  if filename.length ≥ env.MAX_PATH_SIZE then .error (.fatal (.site .lstat64_path))
  else
    let fullpath := env.ld_get_full_path k filename
    stat64_store (k.log_sys HostFn.host_lstat [] [fullpath]) pstatbuf
      (env.host_call k HostFn.host_lstat [] [fullpath])

/-- Body of `case syscall_code_fstat64`. -/
def sys_fstat64 (env : Env) (k : Kernel) : Sys (Int × Kernel) :=
  let fd := k.isa_ctx.regs.ebx
  let pstatbuf := k.isa_ctx.regs.ecx
  let host_fd := toU32 (fdt_get_host_fd k.isa_ctx.fdt (toInt32 fd))
  stat64_store (k.log_sys HostFn.host_fstat [toInt32 host_fd] []) pstatbuf
    (env.host_call k HostFn.host_fstat [toInt32 host_fd] [])

/-- Body of `case syscall_code_getuid`. -/
def sys_getuid (env : Env) (k : Kernel) : Sys (Int × Kernel) :=
  .ok (RETVAL32 (env.host_call k HostFn.host_getuid [] []), k.log_sys HostFn.host_getuid [] [])

/-- Body of `case syscall_code_getgid`. -/
def sys_getgid (env : Env) (k : Kernel) : Sys (Int × Kernel) :=
  .ok (RETVAL32 (env.host_call k HostFn.host_getgid [] []), k.log_sys HostFn.host_getgid [] [])

/-- Body of `case syscall_code_geteuid`. -/
def sys_geteuid (env : Env) (k : Kernel) : Sys (Int × Kernel) :=
  .ok (RETVAL32 (env.host_call k HostFn.host_geteuid [] []), k.log_sys HostFn.host_geteuid [] [])

/-- Body of `case syscall_code_getegid`. -/
def sys_getegid (env : Env) (k : Kernel) : Sys (Int × Kernel) :=
  .ok (RETVAL32 (env.host_call k HostFn.host_getegid [] []), k.log_sys HostFn.host_getegid [] [])

/-- Body of `case syscall_code_chown`. -/
def sys_chown (env : Env) (k : Kernel) : Sys (Int × Kernel) :=
  let pfilename := k.isa_ctx.regs.ebx
  let owner := k.isa_ctx.regs.ecx
  let group := k.isa_ctx.regs.edx
  let filename := mem_read_string k.isa_mem pfilename env.MAX_PATH_SIZE
  if filename.length ≥ env.MAX_PATH_SIZE then .error (.fatal (.site .chown_path))
  else
    let fullpath := env.ld_get_full_path k filename
    let args := [(owner : Int), (group : Int)]
    let done := env.host_call k HostFn.host_chown args [fullpath]
    .ok (RETVAL32 done, k.log_sys HostFn.host_chown args [fullpath])

/-- Body of `case syscall_code_madvise`: the call does nothing. -/
def sys_madvise (k : Kernel) : Sys (Int × Kernel) := .ok (0, k)

/-- Body of `case syscall_code_gettid`. -/
def sys_gettid (k : Kernel) : Sys (Int × Kernel) := .ok (k.isa_ctx.pid, k)

/-- Body of `case syscall_code_sched_setaffinity`: the call is ignored and
returns `num_procs`. -/
def sys_sched_setaffinity (k : Kernel) : Sys (Int × Kernel) := .ok (4, k)

/-- Body of `case syscall_code_sched_getaffinity`: the mask `(1 << 4) - 1` is
stored and `num_procs` returned. -/
def sys_sched_getaffinity (k : Kernel) : Sys (Int × Kernel) :=
  let pmask := k.isa_ctx.regs.edx
  .ok (4, k.set_mem (mem_write32 k.isa_mem pmask 15))

/-- Body of `case syscall_code_set_thread_area`. -/
def sys_set_thread_area (k : Kernel) : Sys (Int × Kernel) :=
  let puinfo := k.isa_ctx.regs.ebx
  let uinfo := read_user_desc k.isa_mem puinfo
  if uinfo.seg_32bit = false then .error (.fatal (.site .set_thread_area_seg_32bit))
  else
    let limit := if uinfo.limit_in_pages then (uinfo.limit <<< 12) % 4294967296
      else uinfo.limit
    let c1 := { k.isa_ctx with glibc_segment_base := uinfo.base_addr,
                               glibc_segment_limit := limit }
    if uinfo.entry_number = 0xffffffff then
      if k.isa_ctx.glibc_segment_base ≠ 0 then .error (.fatal (.site .set_thread_area_already_set))
      else .ok (0, (k.set_ctx c1).set_mem (mem_write32 k.isa_mem puinfo 6))
    else
      if uinfo.entry_number ≠ 6 then .error (.fatal (.site .set_thread_area_entry_number))
      else if k.isa_ctx.glibc_segment_base = 0 then .error (.fatal (.site .set_thread_area_not_set))
      else .ok (0, k.set_ctx c1)

/-- Body of `case syscall_code_fadvise64`: the call does nothing. -/
def sys_fadvise64 (k : Kernel) : Sys (Int × Kernel) := .ok (0, k)

/-- Body of `case syscall_code_exit_group`. -/
def sys_exit_group (env : Env) (k : Kernel) : Sys (Int × Kernel) :=
  let status := toInt32 k.isa_ctx.regs.ebx
  .ok (0, env.ctx_finish_group k status)

/-- Body of `case syscall_code_set_tid_address`. -/
def sys_set_tid_address (k : Kernel) : Sys (Int × Kernel) :=
  let tidptr := k.isa_ctx.regs.ebx
  .ok (k.isa_ctx.pid, k.set_ctx { k.isa_ctx with clear_child_tid := tidptr })

/-- Body of `case syscall_code_clock_getres`. -/
def sys_clock_getres (k : Kernel) : Sys (Int × Kernel) :=
  let pres := k.isa_ctx.regs.ecx
  .ok (0, k.set_mem (mem_write32 (mem_write32 k.isa_mem pres 0) (pres + 4) 1))

/-- Body of `case syscall_code_tgkill`. -/
def sys_tgkill (env : Env) (k : Kernel) : Sys (Int × Kernel) :=
  let tgid := k.isa_ctx.regs.ebx
  let pid := k.isa_ctx.regs.ecx
  let sig := k.isa_ctx.regs.edx
  if toInt32 tgid = -1 then .error (.fatal (.site .tgkill_tgid))
  else
    match ctx_get k (toInt32 pid) with
    | none => .error (.fatal (.site .tgkill_pid))
    | some i => .ok (0, send_signal env k i (toInt32 sig))

/-- Body of `case syscall_code_set_robust_list`. -/
def sys_set_robust_list (k : Kernel) : Sys (Int × Kernel) :=
  let head := k.isa_ctx.regs.ebx
  let len := k.isa_ctx.regs.ecx
  if len ≠ 12 then .error (.fatal (.site .set_robust_list_len))
  else .ok (0, k.set_ctx { k.isa_ctx with robust_list_head := head })

/-- The 32-bit words of `n` arguments at `pargs`. -/
def read_words (m : Mem) (pargs : Nat) (n : Nat) : List Nat :=
  (List.range n).map (fun i => mem_read32 m (pargs + 4 * i))

/-- Body of `case syscall_code_opencl`. -/
def sys_opencl (env : Env) (k : Kernel) : Sys (Int × Kernel) :=
  let func_code := k.isa_ctx.regs.ebx
  let pargs := k.isa_ctx.regs.ecx
  if func_code < env.OPENCL_FUNC_FIRST ∨ func_code > env.OPENCL_FUNC_LAST then
    .error (.fatal (.site .opencl_func_code))
  else
    let func_argc := env.opencl_func_argc (func_code - env.OPENCL_FUNC_FIRST)
    if func_argc ≤ env.OPENCL_MAX_ARGS then
      .ok (env.opencl_func_run k func_code (read_words k.isa_mem pargs func_argc))
    else .error .assertion

/-! ## The dispatcher -/

/-- The function `handle_guest_syscalls`. -/
def handle_guest_syscalls (env : Env) (k : Kernel) : Sys (Int × Kernel) :=
  let syscode := toInt32 k.isa_ctx.regs.eax
  if syscode = env.syscall_code_get_pid then .ok (k.isa_ctx.pid, k)
  else if syscode = env.syscall_code_set_instruction_slice then
    .ok (toInt32 k.isa_ctx.regs.ebx,
      k.set_ctx { k.isa_ctx with instr_slice := toInt32 k.isa_ctx.regs.ebx })
  else if syscode = env.syscall_code_disk_io then sys_disk_io env k
  else if syscode ≥ env.syscall_code_count then .ok (-38, k)
  else .error (.fatal (.not_implemented syscode))

/-- The `switch` of `syscall_do` on Linux syscall numbers, with all its 80
`case` labels and its `default`.  The labels are distinct numbers, so the
order of the tests does not matter. -/
def syscall_linux (env : Env) (syscode : Int) (k : Kernel) : Sys (Int × Kernel) :=
  if syscode = syscall_code_waitpid then sys_waitpid k
  else if syscode = syscall_code_brk then sys_brk k
  else if syscode = syscall_code_mmap then sys_mmap env k
  else if syscode = syscall_code_sigreturn then sys_sigreturn env k
  else if syscode = syscall_code_mremap then sys_mremap k
  else if syscode = syscall_code_rt_sigprocmask then sys_rt_sigprocmask env k
  else if syscode = syscall_code_mmap2 then sys_mmap2 env k
  else if syscode = syscall_code_read then sys_read env k
  else if syscode = syscall_code_write then sys_write env k
  else if syscode = syscall_code_close then sys_close k
  else if syscode = syscall_code_dup then sys_dup env k
  else if syscode = syscall_code_ioctl then sys_ioctl env k
  else if syscode = syscall_code_clone then sys_clone env k
  else if syscode = syscall_code_writev then sys_writev env k
  else if syscode = syscall_code_poll then sys_poll env k
  else if syscode = syscall_code_rt_sigsuspend then sys_rt_sigsuspend env k
  else if syscode = syscall_code_fcntl64 then sys_fcntl64 env k
  else if syscode = syscall_code_futex then sys_futex k
  else if syscode = syscall_code_setitimer then sys_setitimer env k
  else if syscode = syscall_code_getitimer then sys_getitimer env k
  else if syscode = syscall_code_getdents then sys_getdents env k
  else if syscode = syscall_code_nanosleep then sys_nanosleep env k
  else if syscode = syscall_code_getdents64 then sys_getdents64 env k
  else if syscode = syscall_code_exit then sys_exit env k
  else if syscode = syscall_code_open then sys_open env k
  else if syscode = syscall_code_unlink then sys_unlink env k
  else if syscode = syscall_code_time then sys_time env k
  else if syscode = syscall_code_chmod then sys_chmod env k
  else if syscode = syscall_code_lseek then sys_lseek env k
  else if syscode = syscall_code_getpid then sys_getpid k
  else if syscode = syscall_code_utime then sys_utime env k
  else if syscode = syscall_code_access then sys_access env k
  else if syscode = syscall_code_kill then sys_kill env k
  else if syscode = syscall_code_rename then sys_rename env k
  else if syscode = syscall_code_mkdir then sys_mkdir env k
  else if syscode = syscall_code_pipe then sys_pipe env k
  else if syscode = syscall_code_times then sys_times env k
  else if syscode = syscall_code_getppid then sys_getppid k
  else if syscode = syscall_code_setrlimit then sys_setrlimit k
  else if syscode = syscall_code_getrusage then sys_getrusage env k
  else if syscode = syscall_code_gettimeofday then sys_gettimeofday env k
  else if syscode = syscall_code_readlink then sys_readlink env k
  else if syscode = syscall_code_munmap then sys_munmap k
  else if syscode = syscall_code_fchmod then sys_fchmod env k
  else if syscode = syscall_code_socketcall then sys_socketcall env k
  else if syscode = syscall_code_newuname then sys_newuname k
  else if syscode = syscall_code_mprotect then sys_mprotect k
  else if syscode = syscall_code_llseek then sys_llseek env k
  else if syscode = syscall_code_select then sys_select env k
  else if syscode = syscall_code_msync then sys_msync k
  else if syscode = syscall_code_sysctl then sys_sysctl k
  else if syscode = syscall_code_sched_setparam then sys_sched_setparam k
  else if syscode = syscall_code_sched_getparam then sys_sched_getparam k
  else if syscode = syscall_code_sched_getscheduler then sys_sched_getscheduler k
  else if syscode = syscall_code_sched_get_priority_max then sys_sched_get_priority_max k
  else if syscode = syscall_code_sched_get_priority_min then sys_sched_get_priority_min k
  else if syscode = syscall_code_rt_sigaction then sys_rt_sigaction k
  else if syscode = syscall_code_getcwd then sys_getcwd k
  else if syscode = syscall_code_getrlimit then sys_getrlimit k
  else if syscode = syscall_code_ftruncate64 then sys_ftruncate64 env k
  else if syscode = syscall_code_stat64 then sys_stat64 env k
  else if syscode = syscall_code_lstat64 then sys_lstat64 env k
  else if syscode = syscall_code_fstat64 then sys_fstat64 env k
  else if syscode = syscall_code_getuid then sys_getuid env k
  else if syscode = syscall_code_getgid then sys_getgid env k
  else if syscode = syscall_code_geteuid then sys_geteuid env k
  else if syscode = syscall_code_getegid then sys_getegid env k
  else if syscode = syscall_code_chown then sys_chown env k
  else if syscode = syscall_code_madvise then sys_madvise k
  else if syscode = syscall_code_gettid then sys_gettid k
  else if syscode = syscall_code_sched_setaffinity then sys_sched_setaffinity k
  else if syscode = syscall_code_sched_getaffinity then sys_sched_getaffinity k
  else if syscode = syscall_code_set_thread_area then sys_set_thread_area k
  else if syscode = syscall_code_fadvise64 then sys_fadvise64 k
  else if syscode = syscall_code_exit_group then sys_exit_group env k
  else if syscode = syscall_code_set_tid_address then sys_set_tid_address k
  else if syscode = syscall_code_clock_getres then sys_clock_getres k
  else if syscode = syscall_code_tgkill then sys_tgkill env k
  else if syscode = syscall_code_set_robust_list then sys_set_robust_list k
  else if syscode = syscall_code_opencl then sys_opencl env k
  else if syscode ≥ env.syscall_code_count then .ok (-38, k)
  else .error (.fatal (.not_implemented syscode))

/-- The part of `syscall_do` before its last statement: emulator-private calls
above 325; otherwise the debug and frequency bookkeeping and then the Linux
`switch`.  For a number below `syscall_code_count` the bookkeeping reads
`syscall_name[syscode]` and increments `syscall_freq[syscode]`; both arrays
start at index 0, so for a negative number the accesses are outside them,
which is undefined.  The entries of `syscall.dat` are taken to be numbered
from 0 without a gap, so that every index from 0 to `syscall_code_count - 1`
is inside both arrays. -/
def syscall_dispatch (env : Env) (k : Kernel) : Sys (Int × Kernel) :=
  let syscode := toInt32 k.isa_ctx.regs.eax
  if syscode > 325 then handle_guest_syscalls env k
  else if syscode < env.syscall_code_count ∧ syscode < 0 then .error .undefined
  else syscall_linux env syscode k

/-- The function `syscall_do`: run `syscall_dispatch` (the bookkeeping and the
handler), then write the return value to EAX unless the call is `sigreturn` or
the context is now suspended. -/
def syscall_do (env : Env) (k : Kernel) : Sys Kernel :=
  let syscode := toInt32 k.isa_ctx.regs.eax
  match syscall_dispatch env k with
  | .error e => .error e
  | .ok (retval, k1) =>
    if syscode ≠ syscall_code_sigreturn ∧ ¬ ctx_get_status k1.isa_ctx ctx_suspended then
      .ok (k1.set_eax (toU32 retval))
    else .ok k1

/-- Numbers of all the `case` labels of the `switch` of `syscall_do`. -/
def syscall_linux_cases : List Int :=
  [syscall_code_waitpid, syscall_code_brk, syscall_code_mmap, syscall_code_sigreturn,
   syscall_code_mremap, syscall_code_rt_sigprocmask, syscall_code_mmap2, syscall_code_read,
   syscall_code_write, syscall_code_close, syscall_code_dup, syscall_code_ioctl,
   syscall_code_clone, syscall_code_writev, syscall_code_poll, syscall_code_rt_sigsuspend,
   syscall_code_fcntl64, syscall_code_futex, syscall_code_setitimer,
   syscall_code_getitimer, syscall_code_getdents, syscall_code_nanosleep,
   syscall_code_getdents64, syscall_code_exit, syscall_code_open, syscall_code_unlink,
   syscall_code_time, syscall_code_chmod, syscall_code_lseek, syscall_code_getpid,
   syscall_code_utime, syscall_code_access, syscall_code_kill, syscall_code_rename,
   syscall_code_mkdir, syscall_code_pipe, syscall_code_times, syscall_code_getppid,
   syscall_code_setrlimit, syscall_code_getrusage, syscall_code_gettimeofday,
   syscall_code_readlink, syscall_code_munmap, syscall_code_fchmod,
   syscall_code_socketcall, syscall_code_newuname, syscall_code_mprotect,
   syscall_code_llseek, syscall_code_select, syscall_code_msync, syscall_code_sysctl,
   syscall_code_sched_setparam, syscall_code_sched_getparam,
   syscall_code_sched_getscheduler, syscall_code_sched_get_priority_max,
   syscall_code_sched_get_priority_min, syscall_code_rt_sigaction, syscall_code_getcwd,
   syscall_code_getrlimit, syscall_code_ftruncate64, syscall_code_stat64,
   syscall_code_lstat64, syscall_code_fstat64, syscall_code_getuid, syscall_code_getgid,
   syscall_code_geteuid, syscall_code_getegid, syscall_code_chown, syscall_code_madvise,
   syscall_code_gettid, syscall_code_sched_setaffinity, syscall_code_sched_getaffinity,
   syscall_code_set_thread_area, syscall_code_fadvise64, syscall_code_exit_group,
   syscall_code_set_tid_address, syscall_code_clock_getres, syscall_code_tgkill,
   syscall_code_set_robust_list, syscall_code_opencl]

/-! ## The hashtable of `hashtable.c`

A C string is taken as the list of its bytes before the terminating NUL, so
`strdup` is the identity and `strlen` the length.  A bin of the table, a chain
of `entry_t` nodes linked by `next`, is the list of its nodes in chain order. -/

/-- The struct `entry_t` without its `next` pointer. -/
structure entry_t where
  key : List Nat
  value : List Nat
  deriving DecidableEq, Repr

/-- The struct `hashtable_t`: `size` and the bins of `table`. -/
structure hashtable_t where
  size : Int
  table : List (List entry_t)
  deriving DecidableEq, Repr

/-- The function `ht_create`. -/
def ht_create (size : Int) : hashtable_t :=
  { size := size, table := List.replicate size.toNat [] }

/-- The value of `key[i]` converted to `unsigned long`; `char` is signed, as on
x86. -/
def char_to_ulong (c : Nat) : Nat :=
  if c < 128 then c else c + 18446744073709551616 - 256

/-- The loop of `ht_hash` over the bytes that are left, from the value
`hashval`; `ULONG_MAX` is `2^64 - 1`. -/
def ht_hash_loop : List Nat → Nat → Nat
  | [], hashval => hashval
  | c :: cs, hashval =>
    if hashval < 18446744073709551615
    then ht_hash_loop cs ((hashval * 256 % 18446744073709551616 + char_to_ulong c) %
      18446744073709551616)
    else hashval

/-- The function `ht_hash`; the remainder by a `size` of 0 is undefined. -/
def ht_hash (hashtable : hashtable_t) (key : List Nat) : Sys Int :=
  let size := (hashtable.size % 18446744073709551616).toNat
  if size = 0 then .error .undefined
  else .ok (toInt32 (ht_hash_loop key 0 % size))

/-- The C function `strcmp` on unsigned bytes: negative, zero or positive. -/
def strcmp : List Nat → List Nat → Int
  | [], [] => 0
  | [], _ :: _ => -1
  | _ :: _, [] => 1
  | a :: as, b :: bs => if a < b then -1 else if a > b then 1 else strcmp as bs

/-- The function `ht_newpair`; `next` is where the caller puts the node. -/
def ht_newpair (key value : List Nat) : entry_t := { key := key, value := value }

/-- The element `hashtable->table[bin]`; an index outside the array is
undefined. -/
def ht_bin (hashtable : hashtable_t) (bin : Int) : Sys (List entry_t) :=
  if 0 ≤ bin then
    match hashtable.table.get? bin.toNat with
    | some chain => .ok chain
    | none => .error .undefined
  else .error .undefined

/-- The loop `while (next && next->key && strcmp(key, next->key) > 0)` of
`ht_set` and `ht_get`: the nodes passed, in chain order, and the chain from
`next` on.  `last` is the last node passed, and is not assigned when no node
is passed. -/
def ht_walk (key : List Nat) : List entry_t → List entry_t → List entry_t × List entry_t
  | passed, [] => (passed, [])
  | passed, n :: rest =>
    if strcmp key n.key > 0 then ht_walk key (passed ++ [n]) rest else (passed, n :: rest)

/-- The function `ht_set`.  The store `last->next = ...` through a `last` that
was never assigned is undefined. -/
def ht_set (hashtable : hashtable_t) (key value : List Nat) : Sys hashtable_t :=
  match ht_hash hashtable key with
  | .error e => .error e
  | .ok bin =>
    match ht_bin hashtable bin with
    | .error e => .error e
    | .ok chain =>
      let walked := ht_walk key [] chain
      let store := fun (c : List entry_t) =>
        ({ hashtable with table := hashtable.table.set bin.toNat c } : hashtable_t)
      if chain = [] then .ok (store [ht_newpair key value])
      else
        match walked.2 with
        | [] =>
          if walked.1 = [] then .error .undefined
          else .ok (store (walked.1 ++ [ht_newpair key value]))
        | n :: rest =>
          if strcmp key n.key = 0 then
            if walked.1 = [] then .error .undefined
            else .ok (store (walked.1 ++ ht_newpair key value :: n :: rest))
          else .ok (store (walked.1 ++ { n with value := value } :: rest))

/-- The function `ht_get`; `none` is the NULL result. -/
def ht_get (hashtable : hashtable_t) (key : List Nat) : Sys (Option (List Nat)) :=
  match ht_hash hashtable key with
  | .error e => .error e
  | .ok bin =>
    match ht_bin hashtable bin with
    | .error e => .error e
    | .ok chain =>
      match (ht_walk key [] chain).2 with
      | [] => .ok none
      | pair :: _ => .ok (some pair.value)

/-- The table after `ht_create(1)` and `ht_set(h, "b", "1")`. -/
def ht_demo : hashtable_t := { size := 1, table := [[{ key := [98], value := [49] }]] }

/-! ## Predicates used to state the claims -/

/-- What a guest `sim_linux_dirent` made from the host record `e` looks like in
the memory `m` at `base`: `d_ino` and `d_off` on 32 bits, `d_reclen`, the name
with its NUL at offset 10 and the file type in the last byte of the record. -/
def getdents_record_at (m : Mem) (base : Nat) (e : linux_dirent) : Prop :=
  mem_read32 m base = e.d_ino % 4294967296 ∧
  mem_read32 m (base + 4) = e.d_off % 4294967296 ∧
  mem_read16 m (base + 8) = getdents_reclen e ∧
  mem_read m (base + 10) (strlen e.d_name + 1) =
    e.d_name.takeWhile (fun b => b != 0) ++ [0] ∧
  mem_read8 m (base + getdents_reclen e - 1) = e.d_type % 256

/-- What a guest `sim_linux_dirent64` made from the host record `e` looks like
in the memory `m` at `base`: `d_ino` and `d_off` on 64 bits, `d_reclen`,
`d_type` and the name with its NUL at offset 19. -/
def getdents64_record_at (m : Mem) (base : Nat) (e : linux_dirent) : Prop :=
  mem_read64 m base = e.d_ino % 18446744073709551616 ∧
  mem_read64 m (base + 8) = e.d_off % 18446744073709551616 ∧
  mem_read16 m (base + 16) = getdents64_reclen e ∧
  mem_read8 m (base + 18) = e.d_type % 256 ∧
  mem_read m (base + 19) (strlen e.d_name + 1) =
    e.d_name.takeWhile (fun b => b != 0) ++ [0]

/-- The bytes that `fread` leaves in the buffer of a `disk_io` read request in
the state `k`: at most `numbytes` bytes of the disk file, from the position
`blocknum * blocksize + offset`, read after the `fopen` and the `fseek`. -/
def disk_io_bytes_read (env : Env) (k : Kernel) : List Nat :=
  let pos := toInt32 k.isa_ctx.regs.esi * k.blocksize + toInt32 k.isa_ctx.regs.edi
  (env.host_fread
    { k with host_calls := k.host_calls ++ [HostCall.disk_open, HostCall.disk_seek pos] }
    pos (toInt32 k.isa_ctx.regs.ecx)).take (toInt32 k.isa_ctx.regs.ecx).toNat

/-! ## Concrete states used to evaluate the handlers -/

/-- A guest memory with no page mapped. -/
def mem_empty : Mem := { pages := fun _ => none, bytes := fun _ => 0, calls := [] }

/-- A register file with all registers zero. -/
def regs_zero : Regs :=
  { eax := 0, ebx := 0, ecx := 0, edx := 0, esi := 0, edi := 0, ebp := 0, esp := 0, eip := 0 }

/-- A running context with pid 100, program break 0x10000000 and an empty
file-descriptor table. -/
def ctx_demo : Ctx :=
  { pid := 100, uid := 1, parent := none, status := { running := true }, regs := regs_zero,
    loader := { brk := 268435456 }, signal_masks := { pending := 0, blocked := 0, backup := 0 },
    fdt := [], wakeup_pid := 0, exit_code := 0, instr_slice := 0 }

/-- A kernel state with the context `ctx_demo` alone and an empty memory. -/
def kernel_demo : Kernel :=
  { isa_ctx := ctx_demo, ctx_list := [], isa_mem := mem_empty, blocksize := 512, numblocks := 8,
    blockowners := [0, 0, 0, 0, 0, 0, 0, 0], host_calls := [] }

/-- The state `kernel_demo` with the registers replaced. -/
def kernel_with_regs (r : Regs) : Kernel :=
  { kernel_demo with isa_ctx := { ctx_demo with regs := r } }

/-- Entry state of `brk(0x10001234)` with break 0x10000000 and no page mapped. -/
def brk_grow_demo : Kernel := kernel_with_regs { regs_zero with eax := 45, ebx := 268440116 }

/-- Entry state of `brk(0x10001234)` with break 0x10000000 when the page at
0x10001000 is already mapped. -/
def brk_conflict_demo : Kernel :=
  { brk_grow_demo with
    isa_mem := { mem_empty with
      pages := fun p => if p = 65537 then some (mem_access_read.or mem_access_write) else none } }

/-- A sample environment: the emulator-private calls are numbered 326 to 328,
the table bound is 329, the services outside `syscall.c` do nothing, paths
are left as they are, the disk file holds zero bytes, every host descriptor is
ready, host writes take all the bytes, every other host function returns 0,
and `ctx_clone` copies the caller under the next pid. -/
def env_demo : Env :=
  { syscall_code_count := 329
    syscall_code_get_pid := 326
    syscall_code_set_instruction_slice := 327
    syscall_code_disk_io := 328
    MAX_PATH_SIZE := 200
    MAX_STRING_SIZE := 200
    OPENCL_FUNC_FIRST := 1000
    OPENCL_FUNC_LAST := 1073
    OPENCL_MAX_ARGS := 14
    opencl_func_argc := fun _ => 0
    ke_process_events := fun k => k
    ke_process_events_schedule := fun k => k
    signal_handler_return := fun k => k
    send_to_io := fun k _ => k
    ctx_host_thread_timer_cancel := fun k => k
    ctx_finish := fun k _ => k
    ctx_finish_group := fun k _ => k
    ctx_host_thread_suspend_cancel := fun k _ => k
    opencl_func_run := fun k _ _ => (0, k)
    ke_timer := fun _ => 0
    ctx_clone := fun k =>
      { k.isa_ctx with pid := k.isa_ctx.pid + 1, parent := some k.isa_ctx.pid }
    ld_get_full_path := fun _ path => path
    gk_libopencl_redirect := fun path => path
    ctx_gen_proc_self_maps := fun _ => []
    host_fread := fun _ _ n => List.replicate n.toNat 0
    host_mmap := fun _ _ _ _ _ => none
    host_poll := fun _ _ events => (⟨1, 0⟩, events)
    host_read := fun _ _ _ => (⟨0, 0⟩, [])
    host_write := fun _ _ data => ⟨data.length, 0⟩
    host_dup := fun _ host_fd => ⟨host_fd + 100, 0⟩
    host_ioctl := fun _ _ _ buf => (⟨0, 0⟩, buf)
    host_fcntl := fun _ _ _ _ => ⟨0, 0⟩
    host_getdents := fun _ _ _ =>
      some [{ d_ino := 11, d_off := 1, d_reclen := 24, d_name := [46], d_type := 4 },
            { d_ino := 12, d_off := 2, d_reclen := 32, d_name := [104, 101, 108, 108, 111],
              d_type := 8 }]
    host_call := fun _ _ _ _ => { val := 0, errno := 0 } }

/-- The state `k` with EBX replaced, as at the entry of the next call. -/
def Kernel.with_ebx (k : Kernel) (v : Nat) : Kernel :=
  { k with isa_ctx := { k.isa_ctx with regs := { k.isa_ctx.regs with ebx := v } } }

/-- Entry state of `mremap(0x20000000, 0x1000, 0x1000, flags = 0)`. -/
def mremap_noflag_demo : Kernel :=
  kernel_with_regs { regs_zero with eax := 163, ebx := 536870912, ecx := 4096, edx := 4096, esi := 0 }

/-- Entry state of `mremap(0x20000000, 0x2000, 0x1000, MREMAP_MAYMOVE)`. -/
def mremap_shrink_demo : Kernel :=
  kernel_with_regs { regs_zero with eax := 163, ebx := 536870912, ecx := 8192, edx := 4096, esi := 1 }

/-- A zombie child of `ctx_demo` with pid 101 and exit code 7. -/
def ctx_child_demo : Ctx :=
  { ctx_demo with pid := 101, parent := some 100, status := { zombie := true }, exit_code := 7 }

/-- Entry state of `waitpid(-1, 0x1000, 0)` with the zombie child 101. -/
def waitpid_demo : Kernel :=
  { kernel_with_regs { regs_zero with eax := 7, ebx := 4294967295, ecx := 4096 } with
    ctx_list := [ctx_child_demo] }

/-- Entry state of `rt_sigprocmask(SIG_BLOCK, 0x1000, 0x2000)` with blocked
mask 1 and the set 1 stored at 0x1000. -/
def sigmask_demo : Kernel :=
  { kernel_with_regs { regs_zero with eax := 175, ebx := 0, ecx := 4096, edx := 8192 } with
    isa_ctx := { ctx_demo with
      regs := { regs_zero with eax := 175, ebx := 0, ecx := 4096, edx := 8192 }
      signal_masks := { pending := 0, blocked := 1, backup := 0 } }
    isa_mem := { mem_empty with bytes := fun a => if a = 4096 then 1 else 0 } }

/-- Entry state of `waitpid(-1, 0, 0)` when the caller has no child. -/
def waitpid_block_demo : Kernel :=
  kernel_with_regs { regs_zero with eax := 7, ebx := 4294967295 }

/-- Entry state of the syscall number 11 (`execve`), which has no `case`. -/
def execve_demo : Kernel := kernel_with_regs { regs_zero with eax := 11 }

/-- Entry state of the syscall number 400, above the table bound of `env_demo`. -/
def beyond_table_demo : Kernel := kernel_with_regs { regs_zero with eax := 400 }

/-- Entry state of a call whose number in EAX is 0xffffffff, the `int` -1. -/
def negative_code_demo : Kernel := kernel_with_regs { regs_zero with eax := 4294967295 }

/-- Entry state of `rt_sigsuspend(0x1000)` with blocked mask 1, pending mask 4
and the set 2 stored at 0x1000. -/
def sigsuspend_demo : Kernel :=
  { kernel_demo with
    isa_ctx := { ctx_demo with
      regs := { regs_zero with eax := 179, ebx := 4096 }
      signal_masks := { pending := 4, blocked := 1, backup := 0 } }
    isa_mem := { mem_empty with bytes := fun a => if a = 4096 then 2 else 0 } }

/-- Entry state of `futex(0x1000, FUTEX_WAIT_BITSET | FUTEX_PRIVATE_FLAG, 5, NULL, 0, 3)`
with the word 5 at 0x1000 and `futex_sleep_count` 7. -/
def futex_wait_demo : Kernel :=
  { kernel_with_regs { regs_zero with eax := 240, ebx := 4096, ecx := 137, edx := 5, ebp := 3 } with
    isa_mem := { mem_empty with bytes := fun a => if a = 4096 then 5 else 0 }
    futex_sleep_count := 7 }

/-- The context is suspended for the reason futex. -/
def suspended_for_futex (c : Ctx) : Bool := c.status.suspended && c.status.futex

/-- A context suspended for futex on `addr` with bitset 0xffffffff and the
given pid and sleep serial. -/
def futex_waiter_demo (pid : Int) (addr serial : Nat) : Ctx :=
  { ctx_demo with
    pid := pid, status := { suspended := true, futex := true }, wakeup_futex := addr,
    wakeup_futex_bitset := 4294967295, wakeup_futex_sleep := serial }

/-- Entry state of `futex(0x1000, FUTEX_CMP_REQUEUE, 1, INT_MAX, 0x2000, 5)` with
the word 5 at 0x1000 and three contexts waiting on 0x1000 with serials 3, 1, 2. -/
def futex_requeue_demo : Kernel :=
  { kernel_with_regs { regs_zero with eax := 240, ebx := 4096, ecx := 4, edx := 1,
                                      esi := 2147483647, edi := 8192, ebp := 5 } with
    isa_mem := { mem_empty with bytes := fun a => if a = 4096 then 5 else 0 }
    ctx_list := [futex_waiter_demo 101 4096 3, futex_waiter_demo 102 4096 1,
                 futex_waiter_demo 103 4096 2] }

/-- Entry state of `futex(0x1000, FUTEX_WAKE_OP, 1, 1, 0x2000, val3)` with `val3`
encoding op = ADD, cmp = GT, oparg = 3, cmparg = 4, the word 5 at 0x1000 and at
0x2000, one context waiting on 0x1000 and one on 0x2000. -/
def futex_wake_op_demo : Kernel :=
  { kernel_with_regs { regs_zero with eax := 240, ebx := 4096, ecx := 5, edx := 1, esi := 1,
                                      edi := 8192, ebp := 335556612 } with
    isa_mem := { mem_empty with bytes := fun a => if a = 4096 ∨ a = 8192 then 5 else 0 }
    ctx_list := [futex_waiter_demo 101 4096 1, futex_waiter_demo 102 8192 2] }

/-- Entry state of `clone(CLONE_VM | CLONE_FS | CLONE_FILES | CLONE_SIGHAND | 17, 0)`
with the parent's ESP at 0x7000. -/
def clone_demo : Kernel :=
  kernel_with_regs { regs_zero with eax := 120, ebx := 0xf11, esp := 0x7000 }

/-- Entry state of `clone` with CLONE_SETTLS and the mandatory flags, ESI = 0x3000
and there a `user_desc` with entry_number = -1, base_addr = 0xdeadc000, limit = 1,
seg_32bit = 1 and limit_in_pages = 1. -/
def clone_settls_demo : Kernel :=
  { kernel_with_regs { regs_zero with eax := 120, ebx := 0x80f00, esi := 0x3000,
                                      esp := 0x7000 } with
    isa_mem := { mem_empty with bytes := fun a =>
      if 0x3000 ≤ a ∧ a < 0x3004 then 0xff
      else if a = 0x3005 then 0xc0 else if a = 0x3006 then 0xad else if a = 0x3007 then 0xde
      else if a = 0x3008 then 1 else if a = 0x300c then 0x11 else 0 } }

/-- Entry state of `disk_io(op = 0, nbytes = 4, addr = 0x1000, block = 1,
offset = -4)` by uid 1, with block 0 owned by uid 2, block 1 unallocated and the
bytes "AAAA" at 0x1000. -/
def disk_io_negative_offset_demo : Kernel :=
  { kernel_with_regs { regs_zero with eax := 328, ebx := 0, ecx := 4, edx := 0x1000, esi := 1,
                                      edi := 0xfffffffc } with
    blockowners := [2, 0, 0, 0, 0, 0, 0, 0]
    isa_mem := { mem_empty with bytes := fun a => if 0x1000 ≤ a ∧ a < 0x1004 then 65 else 0 } }

/-- Entry state of `disk_io(op = 0, nbytes = 4, addr = 0x1000, block = -1,
offset = 0)` by uid 1. -/
def disk_io_negative_block_demo : Kernel :=
  kernel_with_regs { regs_zero with eax := 328, ebx := 0, ecx := 4, edx := 0x1000,
                                    esi := 0xffffffff, edi := 0 }

/-- Entry state of `disk_io(op = 0, nbytes = 4, addr = 0x1000, block = 1,
offset = 0)` by uid 1 with every block unallocated. -/
def disk_io_write_demo : Kernel :=
  kernel_with_regs { regs_zero with eax := 328, ebx := 0, ecx := 4, edx := 0x1000, esi := 1,
                                    edi := 0 }

/-- The state `disk_io_write_demo` with the caller's uid 0. -/
def disk_io_root_write_demo : Kernel :=
  { disk_io_write_demo with isa_ctx := { disk_io_write_demo.isa_ctx with uid := 0 } }

/-- Entry state of a call on guest fd 5 with an empty file-descriptor table:
EBX = 5, ECX = 1, and the word 5 at address 5, so that the `pollfd` read by
`poll` at EBX names guest fd 5 as well. -/
def unknown_fd_demo (code : Nat) : Kernel :=
  { kernel_with_regs { regs_zero with eax := code, ebx := 5, ecx := 1 } with
    isa_mem := { mem_empty with bytes := fun a => if a = 5 then 5 else 0 } }

/-- Entry state of `brk(0x10000000)` when the break is 0x10000000. -/
def brk_same_demo : Kernel := kernel_with_regs { regs_zero with eax := 45, ebx := 268435456 }

/-- The state `kernel_demo` with registers `r` and one entry in the
file-descriptor table: guest fd 5 on host fd 7 with the open flags `flags`. -/
def known_fd_demo (r : Regs) (flags : Nat) : Kernel :=
  { kernel_demo with
    isa_ctx := { ctx_demo with
      regs := r
      fdt := [{ guest_fd := 5, host_fd := 7, kind := FdKind.regular, flags := flags }] } }

/-- Entry state of `ioctl(5, 0x5409, 0x1000)` on a known guest fd. -/
def ioctl_out_of_range_demo : Kernel :=
  known_fd_demo { regs_zero with eax := 54, ebx := 5, ecx := 0x5409, edx := 0x1000 } 0

/-- Entry state of `write(5, 0x1000, 4)` on a known guest fd opened with
O_NONBLOCK. -/
def write_nonblock_demo : Kernel :=
  known_fd_demo { regs_zero with eax := 4, ebx := 5, ecx := 0x1000, edx := 4 } O_NONBLOCK

/-- The environment `env_demo` with a host `poll` that reports no event. -/
def env_not_ready : Env := { env_demo with host_poll := fun _ _ _ => (⟨0, 0⟩, 0) }

/-- A state with guest fd 3 on host fd 10 in the file-descriptor table and the
byte 0x08, the bitmap {3}, at 0x1000. -/
def fd_set_demo : Kernel :=
  { kernel_demo with
    isa_ctx := { ctx_demo with
      fdt := [{ guest_fd := 3, host_fd := 10, kind := FdKind.regular, flags := 0 }] }
    isa_mem := { mem_empty with bytes := fun a => if a = 0x1000 then 8 else 0 } }

/-- Entry state of `setitimer(0, 0x1000, 0)` with the `itimerval` at 0x1000
holding `it_interval` = (0, 0) and `it_value` = (4295 s, 0 us): the bytes of
4295 = 0x10c7 are at 0x1008 and 0x1009. -/
def setitimer_demo : Kernel :=
  { kernel_with_regs { regs_zero with eax := 104, ebx := 0, ecx := 0x1000, edx := 0 } with
    isa_mem := { mem_empty with
      bytes := fun a => if a = 0x1008 then 0xc7 else if a = 0x1009 then 0x10 else 0 } }

/-- The state `k` at the entry of `getitimer(0, 0x2000)`. -/
def Kernel.with_getitimer (k : Kernel) : Kernel :=
  { k with isa_ctx := { k.isa_ctx with
      regs := { k.isa_ctx.regs with eax := 105, ebx := 0, ecx := 0x2000 } } }

/-- Entry state of `getdents(5, 0x1000, 64)` on a known guest fd. -/
def getdents_demo : Kernel :=
  known_fd_demo { regs_zero with eax := 141, ebx := 5, ecx := 0x1000, edx := 64 } 0

/-- A host `struct stat` of a regular file. -/
def stat_demo : stat :=
  { st_dev := 2049, st_ino := 4294967297, st_mode := 33188, st_nlink := 1, st_uid := 1000,
    st_gid := 1000, st_rdev := 0, st_size := 1234, st_blksize := 4096, st_blocks := 8,
    st_atime := 1700000000, st_mtime := 1700000001, st_ctime := 1700000002 }

/-! # Theorems -/

/-! ## Facts about the memory model -/

theorem ROUND_UP32_aligned (n : Nat) : ROUND_UP32 n % 4096 = 0 := by
  unfold ROUND_UP32 ROUND_UP MEM_PAGESIZE
  omega

theorem ROUND_UP32_lt (n : Nat) : ROUND_UP32 n < 4294967296 := by
  unfold ROUND_UP32
  omega

theorem page_count_aligned (addr size : Nat) (ha : addr % 4096 = 0) (hs : size % 4096 = 0) :
    page_count addr size = size / 4096 := by
  unfold page_count
  split <;> omega

theorem in_range_iff (addr size p : Nat) (ha : addr % 4096 = 0) (hs : size % 4096 = 0) :
    in_range addr size p = true ↔ addr ≤ p * 4096 ∧ p * 4096 < addr + size ∧ p < 1048576 := by
  unfold in_range MEM_PAGE_COUNT
  rw [page_count_aligned addr size ha hs, decide_eq_true_eq]
  omega

theorem range_free_iff (m : Mem) (addr size : Nat) (ha : addr % 4096 = 0)
    (hs : size % 4096 = 0) :
    range_free m addr size = true ↔
      addr + size ≤ 4294967296 ∧
        ∀ p, addr ≤ p * 4096 → p * 4096 < addr + size → m.pages p = none := by
  unfold range_free
  rw [page_count_aligned addr size ha hs]
  simp only [Bool.and_eq_true, decide_eq_true_eq, List.all_eq_true, List.mem_range,
    Option.isNone_iff_eq_none]
  constructor
  · rintro ⟨hfit, hall⟩
    refine ⟨hfit, fun p h1 h2 => ?_⟩
    have h := hall (p - addr / 4096) (by omega)
    have e : addr / 4096 + (p - addr / 4096) = p := by omega
    rwa [e] at h
  · rintro ⟨hfit, hall⟩
    exact ⟨hfit, fun i hi => hall _ (by omega) (by omega)⟩

theorem mem_map_space_from_ge (m : Mem) (size : Nat) :
    ∀ fuel addr, mem_map_space_from m size fuel addr = 4294967295 ∨
      addr ≤ mem_map_space_from m size fuel addr := by
  intro fuel
  induction fuel with
  | zero => intro addr; left; rfl
  | succ n ih =>
    intro addr
    unfold mem_map_space_from
    split
    · left; rfl
    · split
      · right; exact Nat.le_refl _
      · rcases ih (addr + 4096) with h | h
        · left; exact h
        · right; omega

theorem mem_map_space_eq_self (m : Mem) (addr size : Nat) (h : range_free m addr size = true) :
    mem_map_space m addr size = addr := by
  have hfit : addr + size ≤ 4294967296 := by
    unfold range_free at h
    simp only [Bool.and_eq_true, decide_eq_true_eq] at h
    exact h.1
  unfold mem_map_space MEM_PAGE_COUNT
  show mem_map_space_from m size (1048576 + 1) addr = addr
  unfold mem_map_space_from
  rw [if_neg (by omega), if_pos h]

theorem mem_map_space_ne_self (m : Mem) (addr size : Nat) (h : range_free m addr size = false)
    (ha : addr ≠ 4294967295) : mem_map_space m addr size ≠ addr := by
  unfold mem_map_space MEM_PAGE_COUNT
  show mem_map_space_from m size (1048576 + 1) addr ≠ addr
  unfold mem_map_space_from
  split
  · exact fun e => ha e.symm
  · rw [if_neg (by simp [h])]
    rcases mem_map_space_from_ge m size 1048576 (addr + 4096) with e | e
    · rw [e]; exact fun e => ha e.symm
    · omega

theorem toU32_toInt32 (n : Nat) : toU32 (toInt32 n) = n % 4294967296 := by
  unfold toU32 toInt32
  split <;> omega

theorem sys_brk_zero (k : Kernel) (h : k.isa_ctx.regs.ebx = 0) :
    sys_brk k = .ok (toInt32 k.isa_ctx.loader.brk, k) := by
  unfold sys_brk
  simp [h]

theorem brk_grow_fits (b n : Nat) (h : b < n) (hn : n < 4294967296) :
    ROUND_UP32 b + sub32 (ROUND_UP32 n) (ROUND_UP32 b) ≤ 4294967296 := by
  unfold sub32 ROUND_UP32 ROUND_UP MEM_PAGESIZE
  omega

theorem sub32_aligned (a b : Nat) (ha : a % 4096 = 0) (hb : b % 4096 = 0) :
    sub32 a b % 4096 = 0 := by
  unfold sub32
  omega

theorem sys_brk_grow (k : Kernel) (h0 : k.isa_ctx.regs.ebx ≠ 0)
    (hgt : k.isa_ctx.loader.brk < k.isa_ctx.regs.ebx)
    (hfree : range_free k.isa_mem (ROUND_UP32 k.isa_ctx.loader.brk)
      (sub32 (ROUND_UP32 k.isa_ctx.regs.ebx) (ROUND_UP32 k.isa_ctx.loader.brk)) = true) :
    sys_brk k = .ok (toInt32 k.isa_ctx.regs.ebx,
      (if sub32 (ROUND_UP32 k.isa_ctx.regs.ebx) (ROUND_UP32 k.isa_ctx.loader.brk) ≠ 0 then
        k.set_mem (mem_map k.isa_mem (ROUND_UP32 k.isa_ctx.loader.brk)
          (sub32 (ROUND_UP32 k.isa_ctx.regs.ebx) (ROUND_UP32 k.isa_ctx.loader.brk))
          (mem_access_read.or mem_access_write))
       else k).set_brk k.isa_ctx.regs.ebx) := by
  unfold sys_brk
  simp only [if_neg h0, gt_iff_lt, if_pos hgt, mem_map_space_eq_self _ _ _ hfree, ne_eq,
    not_true_eq_false, if_false]
  split <;> rfl

theorem sys_brk_conflict (k : Kernel) (h0 : k.isa_ctx.regs.ebx ≠ 0)
    (hgt : k.isa_ctx.loader.brk < k.isa_ctx.regs.ebx)
    (hsize : sub32 (ROUND_UP32 k.isa_ctx.regs.ebx) (ROUND_UP32 k.isa_ctx.loader.brk) ≠ 0)
    (hfree : range_free k.isa_mem (ROUND_UP32 k.isa_ctx.loader.brk)
      (sub32 (ROUND_UP32 k.isa_ctx.regs.ebx) (ROUND_UP32 k.isa_ctx.loader.brk)) = false) :
    sys_brk k = .error (.fatal .brk_out_of_memory) := by
  have hne := mem_map_space_ne_self _ _ _ hfree
    (by have := ROUND_UP32_aligned k.isa_ctx.loader.brk; omega)
  unfold sys_brk
  simp only [if_neg h0, gt_iff_lt, if_pos hgt, ne_eq, hsize, not_false_eq_true, if_true, hne]

theorem sys_brk_shrink (k : Kernel) (h0 : k.isa_ctx.regs.ebx ≠ 0)
    (hlt : k.isa_ctx.regs.ebx < k.isa_ctx.loader.brk) :
    sys_brk k = .ok (toInt32 k.isa_ctx.regs.ebx,
      (if sub32 (ROUND_UP32 k.isa_ctx.loader.brk) (ROUND_UP32 k.isa_ctx.regs.ebx) ≠ 0 then
        k.set_mem (mem_unmap k.isa_mem (ROUND_UP32 k.isa_ctx.regs.ebx)
          (sub32 (ROUND_UP32 k.isa_ctx.loader.brk) (ROUND_UP32 k.isa_ctx.regs.ebx)))
       else k).set_brk k.isa_ctx.regs.ebx) := by
  unfold sys_brk
  simp only [if_neg h0, gt_iff_lt, if_neg (Nat.lt_asymm hlt), if_pos hlt]
  split <;> rfl

/-! ## Facts about the dispatcher -/

theorem ctx_get_status_suspended (c : Ctx) :
    ctx_get_status c ctx_suspended = c.status.suspended := by
  simp [ctx_get_status, Status.meets, ctx_suspended]

theorem syscall_do_of_dispatch (env : Env) (k k1 : Kernel) (r : Int)
    (hd : syscall_dispatch env k = .ok (r, k1)) :
    syscall_do env k =
      if toInt32 k.isa_ctx.regs.eax ≠ syscall_code_sigreturn ∧ k1.isa_ctx.status.suspended = false
      then .ok (k1.set_eax (toU32 r)) else .ok k1 := by
  unfold syscall_do
  rw [hd]
  simp only [ctx_get_status_suspended, Bool.not_eq_true]

theorem syscall_do_of_dispatch_error (env : Env) (k : Kernel) (e : Abort)
    (hd : syscall_dispatch env k = .error e) : syscall_do env k = .error e := by
  unfold syscall_do
  rw [hd]

theorem syscall_dispatch_brk (env : Env) (k : Kernel) (h : k.isa_ctx.regs.eax = 45) :
    syscall_dispatch env k = sys_brk k := by
  unfold syscall_dispatch
  rw [h]
  simp only
  rw [if_neg (by decide), if_neg (fun c => absurd c.2 (by decide))]
  rfl

/-! ## Facts about guest memory reads and writes -/

theorem mem_read_write_same (m : Mem) (a : Nat) (data : List Nat)
    (h : data.length ≤ 4294967296) :
    mem_read (mem_write m a data) a data.length = data := by
  apply List.ext_getElem
  · simp [mem_read]
  · intro i h1 h2
    have hi : sub32 ((a + i) % 4294967296) a = i := by
      unfold sub32; omega
    have hlt : (a + i) % 4294967296 < 4294967296 := by omega
    simp only [mem_read, mem_write, List.getElem_map, List.getElem_range, hi]
    rw [if_pos ⟨hlt, h2⟩]
    exact List.getD_eq_getElem _ _ h2

theorem le_encode_length (n v : Nat) : (le_encode n v).length = n := by
  induction n generalizing v with
  | zero => rfl
  | succ n ih => simp [le_encode, ih]

theorem le_decode_encode (n v : Nat) : le_decode (le_encode n v) = v % 256 ^ n := by
  induction n generalizing v with
  | zero => simp [le_encode, le_decode, Nat.mod_one]
  | succ n ih =>
    simp only [le_encode, le_decode, ih, Nat.mod_mod]
    rw [Nat.pow_succ, Nat.mul_comm (256 ^ n) 256, Nat.mod_mul]

theorem mem_read32_write32 (m : Mem) (a v : Nat) :
    mem_read32 (mem_write32 m a v) a = v % 4294967296 := by
  unfold mem_read32 mem_write32
  have h := mem_read_write_same m a (le_encode 4 v) (by rw [le_encode_length]; decide)
  rw [le_encode_length] at h
  rw [h, le_decode_encode]
  norm_num

theorem mem_read64_write64 (m : Mem) (a v : Nat) :
    mem_read64 (mem_write64 m a v) a = v % 18446744073709551616 := by
  unfold mem_read64 mem_write64
  have h := mem_read_write_same m a (le_encode 8 v) (by rw [le_encode_length]; decide)
  rw [le_encode_length] at h
  rw [h, le_decode_encode]
  norm_num

/-! ## Facts about the context list -/

theorem ctx_find_index_none (f : Ctx → Bool) (l : List Ctx) :
    ctx_find_index f l = none ↔ ∀ c ∈ l, f c = false := by
  induction l with
  | nil => simp [ctx_find_index]
  | cons c cs ih =>
    unfold ctx_find_index
    by_cases h : f c = true
    · simp [h]
    · simp [h, ih]

theorem ctx_find_index_some (f : Ctx → Bool) (l : List Ctx) (i : Nat)
    (h : ctx_find_index f l = some i) : ∃ c, l.get? i = some c ∧ f c = true := by
  induction l generalizing i with
  | nil => simp [ctx_find_index] at h
  | cons c cs ih =>
    unfold ctx_find_index at h
    by_cases hc : f c = true
    · rw [if_pos hc] at h
      cases h
      exact ⟨c, rfl, hc⟩
    · rw [if_neg hc] at h
      cases hr : ctx_find_index f cs with
      | none => rw [hr] at h; cases h
      | some j =>
        rw [hr] at h
        cases h
        exact ih j hr

theorem ctx_update_get (f : Ctx → Ctx) (l : List Ctx) (i j : Nat) :
    (ctx_update f l i).get? j = if j = i then (l.get? j).map f else l.get? j := by
  induction l generalizing i j with
  | nil => simp [ctx_update]
  | cons c cs ih =>
    cases i with
    | zero =>
      cases j with
      | zero => simp [ctx_update]
      | succ j => simp [ctx_update]
    | succ i =>
      cases j with
      | zero => simp [ctx_update]
      | succ j =>
        have h := ih i j
        simp only [List.get?_eq_getElem?] at h
        simp [ctx_update, h]

/-! ## Facts about 64-bit signal masks -/

theorem ones64 : (18446744073709551615 : Nat) = 2 ^ 64 - 1 := by norm_num

theorem testBit_ge64 (M i : Nat) (h : M < 18446744073709551616) (hi : 64 ≤ i) : M.testBit i = false := by
  apply Nat.testBit_lt_two_pow
  calc M < 2 ^ 64 := by norm_num; exact h
    _ ≤ 2 ^ i := Nat.pow_le_pow_right (by decide) hi

theorem and_not_bits (B S i : Nat) (hS : S < 18446744073709551616) :
    (B &&& (18446744073709551615 ^^^ S)).testBit i =
      (B.testBit i && (decide (i < 64) && !S.testBit i)) := by
  rw [ones64, Nat.testBit_and, Nat.testBit_xor, Nat.testBit_two_pow_sub_one]
  by_cases h64 : i < 64
  · cases B.testBit i <;> cases S.testBit i <;> simp [h64]
  · rw [testBit_ge64 S i hS (by omega)]
    simp [h64]

theorem or_and_not (M S : Nat) (hS : S < 18446744073709551616) :
    (M ||| S) &&& (18446744073709551615 ^^^ S) = M &&& (18446744073709551615 ^^^ S) := by
  apply Nat.eq_of_testBit_eq
  intro i
  rw [and_not_bits _ S i hS, and_not_bits M S i hS, Nat.testBit_or]
  cases M.testBit i <;> cases S.testBit i <;> cases decide (i < 64) <;> rfl

theorem and_not_eq_self_iff (M S : Nat) (hM : M < 18446744073709551616)
    (hS : S < 18446744073709551616) :
    M &&& (18446744073709551615 ^^^ S) = M ↔ M &&& S = 0 := by
  constructor
  · intro h
    apply Nat.eq_of_testBit_eq
    intro i
    have hi := congrArg (fun x => Nat.testBit x i) h
    simp only [and_not_bits M S i hS] at hi
    rw [Nat.testBit_and, Nat.zero_testBit]
    revert hi
    cases M.testBit i <;> cases S.testBit i <;> cases decide (i < 64) <;> simp
  · intro h
    apply Nat.eq_of_testBit_eq
    intro i
    have hi := congrArg (fun x => Nat.testBit x i) h
    simp only [Nat.testBit_and, Nat.zero_testBit] at hi
    rw [and_not_bits M S i hS]
    by_cases h64 : i < 64
    · revert hi
      cases M.testBit i <;> cases S.testBit i <;> simp [h64]
    · rw [testBit_ge64 M i hM (by omega)]
      rfl

theorem le_decode_lt (l : List Nat) : le_decode l < 256 ^ l.length := by
  induction l with
  | nil => simp [le_decode]
  | cons b bs ih =>
    simp only [le_decode, List.length_cons, Nat.pow_succ]
    have := Nat.mod_lt b (show 256 > 0 by decide)
    omega

theorem mem_read64_lt (m : Mem) (a : Nat) : mem_read64 m a < 18446744073709551616 := by
  have h := le_decode_lt (mem_read m a 8)
  have hl : (mem_read m a 8).length = 8 := by simp [mem_read]
  rw [hl] at h
  exact h

theorem sys_rt_sigprocmask_update_set (k : Kernel) (b : Nat) (hp : k.isa_ctx.regs.ecx ≠ 0)
    (hb : sigprocmask_apply k.isa_ctx.regs.ebx k.isa_ctx.signal_masks.blocked
      (mem_read64 k.isa_mem k.isa_ctx.regs.ecx) = some b) :
    sys_rt_sigprocmask_update k =
      .ok (if k.isa_ctx.regs.edx ≠ 0
        then (k.set_blocked b).set_mem
          (mem_write64 k.isa_mem k.isa_ctx.regs.edx k.isa_ctx.signal_masks.blocked)
        else k.set_blocked b) := by
  unfold sys_rt_sigprocmask_update
  simp only [hp, ne_eq, not_false_eq_true, if_true, hb]
  split <;> rfl

theorem sys_rt_sigprocmask_update_bad_how (k : Kernel) (hp : k.isa_ctx.regs.ecx ≠ 0)
    (hhow : 2 < k.isa_ctx.regs.ebx) :
    sys_rt_sigprocmask_update k = .error (.fatal .sigprocmask_how) := by
  have hb : sigprocmask_apply k.isa_ctx.regs.ebx k.isa_ctx.signal_masks.blocked
      (mem_read64 k.isa_mem k.isa_ctx.regs.ecx) = none := by
    unfold sigprocmask_apply
    rw [if_neg (by omega), if_neg (by omega), if_neg (by omega)]
  unfold sys_rt_sigprocmask_update
  simp only [hp, ne_eq, not_false_eq_true, if_true, hb]

theorem sys_rt_sigprocmask_update_null (k : Kernel) (hp : k.isa_ctx.regs.ecx = 0) :
    sys_rt_sigprocmask_update k =
      .ok (if k.isa_ctx.regs.edx ≠ 0
        then k.set_mem (mem_write64 k.isa_mem k.isa_ctx.regs.edx k.isa_ctx.signal_masks.blocked)
        else k) := by
  unfold sys_rt_sigprocmask_update
  simp only [hp, ne_eq, not_true_eq_false, if_false]
  split <;> rfl

theorem sys_rt_sigprocmask_of_update (env : Env) (k k1 : Kernel)
    (h : sys_rt_sigprocmask_update k = .ok k1) :
    sys_rt_sigprocmask env k =
      .ok (0, env.ke_process_events (env.ke_process_events_schedule k1)) := by
  unfold sys_rt_sigprocmask
  rw [h]

/-! ## The dispatcher -/

/-- C1: whatever handler `syscall_do` runs (a `case` of its `switch` or
`handle_guest_syscalls`), if the handler ends the simulation so does
`syscall_do`; otherwise, when the call is not `sigreturn` and the context is
not suspended after the handler, the result is the handler's state with the
handler's return value in EAX, and when the call is `sigreturn` or the context
is suspended after the handler, the result is the handler's state as it is:
`syscall_do` does not write EAX. -/
theorem syscall_do_writes_retval_unless_suspended_or_sigreturn (env : Env) (k : Kernel) :
    (∀ e, syscall_dispatch env k = .error e → syscall_do env k = .error e) ∧
    (∀ retval k1, syscall_dispatch env k = .ok (retval, k1) →
      (toInt32 k.isa_ctx.regs.eax ≠ syscall_code_sigreturn →
        ctx_get_status k1.isa_ctx ctx_suspended = false →
          syscall_do env k = .ok (k1.set_eax (toU32 retval)) ∧
          (k1.set_eax (toU32 retval)).isa_ctx.regs.eax = toU32 retval ∧
          (-2147483648 ≤ retval → retval < 2147483648 →
            toInt32 (k1.set_eax (toU32 retval)).isa_ctx.regs.eax = retval)) ∧
      (toInt32 k.isa_ctx.regs.eax = syscall_code_sigreturn ∨
        ctx_get_status k1.isa_ctx ctx_suspended = true → syscall_do env k = .ok k1)) := by
  refine ⟨fun e he => syscall_do_of_dispatch_error env k e he, fun retval k1 hd => ⟨?_, ?_⟩⟩
  · intro hsig hs
    rw [ctx_get_status_suspended] at hs
    refine ⟨?_, rfl, fun h1 h2 => ?_⟩
    · rw [syscall_do_of_dispatch env k k1 retval hd, if_pos ⟨hsig, hs⟩]
    · show toInt32 (toU32 retval) = retval
      unfold toInt32 toU32
      split <;> omega
  · intro h
    rw [ctx_get_status_suspended] at h
    rw [syscall_do_of_dispatch env k k1 retval hd, if_neg]
    rintro ⟨h1, h2⟩
    rcases h with h | h
    · exact h1 h
    · rw [h2] at h
      cases h

/-- Witness for C1: `brk(0)` by a running context puts the break 0x10000000 in
EAX, and `waitpid(-1, 0, 0)` without any child suspends the caller and leaves
the syscall number 7 in EAX. -/
theorem syscall_do_writes_retval_unless_suspended_or_sigreturn_witness :
    (∃ k1, syscall_do env_demo (kernel_with_regs { regs_zero with eax := 45 }) = .ok k1 ∧
      k1.isa_ctx.regs.eax = 268435456) ∧
    (∃ k1, syscall_do env_demo waitpid_block_demo = .ok k1 ∧ k1.isa_ctx.regs.eax = 7 ∧
      k1.isa_ctx.status.suspended = true) := by
  constructor
  · have h := ((syscall_do_writes_retval_unless_suspended_or_sigreturn env_demo
      (kernel_with_regs { regs_zero with eax := 45 })).2 268435456
      (kernel_with_regs { regs_zero with eax := 45 }) rfl).1 (by decide) rfl
    exact ⟨_, h.1, rfl⟩
  · have h := ((syscall_do_writes_retval_unless_suspended_or_sigreturn env_demo
      waitpid_block_demo).2 0
      (waitpid_block_demo.set_ctx (ctx_set_status
        { waitpid_block_demo.isa_ctx with wakeup_pid := -1 } (ctx_suspended.or ctx_waitpid)))
      rfl).2 (Or.inr rfl)
    exact ⟨_, h, rfl, rfl⟩

/-- C2, counterexample: the syscall number 11 (`execve`) matches no handler and
is below the table bound; the call ends the simulation instead of returning
-38. -/
theorem unhandled_syscall_below_bound_is_fatal :
    syscall_do env_demo execve_demo = .error (.fatal (.not_implemented 11)) ∧
      (11 : Int) ∉ syscall_linux_cases ∧
      (11 : Int) ≠ env_demo.syscall_code_get_pid ∧
      (11 : Int) ≠ env_demo.syscall_code_set_instruction_slice ∧
      (11 : Int) ≠ env_demo.syscall_code_disk_io :=
  ⟨rfl, by decide, by decide, by decide, by decide⟩

/-- C2, amended: a syscall number that matches no handler (no `case` of
`syscall_do`, no `case` of `handle_guest_syscalls`) fails with -38 (ENOSYS),
written to EAX of a caller that is not suspended, exactly when it is at or
above the table bound `syscall_code_count`; a number from 0 up to the bound
that matches no handler ends the simulation with the fatal error "not
implemented system call".  A negative number below the bound does not reach
the `switch` in a defined way: the bookkeeping before it indexes
`syscall_name` and `syscall_freq` with the negative number. -/
theorem unhandled_syscall_enosys_iff_beyond_table (env : Env) (k : Kernel) (syscode : Int)
    (hcode : toInt32 k.isa_ctx.regs.eax = syscode)
    (hlinux : syscode ∉ syscall_linux_cases)
    (hpid : syscode ≠ env.syscall_code_get_pid)
    (hslice : syscode ≠ env.syscall_code_set_instruction_slice)
    (hdisk : syscode ≠ env.syscall_code_disk_io) :
    (env.syscall_code_count ≤ syscode →
      syscall_dispatch env k = .ok (-38, k) ∧
      (k.isa_ctx.status.suspended = false → syscall_do env k = .ok (k.set_eax 4294967258)) ∧
      toInt32 4294967258 = -38) ∧
    (syscode < env.syscall_code_count → 0 ≤ syscode →
      syscall_do env k = .error (.fatal (.not_implemented syscode))) ∧
    (syscode < env.syscall_code_count → syscode < 0 →
      syscall_do env k = .error .undefined) := by
  have hd : syscall_dispatch env k =
      if syscode < env.syscall_code_count ∧ syscode < 0 then .error .undefined
      else if syscode ≥ env.syscall_code_count then .ok (-38, k)
      else .error (.fatal (.not_implemented syscode)) := by
    unfold syscall_dispatch
    simp only [hcode]
    split
    · rw [if_neg (by omega)]
      unfold handle_guest_syscalls
      simp only [hcode, if_neg hpid, if_neg hslice, if_neg hdisk]
    · unfold syscall_linux
      have hl := hlinux
      simp only [syscall_linux_cases, List.mem_append, List.mem_cons, List.not_mem_nil,
        or_false, not_or] at hl
      simp only [hl, if_false]
  refine ⟨fun hge => ?_, fun hlt hpos => ?_, fun hlt hneg => ?_⟩
  · rw [if_neg (by omega), if_pos hge] at hd
    refine ⟨hd, fun hs => ?_, by decide⟩
    have hsig : syscode ≠ syscall_code_sigreturn := by
      intro h
      apply hlinux
      rw [h]
      decide
    rw [syscall_do_of_dispatch env k k _ hd, hcode, if_pos ⟨hsig, hs⟩]
    rfl
  · rw [if_neg (by omega), if_neg (by omega)] at hd
    exact syscall_do_of_dispatch_error env k _ hd
  · rw [if_pos ⟨hlt, hneg⟩] at hd
    exact syscall_do_of_dispatch_error env k _ hd

/-- Witness for C2: the number 400 is above the table bound 329 of `env_demo`
and matches no handler; the call returns -38 in EAX.  The number -1 (EAX =
0xffffffff) matches no handler either and is below the bound; the call has no
defined result. -/
theorem unhandled_syscall_enosys_iff_beyond_table_witness :
    syscall_do env_demo beyond_table_demo = .ok (beyond_table_demo.set_eax 4294967258) ∧
    syscall_do env_demo negative_code_demo = .error .undefined :=
  ⟨((unhandled_syscall_enosys_iff_beyond_table env_demo beyond_table_demo 400 (by decide)
    (by decide) (by decide) (by decide) (by decide)).1 (by decide)).2.1 rfl,
   (unhandled_syscall_enosys_iff_beyond_table env_demo negative_code_demo (-1) (by decide)
    (by decide) (by decide) (by decide) (by decide)).2.2 (by decide) (by decide)⟩

/-! ## brk -/

/-- C3: `brk(0)` returns the current program break in every context state and
leaves the whole state, in particular the stored break and the page table,
unchanged; through `syscall_do` a context that is not suspended gets the break
in EAX. -/
theorem brk_zero_returns_current_break (env : Env) (k : Kernel)
    (h : k.isa_ctx.regs.ebx = 0) :
    sys_brk k = .ok (toInt32 k.isa_ctx.loader.brk, k) ∧
      toU32 (toInt32 k.isa_ctx.loader.brk) = k.isa_ctx.loader.brk % 4294967296 ∧
      (k.isa_ctx.regs.eax = 45 → k.isa_ctx.status.suspended = false →
        syscall_do env k = .ok (k.set_eax (k.isa_ctx.loader.brk % 4294967296))) := by
  refine ⟨sys_brk_zero k h, toU32_toInt32 _, fun hc hs => ?_⟩
  have hd : syscall_dispatch env k = .ok (toInt32 k.isa_ctx.loader.brk, k) := by
    rw [syscall_dispatch_brk env k hc, sys_brk_zero k h]
  rw [syscall_do_of_dispatch env k k _ hd, hc, toU32_toInt32, if_pos ⟨by decide, hs⟩]

/-- Witness for C3 on the state with break 0x10000000. -/
theorem brk_zero_returns_current_break_witness :
    sys_brk (kernel_with_regs { regs_zero with eax := 45 }) =
      .ok (268435456, kernel_with_regs { regs_zero with eax := 45 }) :=
  (brk_zero_returns_current_break env_demo (kernel_with_regs { regs_zero with eax := 45 }) rfl).1

/-- C4: for every break `B` and every non-zero `newbrk` different from `B`
(when growing, with the pages of the range to map free), `brk` returns `newbrk`
and stores it as the break.  With `R = ROUND_UP32`, the 32-bit rounding to the
4096-byte page of the source, and `size` the 32-bit difference of the rounded
values: when `newbrk > B` exactly the pages of `[R B, R B + size)` become
read+write by one `mem_map` call, when `newbrk < B` exactly the pages of
`[R newbrk, R newbrk + size)` are unmapped by one `mem_unmap` call, every other
page is unchanged, and no call is made when `size` is zero.  When neither
rounding wraps (both values at most 0xfffff000) these ranges are
`[R B, R newbrk)` and `[R newbrk, R B)` with `R` the exact rounding. -/
theorem brk_sets_break_and_maps_exact_range (k : Kernel) (B newbrk : Nat)
    (hB : k.isa_ctx.loader.brk = B) (hreg : k.isa_ctx.regs.ebx = newbrk)
    (hB32 : B < 4294967296) (hn32 : newbrk < 4294967296)
    (h0 : newbrk ≠ 0) (hne : newbrk ≠ B)
    (hfree : B < newbrk → ∀ p, ROUND_UP32 B ≤ p * 4096 →
      p * 4096 < ROUND_UP32 B + sub32 (ROUND_UP32 newbrk) (ROUND_UP32 B) →
      k.isa_mem.pages p = none) :
    ∃ k1, sys_brk k = .ok (toInt32 newbrk, k1) ∧ toU32 (toInt32 newbrk) = newbrk ∧
      k1.isa_ctx.loader.brk = newbrk ∧
      (B < newbrk →
        (∀ p, k1.isa_mem.pages p =
          if ROUND_UP32 B ≤ p * 4096 ∧
            p * 4096 < ROUND_UP32 B + sub32 (ROUND_UP32 newbrk) (ROUND_UP32 B)
          then some (mem_access_read.or mem_access_write) else k.isa_mem.pages p) ∧
        k1.isa_mem.calls = k.isa_mem.calls ++
          (if sub32 (ROUND_UP32 newbrk) (ROUND_UP32 B) = 0 then []
           else [MemCall.map (ROUND_UP32 B) (sub32 (ROUND_UP32 newbrk) (ROUND_UP32 B))
             (mem_access_read.or mem_access_write)])) ∧
      (newbrk < B →
        (∀ p, k1.isa_mem.pages p =
          if ROUND_UP32 newbrk ≤ p * 4096 ∧
            p * 4096 < ROUND_UP32 newbrk + sub32 (ROUND_UP32 B) (ROUND_UP32 newbrk)
          then none else k.isa_mem.pages p) ∧
        k1.isa_mem.calls = k.isa_mem.calls ++
          (if sub32 (ROUND_UP32 B) (ROUND_UP32 newbrk) = 0 then []
           else [MemCall.unmap (ROUND_UP32 newbrk) (sub32 (ROUND_UP32 B) (ROUND_UP32 newbrk))])) ∧
      (B ≤ 4294963200 → newbrk ≤ 4294963200 →
        ROUND_UP32 B = ROUND_UP B 4096 ∧ ROUND_UP32 newbrk = ROUND_UP newbrk 4096 ∧
        (B < newbrk →
          ROUND_UP32 B + sub32 (ROUND_UP32 newbrk) (ROUND_UP32 B) = ROUND_UP32 newbrk) ∧
        (newbrk < B →
          ROUND_UP32 newbrk + sub32 (ROUND_UP32 B) (ROUND_UP32 newbrk) = ROUND_UP32 B)) := by
  subst hB hreg
  have hwrap : k.isa_ctx.loader.brk ≤ 4294963200 → k.isa_ctx.regs.ebx ≤ 4294963200 →
      ROUND_UP32 k.isa_ctx.loader.brk = ROUND_UP k.isa_ctx.loader.brk 4096 ∧
      ROUND_UP32 k.isa_ctx.regs.ebx = ROUND_UP k.isa_ctx.regs.ebx 4096 ∧
      (k.isa_ctx.loader.brk < k.isa_ctx.regs.ebx →
        ROUND_UP32 k.isa_ctx.loader.brk +
          sub32 (ROUND_UP32 k.isa_ctx.regs.ebx) (ROUND_UP32 k.isa_ctx.loader.brk) =
          ROUND_UP32 k.isa_ctx.regs.ebx) ∧
      (k.isa_ctx.regs.ebx < k.isa_ctx.loader.brk →
        ROUND_UP32 k.isa_ctx.regs.ebx +
          sub32 (ROUND_UP32 k.isa_ctx.loader.brk) (ROUND_UP32 k.isa_ctx.regs.ebx) =
          ROUND_UP32 k.isa_ctx.loader.brk) := by
    unfold sub32 ROUND_UP32 ROUND_UP MEM_PAGESIZE
    intro h1 h2
    refine ⟨by omega, by omega, fun _ => by omega, fun _ => by omega⟩
  have hret : toU32 (toInt32 k.isa_ctx.regs.ebx) = k.isa_ctx.regs.ebx := by
    rw [toU32_toInt32]; omega
  rcases Nat.lt_or_gt_of_ne hne with hlt | hgt
  · -- shrink
    have hal := ROUND_UP32_aligned k.isa_ctx.regs.ebx
    have hsz := sub32_aligned _ _ (ROUND_UP32_aligned k.isa_ctx.loader.brk) hal
    have hfit := brk_grow_fits _ _ hlt hB32
    refine ⟨_, sys_brk_shrink k h0 hlt, hret, rfl, fun h => absurd h (Nat.lt_asymm hlt),
      fun _ => ?_, hwrap⟩
    by_cases hz : sub32 (ROUND_UP32 k.isa_ctx.loader.brk) (ROUND_UP32 k.isa_ctx.regs.ebx) = 0
    · simp only [hz, ne_eq, not_true_eq_false, if_false, if_true, List.append_nil, Nat.add_zero]
      refine ⟨fun p => ?_, rfl⟩
      rw [if_neg (by omega)]
      rfl
    · simp only [ne_eq, hz, not_false_eq_true, if_true, if_false]
      refine ⟨fun p => ?_, rfl⟩
      show (if in_range _ _ p = true then none else k.isa_mem.pages p) = _
      simp only [in_range_iff _ _ p hal hsz]
      by_cases hp : ROUND_UP32 k.isa_ctx.regs.ebx ≤ p * 4096 ∧
          p * 4096 < ROUND_UP32 k.isa_ctx.regs.ebx +
            sub32 (ROUND_UP32 k.isa_ctx.loader.brk) (ROUND_UP32 k.isa_ctx.regs.ebx)
      · rw [if_pos hp, if_pos ⟨hp.1, hp.2, by omega⟩]
      · rw [if_neg hp, if_neg (fun h => hp ⟨h.1, h.2.1⟩)]
  · -- grow
    have hal := ROUND_UP32_aligned k.isa_ctx.loader.brk
    have hsz := sub32_aligned _ _ (ROUND_UP32_aligned k.isa_ctx.regs.ebx) hal
    have hfit := brk_grow_fits _ _ hgt hn32
    have hrf := (range_free_iff k.isa_mem _ _ hal hsz).2 ⟨hfit, hfree hgt⟩
    refine ⟨_, sys_brk_grow k h0 hgt hrf, hret, rfl, fun _ => ?_,
      fun h => absurd h (Nat.lt_asymm hgt), hwrap⟩
    by_cases hz : sub32 (ROUND_UP32 k.isa_ctx.regs.ebx) (ROUND_UP32 k.isa_ctx.loader.brk) = 0
    · simp only [hz, ne_eq, not_true_eq_false, if_false, if_true, List.append_nil, Nat.add_zero]
      refine ⟨fun p => ?_, rfl⟩
      rw [if_neg (by omega)]
      rfl
    · simp only [ne_eq, hz, not_false_eq_true, if_true, if_false]
      refine ⟨fun p => ?_, rfl⟩
      show (if in_range _ _ p = true then some _ else k.isa_mem.pages p) = _
      simp only [in_range_iff _ _ p hal hsz]
      by_cases hp : ROUND_UP32 k.isa_ctx.loader.brk ≤ p * 4096 ∧
          p * 4096 < ROUND_UP32 k.isa_ctx.loader.brk +
            sub32 (ROUND_UP32 k.isa_ctx.regs.ebx) (ROUND_UP32 k.isa_ctx.loader.brk)
      · rw [if_pos hp, if_pos ⟨hp.1, hp.2, by omega⟩]
      · rw [if_neg hp, if_neg (fun h => hp ⟨h.1, h.2.1⟩)]

/-- Witness for C4: from break 0x10000000 with no page mapped, `brk(0x10001234)`
maps `[0x10000000, 0x10002000)` read+write, and the following
`brk(0x10000800)` unmaps `[0x10001000, 0x10002000)`. -/
theorem brk_sets_break_and_maps_exact_range_witness :
    ∃ k1 k2, sys_brk brk_grow_demo = .ok (268440116, k1) ∧
      k1.isa_ctx.loader.brk = 268440116 ∧
      k1.isa_mem.pages 65536 = some (mem_access_read.or mem_access_write) ∧
      k1.isa_mem.pages 65537 = some (mem_access_read.or mem_access_write) ∧
      k1.isa_mem.pages 65538 = none ∧
      k1.isa_mem.calls = [MemCall.map 268435456 8192 (mem_access_read.or mem_access_write)] ∧
      sys_brk (k1.with_ebx 268437504) = .ok (268437504, k2) ∧
      k2.isa_ctx.loader.brk = 268437504 ∧
      k2.isa_mem.pages 65536 = some (mem_access_read.or mem_access_write) ∧
      k2.isa_mem.pages 65537 = none ∧
      k2.isa_mem.calls = [MemCall.map 268435456 8192 (mem_access_read.or mem_access_write),
        MemCall.unmap 268439552 4096] := by
  obtain ⟨k1, hr1, -, hb1, hg1, -, -⟩ :=
    brk_sets_break_and_maps_exact_range brk_grow_demo 268435456 268440116 rfl rfl
      (by decide) (by decide) (by decide) (by decide) (fun _ _ _ _ => rfl)
  obtain ⟨hp1, hc1⟩ := hg1 (by decide)
  obtain ⟨k2, hr2, -, hb2, -, hs2, -⟩ :=
    brk_sets_break_and_maps_exact_range (k1.with_ebx 268437504) 268440116 268437504 hb1 rfl
      (by decide) (by decide) (by decide) (by decide) (fun h => absurd h (by decide))
  obtain ⟨hp2, hc2⟩ := hs2 (by decide)
  have e1 : k1.isa_mem.pages 65536 = some (mem_access_read.or mem_access_write) :=
    (hp1 65536).trans (by decide)
  have e2 : k1.isa_mem.pages 65537 = some (mem_access_read.or mem_access_write) :=
    (hp1 65537).trans (by decide)
  have e3 : k1.isa_mem.pages 65538 = none := (hp1 65538).trans (by decide)
  have e4 : k1.isa_mem.calls =
      [MemCall.map 268435456 8192 (mem_access_read.or mem_access_write)] :=
    hc1.trans (by decide)
  refine ⟨k1, k2, hr1, hb1, e1, e2, e3, e4, hr2, hb2, ?_, ?_, ?_⟩
  · exact (hp2 65536).trans ((if_neg (by decide)).trans e1)
  · exact (hp2 65537).trans (if_pos (by decide))
  · refine hc2.trans ?_
    show k1.isa_mem.calls ++ _ = _
    rw [e4]
    decide

/-- C5: a request to grow the break while some page of the range to map is
already mapped ends the simulation with `fatal("syscall brk: out of memory")`:
the old break is not returned. -/
theorem brk_growth_conflict_is_fatal (k : Kernel) (B newbrk p : Nat)
    (hB : k.isa_ctx.loader.brk = B) (hreg : k.isa_ctx.regs.ebx = newbrk)
    (hgt : B < newbrk)
    (hlo : ROUND_UP32 B ≤ p * 4096)
    (hhi : p * 4096 < ROUND_UP32 B + sub32 (ROUND_UP32 newbrk) (ROUND_UP32 B))
    (hmapped : k.isa_mem.pages p ≠ none) :
    sys_brk k = .error (.fatal .brk_out_of_memory) := by
  subst hB hreg
  have hal := ROUND_UP32_aligned k.isa_ctx.loader.brk
  have hsz := sub32_aligned _ _ (ROUND_UP32_aligned k.isa_ctx.regs.ebx) hal
  refine sys_brk_conflict k (by omega) hgt (by omega) ?_
  rw [Bool.eq_false_iff]
  intro h
  exact hmapped (((range_free_iff _ _ _ hal hsz).1 h).2 p hlo hhi)

/-- Witness for C5: break 0x10000000, page 0x10001000 mapped, `brk(0x10001234)`. -/
theorem brk_growth_conflict_is_fatal_witness :
    sys_brk brk_conflict_demo = .error (.fatal .brk_out_of_memory) :=
  brk_growth_conflict_is_fatal brk_conflict_demo 268435456 268440116 65537 rfl rfl
    (by decide) (by decide) (by decide) (by decide)

/-! ## do_mmap -/

theorem mmap_perm_eq (prot : Nat) :
    mmap_perm prot =
      { init := true, read := decide (prot &&& 1 ≠ 0), write := decide (prot &&& 2 ≠ 0),
        exec := decide (prot &&& 4 ≠ 0) } := by
  unfold mmap_perm PROT_READ PROT_WRITE PROT_EXEC
  generalize prot &&& 1 = a
  generalize prot &&& 2 = b
  generalize prot &&& 4 = c
  by_cases h1 : a = 0 <;> by_cases h2 : b = 0 <;> by_cases h4 : c = 0 <;>
    simp [h1, h2, h4, Perm.or, Perm.none, mem_access_init, mem_access_read, mem_access_write,
      mem_access_exec]

theorem do_mmap_fixed_anon_eq (env : Env) (k : Kernel) (addr len prot flags : Nat)
    (guest_fd : Int) (offset : Nat)
    (haddr : addr ≠ 0) (hal : addr % 4096 = 0) (hoff : offset % 4096 = 0)
    (hfixed : flags &&& 16 ≠ 0) (hanon : flags &&& 32 ≠ 0)
    (hfd : guest_fd ≤ 0 ∨ ∃ e, fdt_entry_get k.isa_ctx.fdt guest_fd = some e ∧ 0 ≤ e.host_fd) :
    do_mmap env k addr len prot flags guest_fd offset =
      .ok (addr, k.set_mem (mem_map (mem_unmap k.isa_mem addr (ROUND_UP32 len)) addr
        (ROUND_UP32 len) (mmap_perm prot))) := by
  have hguard : ¬ (guest_fd > 0 ∧
      (match fdt_entry_get k.isa_ctx.fdt guest_fd with
        | some e => e.host_fd
        | none => (-1 : Int)) < 0) := by
    rintro ⟨h1, h2⟩
    rcases hfd with h | ⟨e, he, h0⟩
    · omega
    · rw [he] at h2
      simp only at h2
      omega
  unfold do_mmap
  simp only [if_neg hguard, MEM_PAGESIZE, MAP_ANONYMOUS, MAP_FIXED, hoff, hal, ne_eq,
    not_true_eq_false, if_false, hfixed, hanon, not_false_eq_true, if_true, haddr]
  rfl

/-- C6, counterexample: with MAP_FIXED|MAP_ANONYMOUS, a page-aligned non-zero
`addr` and a page-aligned offset, `do_mmap` called with the positive guest fd 5
that has no table entry does not return `addr`: the check of `guest_fd` comes
before MAP_ANONYMOUS is looked at and the call is fatal. -/
theorem do_mmap_fixed_anonymous_unknown_fd_is_fatal :
    do_mmap env_demo kernel_demo 536870912 8192 3 48 5 0 =
        .error (.fatal .mmap_invalid_guest_fd) ∧
      ¬ ∃ k1, do_mmap env_demo kernel_demo 536870912 8192 3 48 5 0 = .ok (536870912, k1) := by
  have h : do_mmap env_demo kernel_demo 536870912 8192 3 48 5 0 =
      .error (.fatal .mmap_invalid_guest_fd) := rfl
  refine ⟨h, ?_⟩
  rintro ⟨k1, h1⟩
  rw [h] at h1
  cases h1

/-- C6, amended: for every non-zero page-aligned `addr`, every `len` and `prot`,
every page-aligned `offset`, and every `guest_fd` that is not positive or has a
table entry with a valid host fd, `do_mmap` with MAP_FIXED and MAP_ANONYMOUS
set returns exactly `addr`, after one `mem_unmap` and one `mem_map` call on
`[addr, addr + R len)` (`R` the 32-bit rounding of the source): every page of
that range in the address space ends with permissions init plus
read/write/exec according to the PROT bits and is zero-filled, every other
page is unchanged, and no host mmap is performed. -/
theorem do_mmap_fixed_anonymous_returns_addr (env : Env) (k : Kernel)
    (addr len prot flags : Nat) (guest_fd : Int) (offset : Nat)
    (haddr : addr ≠ 0) (hal : addr % 4096 = 0) (hoff : offset % 4096 = 0)
    (hfixed : flags &&& 16 ≠ 0) (hanon : flags &&& 32 ≠ 0)
    (hfd : guest_fd ≤ 0 ∨ ∃ e, fdt_entry_get k.isa_ctx.fdt guest_fd = some e ∧ 0 ≤ e.host_fd) :
    ∃ k1, do_mmap env k addr len prot flags guest_fd offset = .ok (addr, k1) ∧
      (∀ p, k1.isa_mem.pages p =
        if addr ≤ p * 4096 ∧ p * 4096 < addr + ROUND_UP32 len ∧ p < 1048576
        then some (Perm.mk true (decide (prot &&& 1 ≠ 0)) (decide (prot &&& 2 ≠ 0))
          (decide (prot &&& 4 ≠ 0)))
        else k.isa_mem.pages p) ∧
      (∀ a, addr ≤ a → a < addr + ROUND_UP32 len → a < 4294967296 → k1.isa_mem.bytes a = 0) ∧
      k1.isa_mem.calls = k.isa_mem.calls ++
        [MemCall.unmap addr (ROUND_UP32 len),
         MemCall.map addr (ROUND_UP32 len)
          (Perm.mk true (decide (prot &&& 1 ≠ 0)) (decide (prot &&& 2 ≠ 0))
            (decide (prot &&& 4 ≠ 0)))] ∧
      k1.host_calls = k.host_calls ∧ k1.isa_ctx = k.isa_ctx := by
  have hlen := ROUND_UP32_aligned len
  refine ⟨_, do_mmap_fixed_anon_eq env k addr len prot flags guest_fd offset haddr hal hoff
    hfixed hanon hfd, fun p => ?_, fun a h1 h2 h3 => ?_, ?_, rfl, rfl⟩
  · show (if in_range addr (ROUND_UP32 len) p = true then some (mmap_perm prot)
      else if in_range addr (ROUND_UP32 len) p = true then none else k.isa_mem.pages p) = _
    rw [mmap_perm_eq]
    simp only [in_range_iff _ _ p hal hlen]
    split <;> rfl
  · have hin : in_range addr (ROUND_UP32 len) (a / 4096) = true :=
      (in_range_iff _ _ _ hal hlen).2 (by omega)
    show (if (in_range addr (ROUND_UP32 len) (a / 4096) &&
      (if in_range addr (ROUND_UP32 len) (a / 4096) = true then none
        else k.isa_mem.pages (a / 4096)).isNone) = true then 0 else k.isa_mem.bytes a) = 0
    simp [hin]
  · show (k.isa_mem.calls ++ [MemCall.unmap addr (ROUND_UP32 len)]) ++
      [MemCall.map addr (ROUND_UP32 len) (mmap_perm prot)] = _
    rw [mmap_perm_eq, List.append_assoc]
    rfl

/-- Witness for C6: `mmap(addr=0x20000000, len=0x2000, prot=RW,
flags=MAP_PRIVATE|MAP_FIXED|MAP_ANONYMOUS, fd=-1, off=0)` returns 0x20000000. -/
theorem do_mmap_fixed_anonymous_returns_addr_witness :
    ∃ k1, do_mmap env_demo kernel_demo 536870912 8192 3 50 (-1) 0 = .ok (536870912, k1) ∧
      k1.isa_mem.pages 131072 = some (Perm.mk true true true false) ∧
      k1.isa_mem.pages 131073 = some (Perm.mk true true true false) ∧
      k1.isa_mem.pages 131074 = none ∧
      k1.isa_mem.bytes 536870912 = 0 ∧ k1.host_calls = [] := by
  obtain ⟨k1, hr, hp, hb, -, hh, -⟩ :=
    do_mmap_fixed_anonymous_returns_addr env_demo kernel_demo 536870912 8192 3 50 (-1) 0
      (by decide) (by decide) (by decide) (by decide) (by decide) (Or.inl (by decide))
  exact ⟨k1, hr, (hp 131072).trans (by decide), (hp 131073).trans (by decide),
    (hp 131074).trans (by decide), hb 536870912 (by decide) (by decide) (by decide), hh⟩

/-! ## mremap -/

/-- C7, counterexample: `mremap(0x20000000, 0x1000, 0x1000, flags = 0)` asks for
no change of size, yet it is fatal because the flag is missing; it does not
return `addr`. -/
theorem mremap_same_size_without_maymove_is_fatal :
    sys_mremap mremap_noflag_demo = .error (.fatal .mremap_maymove) ∧
      ¬ ∃ k1, sys_mremap mremap_noflag_demo = .ok (536870912, k1) := by
  have h : sys_mremap mremap_noflag_demo = .error (.fatal .mremap_maymove) := rfl
  refine ⟨h, ?_⟩
  rintro ⟨k1, h1⟩
  rw [h] at h1
  cases h1

/-- C7, amended: for every page-aligned `addr`, `old_len` and `new_len`,
`mremap` is fatal whenever bit 0 of `flags` (MAP_MAYMOVE) is missing, whatever
the lengths.  With the bit set and non-zero lengths: `new_len == old_len` is a
no-op returning `addr`; `new_len < old_len` unmaps the `old_len - new_len`
bytes at `addr + new_len` and returns `addr`; and when the `new_len - old_len`
bytes at `addr + old_len` are free, growth maps them read+write in place and
returns `addr` (addresses are 32-bit sums). -/
theorem mremap_is_fatal_without_maymove (k : Kernel) (addr old_len new_len flags : Nat)
    (hebx : k.isa_ctx.regs.ebx = addr) (hecx : k.isa_ctx.regs.ecx = old_len)
    (hedx : k.isa_ctx.regs.edx = new_len) (hesi : k.isa_ctx.regs.esi = flags)
    (ha : addr % 4096 = 0) (ho : old_len % 4096 = 0) (hn : new_len % 4096 = 0)
    (ho32 : old_len < 4294967296) (hn32 : new_len < 4294967296) :
    (flags &&& 1 = 0 → sys_mremap k = .error (.fatal .mremap_maymove)) ∧
    (flags &&& 1 ≠ 0 → old_len ≠ 0 → new_len ≠ 0 →
      (new_len = old_len → sys_mremap k = .ok (toInt32 addr, k)) ∧
      (new_len < old_len →
        ∃ k1, sys_mremap k = .ok (toInt32 addr, k1) ∧
          (∀ p, k1.isa_mem.pages p =
            if add32 addr new_len ≤ p * 4096 ∧
              p * 4096 < add32 addr new_len + (old_len - new_len) ∧ p < 1048576
            then none else k.isa_mem.pages p) ∧
          k1.isa_mem.calls = k.isa_mem.calls ++
            [MemCall.unmap (add32 addr new_len) (old_len - new_len)] ∧
          k1.isa_ctx = k.isa_ctx) ∧
      (old_len < new_len →
        add32 addr old_len + (new_len - old_len) ≤ 4294967296 →
        (∀ p, add32 addr old_len ≤ p * 4096 →
          p * 4096 < add32 addr old_len + (new_len - old_len) → k.isa_mem.pages p = none) →
        ∃ k1, sys_mremap k = .ok (toInt32 addr, k1) ∧
          (∀ p, k1.isa_mem.pages p =
            if add32 addr old_len ≤ p * 4096 ∧
              p * 4096 < add32 addr old_len + (new_len - old_len)
            then some (mem_access_read.or mem_access_write) else k.isa_mem.pages p) ∧
          k1.isa_mem.calls = k.isa_mem.calls ++
            [MemCall.map (add32 addr old_len) (new_len - old_len)
              (mem_access_read.or mem_access_write)] ∧
          k1.isa_ctx = k.isa_ctx)) := by
  subst hebx hecx hedx hesi
  have hassert : ¬ (k.isa_ctx.regs.ebx % MEM_PAGESIZE ≠ 0 ∨ k.isa_ctx.regs.ecx % MEM_PAGESIZE ≠ 0 ∨
      k.isa_ctx.regs.edx % MEM_PAGESIZE ≠ 0) := by
    unfold MEM_PAGESIZE
    omega
  refine ⟨fun hf => ?_, fun hf ho0 hn0 => ⟨fun he => ?_, fun hlt => ?_, fun hgt hfit hfree => ?_⟩⟩
  · unfold sys_mremap
    rw [if_neg hassert, if_pos hf]
  · unfold sys_mremap
    rw [if_neg hassert, if_neg hf, if_neg (by omega), if_pos he]
  · have hsub : sub32 k.isa_ctx.regs.ecx k.isa_ctx.regs.edx =
        k.isa_ctx.regs.ecx - k.isa_ctx.regs.edx := by
      unfold sub32; omega
    have hal : add32 k.isa_ctx.regs.ebx k.isa_ctx.regs.edx % 4096 = 0 := by
      unfold add32; omega
    refine ⟨k.set_mem (mem_unmap k.isa_mem (add32 k.isa_ctx.regs.ebx k.isa_ctx.regs.edx)
      (k.isa_ctx.regs.ecx - k.isa_ctx.regs.edx)), ?_, fun p => ?_, rfl, rfl⟩
    · unfold sys_mremap
      rw [if_neg hassert, if_neg hf, if_neg (by omega), if_neg (by omega), if_pos hlt, hsub]
    · show (if in_range _ _ p = true then none else k.isa_mem.pages p) = _
      simp only [in_range_iff _ _ p hal (show (k.isa_ctx.regs.ecx - k.isa_ctx.regs.edx) % 4096 = 0
        by omega)]
  · have hsub : sub32 k.isa_ctx.regs.edx k.isa_ctx.regs.ecx =
        k.isa_ctx.regs.edx - k.isa_ctx.regs.ecx := by
      unfold sub32; omega
    have hal : add32 k.isa_ctx.regs.ebx k.isa_ctx.regs.ecx % 4096 = 0 := by
      unfold add32; omega
    have hsz : (k.isa_ctx.regs.edx - k.isa_ctx.regs.ecx) % 4096 = 0 := by omega
    have hrf := (range_free_iff k.isa_mem _ _ hal hsz).2 ⟨hfit, hfree⟩
    refine ⟨k.set_mem (mem_map k.isa_mem (add32 k.isa_ctx.regs.ebx k.isa_ctx.regs.ecx)
      (k.isa_ctx.regs.edx - k.isa_ctx.regs.ecx) (mem_access_read.or mem_access_write)),
      ?_, fun p => ?_, rfl, rfl⟩
    · unfold sys_mremap
      rw [if_neg hassert, if_neg hf, if_neg (by omega), if_neg (by omega), if_neg (by omega),
        hsub, if_pos ⟨hgt, mem_map_space_eq_self _ _ _ hrf⟩]
    · show (if in_range _ _ p = true then some _ else k.isa_mem.pages p) = _
      simp only [in_range_iff _ _ p hal hsz]
      by_cases hp : add32 k.isa_ctx.regs.ebx k.isa_ctx.regs.ecx ≤ p * 4096 ∧
          p * 4096 < add32 k.isa_ctx.regs.ebx k.isa_ctx.regs.ecx +
            (k.isa_ctx.regs.edx - k.isa_ctx.regs.ecx)
      · rw [if_pos hp, if_pos ⟨hp.1, hp.2, by omega⟩]
      · rw [if_neg hp, if_neg (fun h => hp ⟨h.1, h.2.1⟩)]

/-- Witness for C7: `mremap(0x20000000, 0x2000, 0x1000, MREMAP_MAYMOVE)` unmaps
the page at 0x20001000 and returns 0x20000000. -/
theorem mremap_is_fatal_without_maymove_witness :
    ∃ k1, sys_mremap mremap_shrink_demo = .ok (536870912, k1) ∧
      k1.isa_mem.calls = [MemCall.unmap 536875008 4096] := by
  obtain ⟨k1, hr, -, hc, -⟩ :=
    (mremap_is_fatal_without_maymove mremap_shrink_demo 536870912 8192 4096 1 rfl rfl rfl rfl
      (by decide) (by decide) (by decide) (by decide) (by decide)).2
      (by decide) (by decide) (by decide) |>.2.1 (by decide)
  exact ⟨k1, hr, hc⟩

/-! ## waitpid -/

theorem toU32_lt (i : Int) : toU32 i < 4294967296 := by
  unfold toU32
  omega

/-- C8: `waitpid(pid, pstatus, options)`.  For `pid == 0` or `pid < -1` the call
is fatal.  For `pid == -1` or `pid > 0`: if a matching zombie child exists, the
call returns the pid of one, writes its exit code on 4 bytes at `pstatus`
exactly when `pstatus` is non-null, marks that child finished and touches no
other context; if none exists and WNOHANG (bit 0) is set it returns 0 and
changes nothing; if none exists and WNOHANG is clear the caller gets the
suspended and waitpid status bits and `wakeup_pid = pid`. -/
theorem waitpid_contract (k : Kernel) (pid : Int) (pstatus options : Nat)
    (hebx : toInt32 k.isa_ctx.regs.ebx = pid) (hecx : k.isa_ctx.regs.ecx = pstatus)
    (hedx : k.isa_ctx.regs.edx = options) :
    ((pid = 0 ∨ pid < -1) → sys_waitpid k = .error (.fatal .waitpid_pid)) ∧
    ((pid = -1 ∨ pid > 0) →
      ((∃ c ∈ k.ctx_list, zombie_match k.isa_ctx pid c = true) →
        ∃ i child k1, k.ctx_list.get? i = some child ∧
          zombie_match k.isa_ctx pid child = true ∧
          sys_waitpid k = .ok (child.pid, k1) ∧
          (pstatus ≠ 0 →
            k1.isa_mem = mem_write32 k.isa_mem pstatus (toU32 child.exit_code) ∧
            mem_read32 k1.isa_mem pstatus = toU32 child.exit_code) ∧
          (pstatus = 0 → k1.isa_mem = k.isa_mem) ∧
          k1.ctx_list.get? i = some (ctx_set_status child ctx_finished) ∧
          (ctx_set_status child ctx_finished).status.finished = true ∧
          (∀ j, j ≠ i → k1.ctx_list.get? j = k.ctx_list.get? j) ∧
          k1.isa_ctx = k.isa_ctx) ∧
      ((∀ c ∈ k.ctx_list, zombie_match k.isa_ctx pid c = false) →
        (options &&& 1 ≠ 0 → sys_waitpid k = .ok (0, k)) ∧
        (options &&& 1 = 0 →
          ∃ k1, sys_waitpid k = .ok (0, k1) ∧
            k1.isa_ctx.status = k.isa_ctx.status.or (ctx_suspended.or ctx_waitpid) ∧
            k1.isa_ctx.status.suspended = true ∧ k1.isa_ctx.status.waitpid = true ∧
            k1.isa_ctx.wakeup_pid = pid ∧
            k1.ctx_list = k.ctx_list ∧ k1.isa_mem = k.isa_mem))) := by
  subst hecx hedx hebx
  refine ⟨fun hbad => ?_, fun hgood => ⟨?_, fun hnone => ⟨fun hw => ?_, fun hw => ?_⟩⟩⟩
  · unfold sys_waitpid
    rw [if_pos (by omega)]
  · rintro ⟨c, hc, hm⟩
    cases hz : ctx_get_zombie k (toInt32 k.isa_ctx.regs.ebx) with
    | none =>
      have := (ctx_find_index_none _ _).1 hz c hc
      rw [hm] at this
      cases this
    | some i =>
      obtain ⟨child, hget, hmatch⟩ := ctx_find_index_some _ _ i hz
      refine ⟨i, child,
        { (if k.isa_ctx.regs.ecx ≠ 0
            then k.set_mem (mem_write32 k.isa_mem k.isa_ctx.regs.ecx (toU32 child.exit_code))
            else k) with
          ctx_list := ctx_update (fun c => ctx_set_status c ctx_finished)
            (if k.isa_ctx.regs.ecx ≠ 0
              then k.set_mem (mem_write32 k.isa_mem k.isa_ctx.regs.ecx (toU32 child.exit_code))
              else k).ctx_list i },
        hget, hmatch, ?_, ?_, ?_, ?_, ?_, ?_, ?_⟩
      · unfold sys_waitpid
        rw [if_neg (by omega)]
        simp only [hz, hget]
      · intro hp
        rw [if_pos hp]
        refine ⟨rfl, ?_⟩
        show mem_read32 (mem_write32 k.isa_mem _ _) _ = _
        rw [mem_read32_write32]
        have := toU32_lt child.exit_code
        omega
      · intro hp
        rw [if_neg (by simpa using hp)]
      · show (ctx_update _ _ i).get? i = _
        rw [ctx_update_get, if_pos rfl]
        have e : (if k.isa_ctx.regs.ecx ≠ 0
            then k.set_mem (mem_write32 k.isa_mem k.isa_ctx.regs.ecx (toU32 child.exit_code))
            else k).ctx_list = k.ctx_list := by
          split <;> rfl
        rw [e, hget]
        rfl
      · simp [ctx_set_status, Status.or, ctx_finished]
      · intro j hj
        show (ctx_update _ _ i).get? j = _
        rw [ctx_update_get, if_neg hj]
        split <;> rfl
      · show (if k.isa_ctx.regs.ecx ≠ 0
            then k.set_mem (mem_write32 k.isa_mem k.isa_ctx.regs.ecx (toU32 child.exit_code))
            else k).isa_ctx = k.isa_ctx
        split <;> rfl
  · have hz : ctx_get_zombie k (toInt32 k.isa_ctx.regs.ebx) = none := (ctx_find_index_none _ _).2 hnone
    unfold sys_waitpid
    rw [if_neg (by omega)]
    simp only [hz, if_neg hw]
  · have hz : ctx_get_zombie k (toInt32 k.isa_ctx.regs.ebx) = none := (ctx_find_index_none _ _).2 hnone
    refine ⟨k.set_ctx (ctx_set_status
      { k.isa_ctx with wakeup_pid := toInt32 k.isa_ctx.regs.ebx }
      (ctx_suspended.or ctx_waitpid)), ?_, rfl, ?_, ?_, rfl, rfl, rfl⟩
    · unfold sys_waitpid
      rw [if_neg (by omega)]
      simp only [hz, if_pos hw]
    · simp [Kernel.set_ctx, ctx_set_status, Status.or, ctx_suspended]
    · simp [Kernel.set_ctx, ctx_set_status, Status.or, ctx_waitpid]

/-- Witness for C8: the caller 100 has the zombie child 101 with exit code 7;
`waitpid(-1, 0x1000, 0)` returns 101 and stores 7 at 0x1000. -/
theorem waitpid_contract_witness :
    ∃ k1, sys_waitpid waitpid_demo = .ok (101, k1) ∧ mem_read32 k1.isa_mem 4096 = 7 ∧
      k1.ctx_list.get? 0 = some (ctx_set_status ctx_child_demo ctx_finished) := by
  obtain ⟨i, child, k1, hget, -, hr, hw, -, hf, -, -, -⟩ :=
    (waitpid_contract waitpid_demo (-1) 4096 0 (by decide) rfl rfl).2 (Or.inl rfl) |>.1
      ⟨ctx_child_demo, List.mem_singleton.2 rfl, by decide⟩
  have hi : i = 0 := by
    cases i with
    | zero => rfl
    | succ n => cases hget
  subst hi
  have hc : child = ctx_child_demo := by
    have : some ctx_child_demo = some child := hget
    cases this
    rfl
  subst hc
  exact ⟨k1, hr, (hw (by decide)).2, hf⟩

/-! ## rt_sigprocmask -/

/-- C9: `rt_sigprocmask(how, pset, poset)` with old blocked mask `B` and the
64-bit set `S` read at `pset`.  The handler stores `B | S` for SIG_BLOCK (0),
`B & ~S` for SIG_UNBLOCK (1) and `S` for SIG_SETMASK (2), and then runs the
event tick on the state `k1` it built; with a null `pset` the mask stays `B`;
with a non-null `poset` the 8 bytes written there hold `B`, the mask before the
update; the pending and backup masks are not touched. -/
theorem rt_sigprocmask_contract (env : Env) (k : Kernel) (how pset poset B S : Nat)
    (hebx : k.isa_ctx.regs.ebx = how) (hecx : k.isa_ctx.regs.ecx = pset)
    (hedx : k.isa_ctx.regs.edx = poset) (hB : k.isa_ctx.signal_masks.blocked = B)
    (hB64 : B < 18446744073709551616) (hS : mem_read64 k.isa_mem pset = S) :
    (how ≤ 2 ∨ pset = 0 →
      ∃ k1, sys_rt_sigprocmask env k =
          .ok (0, env.ke_process_events (env.ke_process_events_schedule k1)) ∧
        (pset ≠ 0 → how = 0 → k1.isa_ctx.signal_masks.blocked = B ||| S) ∧
        (pset ≠ 0 → how = 1 →
          k1.isa_ctx.signal_masks.blocked = B &&& (18446744073709551615 ^^^ S) ∧
          ∀ i, (k1.isa_ctx.signal_masks.blocked).testBit i =
            (B.testBit i && (decide (i < 64) && !S.testBit i))) ∧
        (pset ≠ 0 → how = 2 → k1.isa_ctx.signal_masks.blocked = S) ∧
        (pset = 0 → k1.isa_ctx.signal_masks.blocked = B) ∧
        (poset ≠ 0 → k1.isa_mem = mem_write64 k.isa_mem poset B ∧
          mem_read64 k1.isa_mem poset = B) ∧
        (poset = 0 → k1.isa_mem = k.isa_mem) ∧
        k1.isa_ctx.signal_masks.pending = k.isa_ctx.signal_masks.pending ∧
        k1.isa_ctx.signal_masks.backup = k.isa_ctx.signal_masks.backup) ∧
    (pset ≠ 0 → 2 < how → sys_rt_sigprocmask env k = .error (.fatal .sigprocmask_how)) := by
  subst hebx hecx hedx hB hS
  have hS64 := mem_read64_lt k.isa_mem k.isa_ctx.regs.ecx
  have hback : ∀ m : Mem, mem_read64 (mem_write64 m k.isa_ctx.regs.edx
      k.isa_ctx.signal_masks.blocked) k.isa_ctx.regs.edx = k.isa_ctx.signal_masks.blocked := by
    intro m
    rw [mem_read64_write64]
    omega
  refine ⟨fun hok => ?_, fun hp hbad => ?_⟩
  · by_cases hp : k.isa_ctx.regs.ecx = 0
    · refine ⟨_, sys_rt_sigprocmask_of_update env k _ (sys_rt_sigprocmask_update_null k hp),
        fun h => absurd hp h, fun h => absurd hp h, fun h => absurd hp h, fun _ => ?_,
        fun ho => ?_, fun ho => ?_, ?_, ?_⟩
      · split <;> rfl
      · rw [if_pos ho]
        exact ⟨rfl, hback _⟩
      · rw [if_neg (by simpa using ho)]
      · split <;> rfl
      · split <;> rfl
    · have hhow : k.isa_ctx.regs.ebx ≤ 2 := hok.resolve_right hp
      obtain ⟨b, hb⟩ : ∃ b, sigprocmask_apply k.isa_ctx.regs.ebx k.isa_ctx.signal_masks.blocked
          (mem_read64 k.isa_mem k.isa_ctx.regs.ecx) = some b := by
        unfold sigprocmask_apply
        by_cases h0 : k.isa_ctx.regs.ebx = 0
        · exact ⟨_, if_pos h0⟩
        · by_cases h1 : k.isa_ctx.regs.ebx = 1
          · exact ⟨_, by rw [if_neg h0, if_pos h1]⟩
          · exact ⟨_, by rw [if_neg h0, if_neg h1, if_pos (by omega)]⟩
      have hblk : (if k.isa_ctx.regs.edx ≠ 0
          then (k.set_blocked b).set_mem
            (mem_write64 k.isa_mem k.isa_ctx.regs.edx k.isa_ctx.signal_masks.blocked)
          else k.set_blocked b).isa_ctx.signal_masks.blocked = b := by
        split <;> rfl
      refine ⟨_, sys_rt_sigprocmask_of_update env k _ (sys_rt_sigprocmask_update_set k b hp hb),
        fun _ h0 => ?_, fun _ h1 => ?_, fun _ h2 => ?_, fun h => absurd h hp,
        fun ho => ?_, fun ho => ?_, ?_, ?_⟩
      · rw [hblk]
        unfold sigprocmask_apply at hb
        rw [if_pos h0] at hb
        exact (Option.some.inj hb).symm
      · rw [hblk]
        unfold sigprocmask_apply at hb
        rw [if_neg (by omega), if_pos h1] at hb
        have e := (Option.some.inj hb).symm
        refine ⟨e, fun i => ?_⟩
        rw [e]
        exact and_not_bits _ _ i hS64
      · rw [hblk]
        unfold sigprocmask_apply at hb
        rw [if_neg (by omega), if_neg (by omega), if_pos h2] at hb
        exact (Option.some.inj hb).symm
      · rw [if_pos ho]
        exact ⟨rfl, hback _⟩
      · rw [if_neg (by simpa using ho)]
        rfl
      · split <;> rfl
      · split <;> rfl
  · unfold sys_rt_sigprocmask
    rw [sys_rt_sigprocmask_update_bad_how k hp hbad]

/-- Witness for C9: blocked mask 1, `rt_sigprocmask(SIG_BLOCK, 0x1000, 0x2000)`
with the set 1 at 0x1000 stores the mask 1 and writes the old mask 1 at 0x2000. -/
theorem rt_sigprocmask_contract_witness :
    ∃ k1, sys_rt_sigprocmask env_demo sigmask_demo = .ok (0, k1) ∧
      k1.isa_ctx.signal_masks.blocked = 1 ∧ mem_read64 k1.isa_mem 8192 = 1 := by
  obtain ⟨k1, hr, h0, -, -, -, hw, -, -, -⟩ :=
    (rt_sigprocmask_contract env_demo sigmask_demo 0 4096 8192 1 1 rfl rfl rfl rfl
      (by decide) (by decide)).1 (Or.inl (by decide))
  exact ⟨k1, hr, h0 (by decide) rfl, (hw (by decide)).2⟩

/-- C10, counterexample: with blocked mask `M = 1` and set `S = 1`,
`rt_sigprocmask(SIG_BLOCK, S)` followed by `rt_sigprocmask(SIG_UNBLOCK, S)`
leaves the blocked mask 0, not `M`. -/
theorem sigprocmask_block_unblock_clears_blocked_bit :
    ∃ k1 k2, sys_rt_sigprocmask env_demo sigmask_demo = .ok (0, k1) ∧
      sys_rt_sigprocmask env_demo (k1.with_ebx 1) = .ok (0, k2) ∧
      sigmask_demo.isa_ctx.signal_masks.blocked = 1 ∧
      mem_read64 sigmask_demo.isa_mem 4096 = 1 ∧
      mem_read64 (k1.with_ebx 1).isa_mem 4096 = 1 ∧
      k2.isa_ctx.signal_masks.blocked = 0 ∧
      k2.isa_ctx.signal_masks.blocked ≠ sigmask_demo.isa_ctx.signal_masks.blocked :=
  ⟨_, _, rfl, rfl, rfl, by decide, by decide, by decide, by decide⟩

/-- C10, amended: for every initial blocked mask `M` and every signal set `S`,
`rt_sigprocmask(SIG_BLOCK, S)` stores `M | S`, and a following
`rt_sigprocmask(SIG_UNBLOCK, S)` that finds this mask stores `M & ~S`: the bits
of `S` are cleared and the other bits of `M` are kept, so the mask is `M` again
exactly when `M` and `S` have no bit in common. -/
theorem sigprocmask_block_then_unblock (env : Env) (k k' : Kernel) (M S : Nat)
    (hM : k.isa_ctx.signal_masks.blocked = M) (hM64 : M < 18446744073709551616)
    (hhow : k.isa_ctx.regs.ebx = 0) (hpset : k.isa_ctx.regs.ecx ≠ 0)
    (hS : mem_read64 k.isa_mem k.isa_ctx.regs.ecx = S)
    (hhow' : k'.isa_ctx.regs.ebx = 1) (hpset' : k'.isa_ctx.regs.ecx ≠ 0)
    (hS' : mem_read64 k'.isa_mem k'.isa_ctx.regs.ecx = S) :
    ∃ k1, sys_rt_sigprocmask env k =
        .ok (0, env.ke_process_events (env.ke_process_events_schedule k1)) ∧
      k1.isa_ctx.signal_masks.blocked = M ||| S ∧
      (k'.isa_ctx.signal_masks.blocked = k1.isa_ctx.signal_masks.blocked →
        ∃ k2, sys_rt_sigprocmask env k' =
            .ok (0, env.ke_process_events (env.ke_process_events_schedule k2)) ∧
          k2.isa_ctx.signal_masks.blocked = M &&& (18446744073709551615 ^^^ S) ∧
          (∀ i, (k2.isa_ctx.signal_masks.blocked).testBit i =
            (M.testBit i && (decide (i < 64) && !S.testBit i))) ∧
          (k2.isa_ctx.signal_masks.blocked = M ↔ M &&& S = 0)) := by
  have hS64 : S < 18446744073709551616 := hS ▸ mem_read64_lt _ _
  have hb1 : sigprocmask_apply k.isa_ctx.regs.ebx k.isa_ctx.signal_masks.blocked
      (mem_read64 k.isa_mem k.isa_ctx.regs.ecx) = some (M ||| S) := by
    rw [hhow, hM, hS]
    rfl
  have hblk1 : (if k.isa_ctx.regs.edx ≠ 0
      then (k.set_blocked (M ||| S)).set_mem
        (mem_write64 k.isa_mem k.isa_ctx.regs.edx k.isa_ctx.signal_masks.blocked)
      else k.set_blocked (M ||| S)).isa_ctx.signal_masks.blocked = M ||| S := by
    split <;> rfl
  refine ⟨_, sys_rt_sigprocmask_of_update env k _ (sys_rt_sigprocmask_update_set k _ hpset hb1),
    hblk1, fun hsame => ?_⟩
  rw [hblk1] at hsame
  have hb2 : sigprocmask_apply k'.isa_ctx.regs.ebx k'.isa_ctx.signal_masks.blocked
      (mem_read64 k'.isa_mem k'.isa_ctx.regs.ecx) =
        some (M &&& (18446744073709551615 ^^^ S)) := by
    rw [hhow', hsame, hS', ← or_and_not M S hS64]
    rfl
  have hblk2 : (if k'.isa_ctx.regs.edx ≠ 0
      then (k'.set_blocked (M &&& (18446744073709551615 ^^^ S))).set_mem
        (mem_write64 k'.isa_mem k'.isa_ctx.regs.edx k'.isa_ctx.signal_masks.blocked)
      else k'.set_blocked (M &&& (18446744073709551615 ^^^ S))).isa_ctx.signal_masks.blocked =
        M &&& (18446744073709551615 ^^^ S) := by
    split <;> rfl
  refine ⟨_, sys_rt_sigprocmask_of_update env k' _
    (sys_rt_sigprocmask_update_set k' _ hpset' hb2), hblk2, fun i => ?_, ?_⟩
  · rw [hblk2]
    exact and_not_bits M S i hS64
  · rw [hblk2]
    exact and_not_eq_self_iff M S hM64 hS64

/-- Witness for C10: blocked mask 1 and set 1; after SIG_BLOCK the mask is 1,
after SIG_UNBLOCK it is 0. -/
theorem sigprocmask_block_then_unblock_witness :
    ∃ k1, sys_rt_sigprocmask env_demo sigmask_demo = .ok (0, k1) ∧
      k1.isa_ctx.signal_masks.blocked = 1 ∧
      ∃ k2, sys_rt_sigprocmask env_demo (sigmask_demo.with_ebx 1) = .ok (0, k2) ∧
        k2.isa_ctx.signal_masks.blocked = 0 := by
  obtain ⟨k1, hr1, hb1, h2⟩ :=
    sigprocmask_block_then_unblock env_demo sigmask_demo (sigmask_demo.with_ebx 1) 1 1 rfl
      (by decide) rfl (by decide) (by decide) rfl (by decide) (by decide)
  obtain ⟨k2, hr2, hb2, -, -⟩ := h2 (hb1.trans (by decide)).symm
  exact ⟨k1, hr1, hb1, k2, hr2, hb2⟩

/-! ## Facts about futex waiters -/

theorem ctx_update_length (f : Ctx → Ctx) (l : List Ctx) (i : Nat) :
    (ctx_update f l i).length = l.length := by
  induction l generalizing i with
  | nil => rfl
  | cons c cs ih =>
    cases i with
    | zero => rfl
    | succ i => simp [ctx_update, ih]

theorem countP_ctx_update (P : Ctx → Bool) (f : Ctx → Ctx) (l : List Ctx) (i : Nat) (c : Ctx)
    (hget : l.get? i = some c) (hP : P c = true) (hPf : P (f c) = false) :
    (ctx_update f l i).countP P + 1 = l.countP P := by
  induction l generalizing i with
  | nil => cases hget
  | cons d ds ih =>
    cases i with
    | zero =>
      have hd : d = c := by
        have : some d = some c := hget
        exact Option.some.inj this
      subst hd
      simp [ctx_update, List.countP_cons, hP, hPf]
    | succ i =>
      have h := ih i hget
      simp only [ctx_update, List.countP_cons]
      omega

theorem futex_first_waiter_some (futex bitset : Nat) (l : List Ctx) (i s : Nat)
    (h : futex_first_waiter futex bitset l = some (i, s)) :
    ∃ c, l.get? i = some c ∧ futex_waiter futex bitset c = true := by
  induction l generalizing i s with
  | nil => cases h
  | cons c cs ih =>
    unfold futex_first_waiter at h
    cases hr : futex_first_waiter futex bitset cs with
    | none =>
      rw [hr] at h
      simp only at h
      by_cases hw : futex_waiter futex bitset c = true
      · rw [if_pos hw] at h
        cases h
        exact ⟨c, rfl, hw⟩
      · rw [if_neg hw] at h
        cases h
    | some p =>
      obtain ⟨j, t⟩ := p
      rw [hr] at h
      simp only at h
      by_cases hw : futex_waiter futex bitset c = true ∧ c.wakeup_futex_sleep ≤ t
      · rw [if_pos hw] at h
        cases h
        exact ⟨c, rfl, hw.1⟩
      · rw [if_neg hw] at h
        cases h
        exact ih _ _ hr

theorem futex_first_waiter_none (futex bitset : Nat) (l : List Ctx)
    (h : futex_first_waiter futex bitset l = none) :
    l.countP (futex_waiter futex bitset) = 0 := by
  induction l with
  | nil => rfl
  | cons c cs ih =>
    unfold futex_first_waiter at h
    cases hr : futex_first_waiter futex bitset cs with
    | none =>
      rw [hr] at h
      simp only at h
      by_cases hw : futex_waiter futex bitset c = true
      · rw [if_pos hw] at h
        cases h
      · simp [List.countP_cons, hw, ih hr]
    | some p =>
      obtain ⟨j, t⟩ := p
      rw [hr] at h
      simp only at h
      split at h <;> cases h

theorem futex_waiter_suspended (futex bitset : Nat) (c : Ctx)
    (h : futex_waiter futex bitset c = true) :
    suspended_for_futex c = true ∧ c.wakeup_futex = futex := by
  simp only [futex_waiter, Bool.and_eq_true, decide_eq_true_eq] at h
  simp [suspended_for_futex, h.1.1.1, h.1.1.2, h.1.2]

theorem futex_waiter_clear (futex bitset : Nat) (c : Ctx) :
    futex_waiter futex bitset (ctx_clear_status c (ctx_suspended.or ctx_futex)) = false := by
  simp [futex_waiter, ctx_clear_status, Status.diff, Status.or, ctx_suspended, ctx_futex]

theorem suspended_for_futex_clear (c : Ctx) :
    suspended_for_futex (ctx_clear_status c (ctx_suspended.or ctx_futex)) = false := by
  simp [suspended_for_futex, ctx_clear_status, Status.diff, Status.or, ctx_suspended, ctx_futex]

theorem ctx_futex_wake_list_spec (futex bitset : Nat) :
    ∀ (n : Nat) (l : List Ctx),
      (ctx_futex_wake_list futex bitset n l).2.length = l.length ∧
      (∀ j c x, l.get? j = some c →
        (ctx_futex_wake_list futex bitset n l).2.get? j = some x →
        x = c ∨ (futex_waiter futex bitset c = true ∧
          x = ctx_clear_status c (ctx_suspended.or ctx_futex))) ∧
      (ctx_futex_wake_list futex bitset n l).1 = min n (l.countP (futex_waiter futex bitset)) ∧
      (ctx_futex_wake_list futex bitset n l).2.countP suspended_for_futex +
        (ctx_futex_wake_list futex bitset n l).1 = l.countP suspended_for_futex := by
  intro n
  induction n with
  | zero =>
    intro l
    refine ⟨rfl, fun j c x h1 h2 => ?_, ?_, rfl⟩
    · left
      have : some c = some x := h1.symm.trans h2
      exact (Option.some.inj this).symm
    · simp [ctx_futex_wake_list]
  | succ n ih =>
    intro l
    cases hf : futex_first_waiter futex bitset l with
    | none =>
      have hw : ctx_futex_wake_list futex bitset (n + 1) l = (0, l) := by
        simp only [ctx_futex_wake_list, hf]
      rw [hw]
      refine ⟨rfl, fun j c x h1 h2 => ?_, ?_, rfl⟩
      · left
        have : some c = some x := h1.symm.trans h2
        exact (Option.some.inj this).symm
      · simp [futex_first_waiter_none futex bitset l hf]
    | some p =>
      obtain ⟨i, s⟩ := p
      obtain ⟨ci, hgi, hwi⟩ := futex_first_waiter_some futex bitset l i s hf
      have hw : ctx_futex_wake_list futex bitset (n + 1) l =
          ((ctx_futex_wake_list futex bitset n
            (ctx_update (fun c => ctx_clear_status c (ctx_suspended.or ctx_futex)) l i)).1 + 1,
           (ctx_futex_wake_list futex bitset n
            (ctx_update (fun c => ctx_clear_status c (ctx_suspended.or ctx_futex)) l i)).2) := by
        simp only [ctx_futex_wake_list, hf]
      rw [hw]
      obtain ⟨h1, h2, h3, h4⟩ :=
        ih (ctx_update (fun c => ctx_clear_status c (ctx_suspended.or ctx_futex)) l i)
      have hcw := countP_ctx_update (futex_waiter futex bitset)
        (fun c => ctx_clear_status c (ctx_suspended.or ctx_futex)) l i ci hgi hwi
        (futex_waiter_clear futex bitset ci)
      have hcs := countP_ctx_update suspended_for_futex
        (fun c => ctx_clear_status c (ctx_suspended.or ctx_futex)) l i ci hgi
        (futex_waiter_suspended futex bitset ci hwi).1 (suspended_for_futex_clear ci)
      refine ⟨by rw [h1, ctx_update_length], fun j c x hc hx => ?_, ?_, ?_⟩
      · have hupd := ctx_update_get (fun c => ctx_clear_status c (ctx_suspended.or ctx_futex)) l i j
        by_cases hji : j = i
        · subst hji
          rw [if_pos rfl, hc] at hupd
          rcases h2 j _ x hupd hx with e | ⟨e, -⟩
          · right
            have hcc : c = ci := by
              have : some c = some ci := hc.symm.trans hgi
              exact Option.some.inj this
            exact ⟨hcc ▸ hwi, e⟩
          · rw [futex_waiter_clear] at e
            cases e
        · rw [if_neg hji, hc] at hupd
          exact h2 j c x hupd hx
      · dsimp only
        rw [h3]
        omega
      · dsimp only
        omega

/-! ## rt_sigsuspend -/

/-- C11: `rt_sigsuspend(pnewset)` stores the blocked mask `B` it finds into
`backup`, replaces the blocked mask by the 64-bit set `S` read at `pnewset`,
sets the suspended and sigsuspend status bits of the caller, and then runs the
event tick on the state `k1` it built; the handler itself changes neither the
pending mask nor the memory nor any other context. -/
theorem rt_sigsuspend_contract (env : Env) (k : Kernel) (pnewset B S : Nat)
    (hebx : k.isa_ctx.regs.ebx = pnewset) (hB : k.isa_ctx.signal_masks.blocked = B)
    (hS : mem_read64 k.isa_mem pnewset = S) :
    ∃ k1, sys_rt_sigsuspend env k =
        .ok (0, env.ke_process_events (env.ke_process_events_schedule k1)) ∧
      k1.isa_ctx.signal_masks.backup = B ∧
      k1.isa_ctx.signal_masks.blocked = S ∧
      k1.isa_ctx.status = k.isa_ctx.status.or (ctx_suspended.or ctx_sigsuspend) ∧
      k1.isa_ctx.status.suspended = true ∧ k1.isa_ctx.status.sigsuspend = true ∧
      k1.isa_ctx.signal_masks.pending = k.isa_ctx.signal_masks.pending ∧
      k1.isa_mem = k.isa_mem ∧ k1.ctx_list = k.ctx_list := by
  refine ⟨sys_rt_sigsuspend_update k, rfl, ?_, ?_, ?_, ?_, ?_, ?_, ?_, ?_⟩
  · simp only [sys_rt_sigsuspend_update, Kernel.set_ctx, ctx_set_status, hB]
  · simp only [sys_rt_sigsuspend_update, Kernel.set_ctx, ctx_set_status, hebx, hS]
  · simp only [sys_rt_sigsuspend_update, Kernel.set_ctx, ctx_set_status]
  · simp [sys_rt_sigsuspend_update, Kernel.set_ctx, ctx_set_status, Status.or, ctx_suspended]
  · simp [sys_rt_sigsuspend_update, Kernel.set_ctx, ctx_set_status, Status.or, ctx_sigsuspend]
  · simp only [sys_rt_sigsuspend_update, Kernel.set_ctx, ctx_set_status]
  · simp only [sys_rt_sigsuspend_update, Kernel.set_ctx]
  · simp only [sys_rt_sigsuspend_update, Kernel.set_ctx]

/-- Witness for C11: blocked mask 1, pending mask 4, the set 2 at 0x1000. -/
theorem rt_sigsuspend_contract_witness :
    ∃ k1, sys_rt_sigsuspend env_demo sigsuspend_demo = .ok (0, k1) ∧
      k1.isa_ctx.signal_masks.backup = 1 ∧ k1.isa_ctx.signal_masks.blocked = 2 ∧
      k1.isa_ctx.signal_masks.pending = 4 ∧ k1.isa_ctx.status.sigsuspend = true := by
  obtain ⟨k1, hr, hb, hs, -, -, hss, hp, -, -⟩ :=
    rt_sigsuspend_contract env_demo sigsuspend_demo 4096 1 2 rfl rfl (by decide)
  exact ⟨k1, hr, hb, hs, hp, hss⟩

/-! ## futex -/

/-- C12: futex WAIT (cmd 0) and WAIT_BITSET (cmd 9) with a null timeout, where
`cmd` is `op` with the bits 128 and 256 cleared.  If the 32-bit word at
`addr1` differs from `val1` the call returns -11 (EAGAIN) and changes nothing
(no suspension, `futex_sleep_count` not advanced).  Otherwise the caller gets
the suspended and futex status bits, `wakeup_futex = addr1`,
`wakeup_futex_bitset` is `val3` for WAIT_BITSET and 0xffffffff for WAIT,
`futex_sleep_count` is incremented and `wakeup_futex_sleep` is its new value;
a WAIT made in any later state, whose counter is at least this new value, gets
a strictly larger serial. -/
theorem futex_wait_contract (k : Kernel) (addr1 op val1 val3 cmd : Nat)
    (hebx : k.isa_ctx.regs.ebx = addr1) (hecx : k.isa_ctx.regs.ecx = op)
    (hedx : k.isa_ctx.regs.edx = val1) (hebp : k.isa_ctx.regs.ebp = val3)
    (hesi : k.isa_ctx.regs.esi = 0)
    (hcmd : cmd = op &&& (0xffffffff - (256 ||| 128))) (hwait : cmd = 0 ∨ cmd = 9) :
    (mem_read32 k.isa_mem addr1 ≠ val1 → sys_futex k = .ok (-11, k)) ∧
    (mem_read32 k.isa_mem addr1 = val1 →
      ∃ k1, sys_futex k = .ok (0, k1) ∧
        k1.isa_ctx.status = k.isa_ctx.status.or (ctx_suspended.or ctx_futex) ∧
        k1.isa_ctx.status.suspended = true ∧ k1.isa_ctx.status.futex = true ∧
        k1.isa_ctx.wakeup_futex = addr1 ∧
        k1.isa_ctx.wakeup_futex_bitset = (if cmd = 9 then val3 else 0xffffffff) ∧
        k1.futex_sleep_count = k.futex_sleep_count + 1 ∧
        k1.isa_ctx.wakeup_futex_sleep = k1.futex_sleep_count ∧
        k1.ctx_list = k.ctx_list ∧ k1.isa_mem = k.isa_mem ∧
        ∀ k2 : Kernel, k1.futex_sleep_count ≤ k2.futex_sleep_count →
          (k2.isa_ctx.regs.ecx &&& (0xffffffff - (256 ||| 128)) = 0 ∨
            k2.isa_ctx.regs.ecx &&& (0xffffffff - (256 ||| 128)) = 9) →
          k2.isa_ctx.regs.esi = 0 →
          mem_read32 k2.isa_mem k2.isa_ctx.regs.ebx = k2.isa_ctx.regs.edx →
          ∃ k3, sys_futex k2 = .ok (0, k3) ∧
            k1.isa_ctx.wakeup_futex_sleep < k3.isa_ctx.wakeup_futex_sleep) := by
  subst hebx hecx hedx hebp hcmd
  have hwaitk : ∀ q : Kernel,
      (q.isa_ctx.regs.ecx &&& (0xffffffff - (256 ||| 128)) = 0 ∨
        q.isa_ctx.regs.ecx &&& (0xffffffff - (256 ||| 128)) = 9) →
      q.isa_ctx.regs.esi = 0 →
      mem_read32 q.isa_mem q.isa_ctx.regs.ebx = q.isa_ctx.regs.edx →
      sys_futex q = .ok (0, { q with
        futex_sleep_count := q.futex_sleep_count + 1
        isa_ctx := ctx_set_status
          { q.isa_ctx with
            wakeup_futex := q.isa_ctx.regs.ebx
            wakeup_futex_bitset :=
              (if q.isa_ctx.regs.ecx &&& (0xffffffff - (256 ||| 128)) = 9
                then q.isa_ctx.regs.ebp else 0xffffffff)
            wakeup_futex_sleep := q.futex_sleep_count + 1 }
          (ctx_suspended.or ctx_futex) }) := by
    intro q hw ht hword
    unfold sys_futex
    simp only [if_pos hw, hword, ne_eq, not_true_eq_false, if_false, ht]
  refine ⟨fun hne => ?_, fun heq => ?_⟩
  · unfold sys_futex
    simp only [if_pos hwait, ne_eq, hne, not_false_eq_true, if_true]
  · refine ⟨_, hwaitk k hwait hesi heq, rfl, ?_, ?_, rfl, rfl, rfl, rfl, rfl, rfl, ?_⟩
    · simp [ctx_set_status, Status.or, ctx_suspended]
    · simp [ctx_set_status, Status.or, ctx_futex]
    · intro k2 hle hw ht hword
      refine ⟨_, hwaitk k2 hw ht hword, ?_⟩
      show k.futex_sleep_count + 1 < k2.futex_sleep_count + 1
      have : k.futex_sleep_count + 1 ≤ k2.futex_sleep_count := hle
      omega

/-- Witness for C12: `futex(0x1000, FUTEX_WAIT_BITSET | FUTEX_PRIVATE_FLAG, 5,
NULL, 0, 3)` with the word 5 at 0x1000 and counter 7: the caller waits with
bitset 3 and serial 8. -/
theorem futex_wait_contract_witness :
    ∃ k1, sys_futex futex_wait_demo = .ok (0, k1) ∧ k1.isa_ctx.status.futex = true ∧
      k1.isa_ctx.wakeup_futex = 4096 ∧ k1.isa_ctx.wakeup_futex_bitset = 3 ∧
      k1.futex_sleep_count = 8 ∧ k1.isa_ctx.wakeup_futex_sleep = 8 := by
  obtain ⟨k1, hr, -, -, hf, ha, hb, hc, hs, -, -, -⟩ :=
    (futex_wait_contract futex_wait_demo 4096 137 5 3 9 rfl rfl rfl rfl rfl (by decide)
      (Or.inr rfl)).2 (by decide)
  exact ⟨k1, hr, hf, ha, hb, hc, hs.trans hc⟩

/-! ## futex CMP_REQUEUE -/

theorem ctx_get_status_futex (c : Ctx) : ctx_get_status c ctx_futex = c.status.futex := by
  simp [ctx_get_status, Status.meets, ctx_futex]

theorem set_contexts_contexts (k : Kernel) (l : List Ctx) (h : l ≠ []) :
    (k.set_contexts l).contexts = l := by
  cases l with
  | nil => exact absurd rfl h
  | cons c cs => rfl

theorem set_contexts_mem (k : Kernel) (l : List Ctx) :
    (k.set_contexts l).isa_mem = k.isa_mem ∧
      (k.set_contexts l).futex_sleep_count = k.futex_sleep_count ∧
      (k.set_contexts l).host_calls = k.host_calls := by
  cases l <;> exact ⟨rfl, rfl, rfl⟩

theorem contexts_ne_nil (k : Kernel) : k.contexts ≠ [] := by
  simp [Kernel.contexts]

theorem ne_nil_of_length_eq {l w : List Ctx} (h : w.length = l.length) (hl : l ≠ []) :
    w ≠ [] := by
  intro e
  rw [e] at h
  exact hl (List.length_eq_zero.1 h.symm)

/-- The contexts after `ctx_futex_wake`, and what the lemma on lists says of them. -/
theorem ctx_futex_wake_spec (k : Kernel) (futex count bitset : Nat) :
    ∃ n : Nat, (ctx_futex_wake k futex count bitset).1 = (n : Int) ∧
      n = min count (k.contexts.countP (futex_waiter futex bitset)) ∧
      (ctx_futex_wake k futex count bitset).2.contexts.countP suspended_for_futex + n =
        k.contexts.countP suspended_for_futex ∧
      (ctx_futex_wake k futex count bitset).2.contexts.length = k.contexts.length ∧
      (∀ j c x, k.contexts.get? j = some c →
        (ctx_futex_wake k futex count bitset).2.contexts.get? j = some x →
        x = c ∨ (futex_waiter futex bitset c = true ∧
          x = ctx_clear_status c (ctx_suspended.or ctx_futex))) ∧
      (ctx_futex_wake k futex count bitset).2.isa_mem = k.isa_mem ∧
      (ctx_futex_wake k futex count bitset).2.futex_sleep_count = k.futex_sleep_count ∧
      (ctx_futex_wake k futex count bitset).2.host_calls = k.host_calls := by
  obtain ⟨h1, h2, h3, h4⟩ := ctx_futex_wake_list_spec futex bitset count k.contexts
  have hne := ne_nil_of_length_eq h1 (contexts_ne_nil k)
  have hc : (ctx_futex_wake k futex count bitset).2.contexts =
      (ctx_futex_wake_list futex bitset count k.contexts).2 :=
    set_contexts_contexts k _ hne
  refine ⟨(ctx_futex_wake_list futex bitset count k.contexts).1, rfl, h3, ?_, ?_, ?_,
    (set_contexts_mem k _).1, (set_contexts_mem k _).2.1, (set_contexts_mem k _).2.2⟩
  · rw [hc]; exact h4
  · rw [hc]; exact h1
  · rw [hc]; exact h2

theorem futex_requeue_status (addr1 addr2 : Nat) (c : Ctx) :
    (futex_requeue addr1 addr2 c).status = c.status := by
  unfold futex_requeue
  split <;> rfl

theorem suspended_for_futex_requeue (addr1 addr2 : Nat) :
    suspended_for_futex ∘ futex_requeue addr1 addr2 = suspended_for_futex := by
  funext c
  simp [suspended_for_futex, futex_requeue_status]

/-- C13: futex CMP_REQUEUE.  For a `ptimeout` other than 0x7fffffff the call is
fatal.  Otherwise, if the word at `addr1` differs from `val3` the call returns
-11 and changes nothing.  Otherwise it returns the number `n` of contexts woken
on `addr1`: `n` is at most `val1`, it is the smaller of `val1` and the number of
waiters on `addr1`, and exactly `n` contexts stop being suspended for futex
(requeued ones stay suspended and are not counted); each context is left as it
was, woken, or moved to `addr2`; every context that is still suspended for
futex and was waiting on `addr1` waits on `addr2`, so that when
`addr1 != addr2` no suspended context waits on `addr1`. -/
theorem futex_cmp_requeue_contract (k : Kernel) (addr1 op val1 ptimeout addr2 val3 : Nat)
    (hebx : k.isa_ctx.regs.ebx = addr1) (hecx : k.isa_ctx.regs.ecx = op)
    (hedx : k.isa_ctx.regs.edx = val1) (hesi : k.isa_ctx.regs.esi = ptimeout)
    (hedi : k.isa_ctx.regs.edi = addr2) (hebp : k.isa_ctx.regs.ebp = val3)
    (hcmd : op &&& (0xffffffff - (256 ||| 128)) = 4) :
    (ptimeout ≠ 0x7fffffff → sys_futex k = .error (.fatal .futex_cmp_requeue_timeout)) ∧
    (ptimeout = 0x7fffffff →
      (mem_read32 k.isa_mem addr1 ≠ val3 → sys_futex k = .ok (-11, k)) ∧
      (mem_read32 k.isa_mem addr1 = val3 →
        ∃ (n : Nat) (k1 : Kernel), sys_futex k = .ok ((n : Int), k1) ∧
          n ≤ val1 ∧
          n = min val1 (k.contexts.countP (futex_waiter addr1 0xffffffff)) ∧
          k1.contexts.countP suspended_for_futex + n =
            k.contexts.countP suspended_for_futex ∧
          k1.contexts.length = k.contexts.length ∧
          (∀ j c0 c, k.contexts.get? j = some c0 → k1.contexts.get? j = some c →
            (c = c0 ∨ c = ctx_clear_status c0 (ctx_suspended.or ctx_futex) ∨
              c = { c0 with wakeup_futex := addr2 }) ∧
            (suspended_for_futex c = true → c0.wakeup_futex = addr1 →
              c.wakeup_futex = addr2)) ∧
          (addr1 ≠ addr2 → ∀ c ∈ k1.contexts, suspended_for_futex c = true →
            c.wakeup_futex ≠ addr1) ∧
          k1.isa_mem = k.isa_mem ∧ k1.futex_sleep_count = k.futex_sleep_count)) := by
  subst hebx hecx hedx hesi hedi hebp
  have hn0 : ¬ (k.isa_ctx.regs.ecx &&& (0xffffffff - (256 ||| 128)) = 0 ∨
      k.isa_ctx.regs.ecx &&& (0xffffffff - (256 ||| 128)) = 9) := by
    rw [hcmd]; decide
  have hn1 : ¬ (k.isa_ctx.regs.ecx &&& (0xffffffff - (256 ||| 128)) = 1 ∨
      k.isa_ctx.regs.ecx &&& (0xffffffff - (256 ||| 128)) = 10) := by
    rw [hcmd]; decide
  refine ⟨fun hbad => ?_, fun hgood => ⟨fun hne => ?_, fun heq => ?_⟩⟩
  · unfold sys_futex
    simp only [if_neg hn0, if_neg hn1, if_pos hcmd, ne_eq, hbad, not_false_eq_true, if_true]
  · unfold sys_futex
    simp only [if_neg hn0, if_neg hn1, if_pos hcmd, ne_eq, hgood, not_true_eq_false, if_false,
      hne, not_false_eq_true, if_true]
  · obtain ⟨n, hn, hmin, hcount, hlen, hpos, hmem, hfsc, -⟩ :=
      ctx_futex_wake_spec k k.isa_ctx.regs.ebx k.isa_ctx.regs.edx 0xffffffff
    have hne : (List.map (futex_requeue k.isa_ctx.regs.ebx k.isa_ctx.regs.edi)
        (ctx_futex_wake k k.isa_ctx.regs.ebx k.isa_ctx.regs.edx 0xffffffff).2.contexts) ≠ [] :=
      ne_nil_of_length_eq ((List.length_map _ _).trans hlen) (contexts_ne_nil k)
    have hc := set_contexts_contexts
      (ctx_futex_wake k k.isa_ctx.regs.ebx k.isa_ctx.regs.edx 0xffffffff).2 _ hne
    refine ⟨n, (ctx_futex_wake k k.isa_ctx.regs.ebx k.isa_ctx.regs.edx 0xffffffff).2.set_contexts
      (List.map (futex_requeue k.isa_ctx.regs.ebx k.isa_ctx.regs.edi)
        (ctx_futex_wake k k.isa_ctx.regs.ebx k.isa_ctx.regs.edx 0xffffffff).2.contexts),
      ?_, ?_, hmin, ?_, ?_, ?_, ?_, ?_, ?_⟩
    · unfold sys_futex
      simp only [if_neg hn0, if_neg hn1, if_pos hcmd, ne_eq, hgood, not_true_eq_false, if_false,
        heq, hn]
    · rw [hmin]; exact Nat.min_le_left _ _
    · rw [hc, List.countP_map, suspended_for_futex_requeue]
      exact hcount
    · rw [hc, List.length_map]
      exact hlen
    · intro j c0 c h0 h1
      rw [hc, List.get?_eq_getElem?, List.getElem?_map, ← List.get?_eq_getElem?] at h1
      cases hx : (ctx_futex_wake k k.isa_ctx.regs.ebx k.isa_ctx.regs.edx
          0xffffffff).2.contexts.get? j with
      | none => rw [hx] at h1; cases h1
      | some x =>
        rw [hx] at h1
        have hcx : c = futex_requeue k.isa_ctx.regs.ebx k.isa_ctx.regs.edi x :=
          (Option.some.inj h1).symm
        rcases hpos j c0 x h0 hx with e | ⟨-, e⟩
        · subst e
          by_cases hcond : x.status.suspended = true ∧ ctx_get_status x ctx_futex = true ∧
              x.wakeup_futex = k.isa_ctx.regs.ebx
          · have hreq : c = { x with wakeup_futex := k.isa_ctx.regs.edi } := by
              rw [hcx]; unfold futex_requeue; rw [if_pos hcond]
            exact ⟨Or.inr (Or.inr hreq), fun _ _ => by rw [hreq]⟩
          · have hreq : c = x := by
              rw [hcx]; unfold futex_requeue; rw [if_neg hcond]
            refine ⟨Or.inl hreq, fun hs ha => ?_⟩
            exfalso
            apply hcond
            rw [hreq] at hs
            simp only [suspended_for_futex, Bool.and_eq_true] at hs
            exact ⟨hs.1, by rw [ctx_get_status_futex]; exact hs.2, ha⟩
        · have hreq : c = ctx_clear_status c0 (ctx_suspended.or ctx_futex) := by
            rw [hcx, e]
            unfold futex_requeue
            rw [if_neg]
            rintro ⟨hs, -, -⟩
            simp [ctx_clear_status, Status.diff, Status.or, ctx_suspended] at hs
          refine ⟨Or.inr (Or.inl hreq), fun hs _ => ?_⟩
          rw [hreq, suspended_for_futex_clear] at hs
          cases hs
    · intro hdiff c hcmem hs
      rw [hc, List.mem_map] at hcmem
      obtain ⟨x, -, hx⟩ := hcmem
      by_cases hcond : x.status.suspended = true ∧ ctx_get_status x ctx_futex = true ∧
          x.wakeup_futex = k.isa_ctx.regs.ebx
      · have hreq : c = { x with wakeup_futex := k.isa_ctx.regs.edi } := by
          rw [← hx]; unfold futex_requeue; rw [if_pos hcond]
        rw [hreq]
        exact fun e => hdiff e.symm
      · have hreq : c = x := by
          rw [← hx]; unfold futex_requeue; rw [if_neg hcond]
        rw [hreq] at hs ⊢
        intro ha
        apply hcond
        simp only [suspended_for_futex, Bool.and_eq_true] at hs
        exact ⟨hs.1, by rw [ctx_get_status_futex]; exact hs.2, ha⟩
    · rw [(set_contexts_mem _ _).1]; exact hmem
    · rw [(set_contexts_mem _ _).2.1]; exact hfsc

/-- Witness for C13: three contexts wait on 0x1000 with serials 3, 1, 2;
`futex(0x1000, FUTEX_CMP_REQUEUE, 1, INT_MAX, 0x2000, 5)` wakes one context
(the one with serial 1) and moves the other two to 0x2000. -/
theorem futex_cmp_requeue_contract_witness :
    ∃ k1, sys_futex futex_requeue_demo = .ok (1, k1) ∧
      k1.contexts.countP suspended_for_futex = 2 ∧
      ∀ c ∈ k1.contexts, suspended_for_futex c = true → c.wakeup_futex ≠ 4096 := by
  obtain ⟨n, k1, hr, -, hmin, hcount, -, -, hmoved, -, -⟩ :=
    ((futex_cmp_requeue_contract futex_requeue_demo 4096 4 1 2147483647 8192 5 rfl rfl rfl rfl
      rfl rfl (by decide)).2 rfl).2 (by decide)
  have hn : n = 1 := hmin.trans (by decide)
  subst hn
  refine ⟨k1, hr, ?_, hmoved (by decide)⟩
  have h3 : futex_requeue_demo.contexts.countP suspended_for_futex = 3 := by decide
  omega

/-! ## futex WAKE_OP -/

theorem mem_read32_lt (m : Mem) (a : Nat) : mem_read32 m a < 4294967296 := by
  have h := le_decode_lt (mem_read m a 4)
  have hl : (mem_read m a 4).length = 4 := by simp [mem_read]
  rw [hl] at h
  exact h

theorem toInt32_toU32 (i : Int) (h0 : 0 ≤ i) (h1 : i < 2147483648) : toInt32 (toU32 i) = i := by
  unfold toU32 toInt32
  split <;> omega

theorem countP_le_length_ctx (p : Ctx → Bool) (l : List Ctx) : l.countP p ≤ l.length :=
  List.countP_le_length p

theorem futex_op_apply_some (op oldval oparg : Nat) (h : op ≤ 4) :
    futex_op_apply op oldval oparg =
      some (if op = 0 then oparg else if op = 1 then (oldval + oparg) % 4294967296
        else if op = 2 then oldval ||| oparg else if op = 3 then oldval &&& oparg
        else oldval ^^^ oparg) := by
  unfold futex_op_apply
  split_ifs <;> first | rfl | omega

theorem futex_op_value_lt (op oldval oparg : Nat) (ho : oldval < 4294967296)
    (ha : oparg < 4294967296) :
    (if op = 0 then oparg else if op = 1 then (oldval + oparg) % 4294967296
        else if op = 2 then oldval ||| oparg else if op = 3 then oldval &&& oparg
        else oldval ^^^ oparg) < 4294967296 := by
  have e : (4294967296 : Nat) = 2 ^ 32 := by norm_num
  split_ifs
  · exact ha
  · omega
  · rw [e] at ho ha ⊢; exact Nat.or_lt_two_pow ho ha
  · rw [e] at ha ⊢; exact Nat.and_lt_two_pow _ ha
  · rw [e] at ho ha ⊢; exact Nat.xor_lt_two_pow ho ha

theorem futex_cmp_apply_some (cmp : Nat) (oldval cmparg : Int) (h : cmp ≤ 5) :
    ∃ b, futex_cmp_apply cmp oldval cmparg = some b ∧
      (b = true ↔ (cmp = 0 ∧ oldval = cmparg) ∨ (cmp = 1 ∧ oldval ≠ cmparg) ∨
        (cmp = 2 ∧ oldval < cmparg) ∨ (cmp = 3 ∧ oldval ≤ cmparg) ∨
        (cmp = 4 ∧ oldval > cmparg) ∨ (cmp = 5 ∧ oldval ≥ cmparg)) := by
  unfold futex_cmp_apply
  split_ifs with h0 h1 h2 h3 h4 h5
  · exact ⟨_, rfl, by subst h0; simp⟩
  · exact ⟨_, rfl, by subst h1; simp⟩
  · exact ⟨_, rfl, by subst h2; simp⟩
  · exact ⟨_, rfl, by subst h3; simp⟩
  · exact ⟨_, rfl, by subst h4; simp⟩
  · exact ⟨_, rfl, by subst h5; simp⟩
  · omega

/-- C14: futex WAKE_OP with `val3` decoded as op = bits 28..31, cmp = bits
24..27, oparg = bits 12..23, cmparg = bits 0..11, for op in 0..4 and cmp in
0..5.  The word at `addr2` is replaced by oparg, old+oparg (32-bit sum),
old|oparg, old&oparg or old^oparg for op = SET, ADD, OR, AND, XOR; then up to
`val1` waiters on `addr1` are woken (`n1` of them); then up to `val2`, the
value of `ptimeout`, waiters on `addr2` are woken (`n2` of them) exactly when
the old value, as a signed integer, compares with cmparg as cmp = EQ, NE, LT,
LE, GT, GE asks; the return value is `n1 + n2`, or `n1` when the second wake
is not performed.  The sum is a C `int`; fewer than 2^30 contexts keep it in
range. -/
theorem futex_wake_op_contract (k : Kernel)
    (addr1 opw val1 ptimeout addr2 val3 op cmp oparg cmparg old : Nat)
    (hebx : k.isa_ctx.regs.ebx = addr1) (hecx : k.isa_ctx.regs.ecx = opw)
    (hedx : k.isa_ctx.regs.edx = val1) (hesi : k.isa_ctx.regs.esi = ptimeout)
    (hedi : k.isa_ctx.regs.edi = addr2) (hebp : k.isa_ctx.regs.ebp = val3)
    (hcmd : opw &&& (0xffffffff - (256 ||| 128)) = 5)
    (hop : op = (val3 >>> 28) &&& 0xf) (hcmp : cmp = (val3 >>> 24) &&& 0xf)
    (hoparg : oparg = (val3 >>> 12) &&& 0xfff) (hcmparg : cmparg = val3 &&& 0xfff)
    (hopr : op ≤ 4) (hcmpr : cmp ≤ 5) (hold : mem_read32 k.isa_mem addr2 = old)
    (hlen : k.contexts.length < 1073741824) :
    ∃ (newval n1 : Nat) (kw : Kernel),
      newval = (if op = 0 then oparg else if op = 1 then (old + oparg) % 4294967296
        else if op = 2 then old ||| oparg else if op = 3 then old &&& oparg
        else old ^^^ oparg) ∧
      ctx_futex_wake (k.set_mem (mem_write32 k.isa_mem addr2 newval)) addr1 val1 0xffffffff =
        ((n1 : Int), kw) ∧
      n1 ≤ val1 ∧
      kw.isa_mem = mem_write32 k.isa_mem addr2 newval ∧
      mem_read32 kw.isa_mem addr2 = newval ∧
      (((cmp = 0 ∧ toInt32 old = (cmparg : Int)) ∨ (cmp = 1 ∧ toInt32 old ≠ (cmparg : Int)) ∨
          (cmp = 2 ∧ toInt32 old < (cmparg : Int)) ∨ (cmp = 3 ∧ toInt32 old ≤ (cmparg : Int)) ∨
          (cmp = 4 ∧ toInt32 old > (cmparg : Int)) ∨ (cmp = 5 ∧ toInt32 old ≥ (cmparg : Int))) →
        ∃ (n2 : Nat) (kf : Kernel),
          ctx_futex_wake kw addr2 (ptimeout % 4294967296) 0xffffffff = ((n2 : Int), kf) ∧
          n2 ≤ ptimeout ∧ kf.isa_mem = kw.isa_mem ∧
          sys_futex k = .ok ((n1 : Int) + (n2 : Int), kf)) ∧
      (¬ ((cmp = 0 ∧ toInt32 old = (cmparg : Int)) ∨ (cmp = 1 ∧ toInt32 old ≠ (cmparg : Int)) ∨
          (cmp = 2 ∧ toInt32 old < (cmparg : Int)) ∨ (cmp = 3 ∧ toInt32 old ≤ (cmparg : Int)) ∨
          (cmp = 4 ∧ toInt32 old > (cmparg : Int)) ∨ (cmp = 5 ∧ toInt32 old ≥ (cmparg : Int))) →
        sys_futex k = .ok ((n1 : Int), kw)) := by
  subst hebx hecx hedx hesi hedi hebp hold hop hcmp hoparg hcmparg
  have hn0 : ¬ (k.isa_ctx.regs.ecx &&& (0xffffffff - (256 ||| 128)) = 0 ∨
      k.isa_ctx.regs.ecx &&& (0xffffffff - (256 ||| 128)) = 9) := by
    rw [hcmd]; decide
  have hn1 : ¬ (k.isa_ctx.regs.ecx &&& (0xffffffff - (256 ||| 128)) = 1 ∨
      k.isa_ctx.regs.ecx &&& (0xffffffff - (256 ||| 128)) = 10) := by
    rw [hcmd]; decide
  have hn4 : ¬ (k.isa_ctx.regs.ecx &&& (0xffffffff - (256 ||| 128)) = 4) := by
    rw [hcmd]; decide
  have hoparg_lt : (k.isa_ctx.regs.ebp >>> 12) &&& 0xfff < 4294967296 :=
    Nat.lt_of_le_of_lt Nat.and_le_right (by decide)
  have hnew := futex_op_value_lt ((k.isa_ctx.regs.ebp >>> 28) &&& 0xf)
    (mem_read32 k.isa_mem k.isa_ctx.regs.edi) ((k.isa_ctx.regs.ebp >>> 12) &&& 0xfff)
    (mem_read32_lt _ _) hoparg_lt
  have hap := futex_op_apply_some ((k.isa_ctx.regs.ebp >>> 28) &&& 0xf)
    (mem_read32 k.isa_mem k.isa_ctx.regs.edi) ((k.isa_ctx.regs.ebp >>> 12) &&& 0xfff) hopr
  obtain ⟨b, hb, hbiff⟩ := futex_cmp_apply_some ((k.isa_ctx.regs.ebp >>> 24) &&& 0xf)
    (toInt32 (mem_read32 k.isa_mem k.isa_ctx.regs.edi))
    ((k.isa_ctx.regs.ebp &&& 0xfff : Nat) : Int) hcmpr
  generalize hnv : (if (k.isa_ctx.regs.ebp >>> 28) &&& 0xf = 0
      then (k.isa_ctx.regs.ebp >>> 12) &&& 0xfff
      else if (k.isa_ctx.regs.ebp >>> 28) &&& 0xf = 1
      then (mem_read32 k.isa_mem k.isa_ctx.regs.edi + ((k.isa_ctx.regs.ebp >>> 12) &&& 0xfff)) %
        4294967296
      else if (k.isa_ctx.regs.ebp >>> 28) &&& 0xf = 2
      then mem_read32 k.isa_mem k.isa_ctx.regs.edi ||| ((k.isa_ctx.regs.ebp >>> 12) &&& 0xfff)
      else if (k.isa_ctx.regs.ebp >>> 28) &&& 0xf = 3
      then mem_read32 k.isa_mem k.isa_ctx.regs.edi &&& ((k.isa_ctx.regs.ebp >>> 12) &&& 0xfff)
      else mem_read32 k.isa_mem k.isa_ctx.regs.edi ^^^ ((k.isa_ctx.regs.ebp >>> 12) &&& 0xfff)) =
    newval at hnew hap ⊢
  obtain ⟨n1, hn1v, hmin1, -, hlen1, -, hmem1, -, -⟩ :=
    ctx_futex_wake_spec (k.set_mem (mem_write32 k.isa_mem k.isa_ctx.regs.edi newval))
      k.isa_ctx.regs.ebx k.isa_ctx.regs.edx 0xffffffff
  obtain ⟨n2, hn2v, hmin2, -, -, -, hmem2, -, -⟩ :=
    ctx_futex_wake_spec (ctx_futex_wake (k.set_mem (mem_write32 k.isa_mem k.isa_ctx.regs.edi
      newval)) k.isa_ctx.regs.ebx k.isa_ctx.regs.edx 0xffffffff).2
      k.isa_ctx.regs.edi (k.isa_ctx.regs.esi % 4294967296) 0xffffffff
  have hk1 : (k.set_mem (mem_write32 k.isa_mem k.isa_ctx.regs.edi newval)).contexts =
      k.contexts := rfl
  have hb1 : n1 ≤ k.contexts.length := by
    rw [hmin1, hk1]
    exact Nat.le_trans (Nat.min_le_right _ _) (countP_le_length_ctx _ _)
  have hb2 : n2 ≤ k.contexts.length := by
    rw [hmin2, ← hk1, ← hlen1]
    exact Nat.le_trans (Nat.min_le_right _ _) (countP_le_length_ctx _ _)
  have hsys : sys_futex k =
      if b = true then
        .ok (toInt32 (toU32 ((ctx_futex_wake (k.set_mem (mem_write32 k.isa_mem k.isa_ctx.regs.edi newval))
              k.isa_ctx.regs.ebx k.isa_ctx.regs.edx 0xffffffff).1 +
            (ctx_futex_wake (ctx_futex_wake (k.set_mem (mem_write32 k.isa_mem k.isa_ctx.regs.edi
              newval)) k.isa_ctx.regs.ebx k.isa_ctx.regs.edx 0xffffffff).2
              k.isa_ctx.regs.edi (k.isa_ctx.regs.esi % 4294967296) 0xffffffff).1)),
          (ctx_futex_wake (ctx_futex_wake (k.set_mem (mem_write32 k.isa_mem k.isa_ctx.regs.edi
              newval)) k.isa_ctx.regs.ebx k.isa_ctx.regs.edx 0xffffffff).2
              k.isa_ctx.regs.edi (k.isa_ctx.regs.esi % 4294967296) 0xffffffff).2)
      else
        .ok (ctx_futex_wake (k.set_mem (mem_write32 k.isa_mem k.isa_ctx.regs.edi newval))
              k.isa_ctx.regs.ebx k.isa_ctx.regs.edx 0xffffffff) := by
    unfold sys_futex
    simp only [if_neg hn0, if_neg hn1, if_neg hn4, if_pos hcmd, hap, hb]
  refine ⟨newval, n1, _, rfl, Prod.ext hn1v rfl, ?_, hmem1, ?_, fun hcond => ?_, fun hncond => ?_⟩
  · rw [hmin1]; exact Nat.min_le_left _ _
  · rw [hmem1]
    show mem_read32 (mem_write32 k.isa_mem _ _) _ = _
    rw [mem_read32_write32]
    omega
  · refine ⟨n2, _, Prod.ext hn2v rfl, ?_, hmem2, ?_⟩
    · rw [hmin2]
      exact Nat.le_trans (Nat.min_le_left _ _) (Nat.mod_le _ _)
    · rw [hsys, if_pos (hbiff.2 hcond), hn1v, hn2v, toInt32_toU32 _ (by omega) (by omega)]
  · have hbf : ¬ b = true := fun hbt => hncond (hbiff.1 hbt)
    rw [hsys, if_neg hbf]
    exact congrArg Except.ok (Prod.ext hn1v rfl)

/-- Witness for C14: old = 5, op = ADD, oparg = 3, cmp = GT, cmparg = 4: the
word at 0x2000 becomes 8, one waiter on 0x1000 and, since 5 > 4, one waiter on
0x2000 are woken, and the call returns 2. -/
theorem futex_wake_op_contract_witness :
    ∃ kf, sys_futex futex_wake_op_demo = .ok (2, kf) ∧ mem_read32 kf.isa_mem 8192 = 8 ∧
      kf.contexts.countP suspended_for_futex = 0 := by
  obtain ⟨newval, n1, kw, hnew, hw1, -, -, hword, hsecond, -⟩ :=
    futex_wake_op_contract futex_wake_op_demo 4096 5 1 1 8192 335556612 1 4 3 4 5
      rfl rfl rfl rfl rfl rfl (by decide) (by decide) (by decide) (by decide) (by decide)
      (by decide) (by decide) (by decide) (by decide)
  have hnv : newval = 8 := hnew.trans (by decide)
  subst hnv
  have hw1v : ctx_futex_wake (futex_wake_op_demo.set_mem
      (mem_write32 futex_wake_op_demo.isa_mem 8192 8)) 4096 1 0xffffffff =
      (((1 : Nat) : Int), (ctx_futex_wake (futex_wake_op_demo.set_mem
      (mem_write32 futex_wake_op_demo.isa_mem 8192 8)) 4096 1 0xffffffff).2) := rfl
  rw [hw1v] at hw1
  have hn1 : n1 = 1 := by
    have := congrArg Prod.fst hw1
    exact (Int.ofNat.inj this).symm
  have hkw : kw = (ctx_futex_wake (futex_wake_op_demo.set_mem
      (mem_write32 futex_wake_op_demo.isa_mem 8192 8)) 4096 1 0xffffffff).2 :=
    (congrArg Prod.snd hw1).symm
  subst hn1
  obtain ⟨n2, kf, hw2, -, hm2, hr⟩ :=
    hsecond (Or.inr (Or.inr (Or.inr (Or.inr (Or.inl ⟨rfl, by decide⟩)))))
  rw [hkw] at hw2
  have hw2v : ctx_futex_wake (ctx_futex_wake (futex_wake_op_demo.set_mem
      (mem_write32 futex_wake_op_demo.isa_mem 8192 8)) 4096 1 0xffffffff).2 8192 (1 % 4294967296)
      0xffffffff = (((1 : Nat) : Int), (ctx_futex_wake (ctx_futex_wake (futex_wake_op_demo.set_mem
      (mem_write32 futex_wake_op_demo.isa_mem 8192 8)) 4096 1 0xffffffff).2 8192
      (1 % 4294967296) 0xffffffff).2) := rfl
  rw [hw2v] at hw2
  have hn2 : n2 = 1 := by
    have := congrArg Prod.fst hw2
    exact (Int.ofNat.inj this).symm
  have hkf : kf = (ctx_futex_wake (ctx_futex_wake (futex_wake_op_demo.set_mem
      (mem_write32 futex_wake_op_demo.isa_mem 8192 8)) 4096 1 0xffffffff).2 8192
      (1 % 4294967296) 0xffffffff).2 := (congrArg Prod.snd hw2).symm
  subst hn2
  refine ⟨kf, hr, ?_, ?_⟩
  · rw [hm2]; exact hword
  · rw [hkf]; decide

/-! ## clone -/

/-- C15: clone is fatal when one of CLONE_VM, CLONE_FS, CLONE_FILES,
CLONE_SIGHAND (mask 0xf00) is missing from the flags in EBX, and when the flags
have a bit outside the supported set 0x013d0fff.  For flags without
CLONE_SETTLS (0x80000) that pass both checks the call returns the pid of the
context made by `ctx_clone`, and that child joins the contexts with exit_signal
0 if CLONE_THREAD (0x10000) is set and `flags & 0xff` otherwise, with ESP equal
to `newsp` from ECX (the parent's ESP when ECX is 0) and with EAX equal to 0. -/
theorem clone_contract (env : Env) (k : Kernel) (flags : Nat)
    (hebx : k.isa_ctx.regs.ebx = flags) :
    ((flags &&& 0x00000f00 ≠ 0x00000f00 ∨ flags &&& (0xffffffff - 0x013d0fff) ≠ 0) →
      ∃ site, sys_clone env k = .error (.fatal site)) ∧
    (flags &&& 0x00000f00 = 0x00000f00 → flags &&& (0xffffffff - 0x013d0fff) = 0 →
      flags &&& 0x80000 = 0 →
      ∃ (child : Ctx) (m : Mem),
        sys_clone env k =
          .ok ((env.ctx_clone k).pid, { k with isa_mem := m, ctx_list := k.ctx_list ++ [child] }) ∧
        child.pid = (env.ctx_clone k).pid ∧
        child.exit_signal = (if flags &&& 0x10000 ≠ 0 then 0 else flags &&& 0xff) ∧
        child.regs.esp =
          (if k.isa_ctx.regs.ecx = 0 then k.isa_ctx.regs.esp else k.isa_ctx.regs.ecx) ∧
        child.initial_stack = child.regs.esp ∧
        child.regs.eax = 0) := by
  subst hebx
  refine ⟨fun h => ?_, fun hm hs ht => ?_⟩
  · by_cases hm : k.isa_ctx.regs.ebx &&& 0x00000f00 ≠ 0x00000f00
    · exact ⟨.clone_mandatory_flags, by unfold sys_clone; simp only [if_pos hm]⟩
    · have hs : k.isa_ctx.regs.ebx &&& (0xffffffff - 0x013d0fff) ≠ 0 := by
        rcases h with h | h
        · exact absurd h hm
        · exact h
      exact ⟨.clone_unsupported_flags, by unfold sys_clone; simp only [if_neg hm, if_pos hs]⟩
  · have hm1 : ¬ (k.isa_ctx.regs.ebx &&& 0x00000f00 ≠ 0x00000f00) := fun h => h hm
    have hs1 : ¬ (k.isa_ctx.regs.ebx &&& (0xffffffff - 0x013d0fff) ≠ 0) := fun h => h hs
    have ht1 : ¬ (k.isa_ctx.regs.ebx &&& 0x80000 ≠ 0) := fun h => h ht
    unfold sys_clone
    simp only [if_neg hm1, if_neg hs1, if_neg ht1]
    refine ⟨_, _, rfl, ?_, ?_, rfl, rfl, rfl⟩
    · split_ifs <;> rfl
    · split_ifs <;> rfl

/-- Witness for C15: the flags 0xf11 with ECX = 0 and the parent's ESP at 0x7000
give the child exit_signal 0x11, ESP 0x7000 and EAX 0, and the parent the
child's pid 101. -/
theorem clone_contract_witness :
    ∃ (child : Ctx) (m : Mem),
      sys_clone env_demo clone_demo =
        .ok (101, { clone_demo with isa_mem := m, ctx_list := clone_demo.ctx_list ++ [child] }) ∧
      child.pid = 101 ∧ child.exit_signal = 17 ∧ child.regs.esp = 28672 ∧
      child.initial_stack = child.regs.esp ∧ child.regs.eax = 0 :=
  (clone_contract env_demo clone_demo 0xf11 rfl).2 (by decide) (by decide) (by decide)

/-- C16: clone with CLONE_SETTLS (0x80000) among flags that pass the flag
checks, and a `user_desc` at the address `puinfo` in ESI: `base` is the 32-bit
word of guest memory at `puinfo + 4`, `limit` the word at `puinfo + 8`, and
`bits` the word at `puinfo + 12`, whose bit 0 is seg_32bit, here set, and whose
bit 4 is limit_in_pages.  The words are those of the memory `m1` that the
CLONE_PARENT_SETTID store leaves (the entry memory when that flag is clear),
which is the memory the handler reads the descriptor from.  The child's
glibc_segment_base is `base`, its glibc_segment_limit is `limit << 12` as a
32-bit value when limit_in_pages is set and `limit` otherwise, and the
entry_number word at `puinfo` reads 6 afterwards, whatever it was. -/
theorem clone_settls_contract (env : Env) (k : Kernel) (flags puinfo base limit bits : Nat)
    (m1 : Mem)
    (hebx : k.isa_ctx.regs.ebx = flags) (hesi : k.isa_ctx.regs.esi = puinfo)
    (hmand : flags &&& 0x00000f00 = 0x00000f00)
    (hsupp : flags &&& (0xffffffff - 0x013d0fff) = 0)
    (htls : flags &&& 0x80000 ≠ 0)
    (hm1 : m1 = if flags &&& 0x100000 ≠ 0
      then mem_write32 k.isa_mem k.isa_ctx.regs.edx (toU32 (env.ctx_clone k).pid)
      else k.isa_mem)
    (hbase : mem_read32 m1 (puinfo + 4) = base)
    (hlimit : mem_read32 m1 (puinfo + 8) = limit)
    (hbits : mem_read32 m1 (puinfo + 12) = bits)
    (h32 : bits &&& 1 ≠ 0) :
    ∃ (child : Ctx) (k1 : Kernel),
      sys_clone env k = .ok ((env.ctx_clone k).pid, k1) ∧
      k1.ctx_list = k.ctx_list ++ [child] ∧
      child.pid = (env.ctx_clone k).pid ∧
      child.glibc_segment_base = base ∧
      child.glibc_segment_limit =
        (if bits &&& 16 ≠ 0 then (limit <<< 12) % 4294967296 else limit) ∧
      k1.isa_mem = mem_write32 m1 puinfo 6 ∧
      mem_read32 k1.isa_mem puinfo = 6 := by
  subst hebx hesi hbase hlimit hbits
  have hm0 : ¬ (k.isa_ctx.regs.ebx &&& 0x00000f00 ≠ 0x00000f00) := fun h => h hmand
  have hs0 : ¬ (k.isa_ctx.regs.ebx &&& (0xffffffff - 0x013d0fff) ≠ 0) := fun h => h hsupp
  have h32f : ¬ ((read_user_desc m1 k.isa_ctx.regs.esi).seg_32bit = false) := by
    unfold read_user_desc
    simp only [decide_eq_false_iff_not, not_not]
    exact h32
  unfold sys_clone
  simp only [if_neg hm0, if_neg hs0, if_pos htls, ← hm1, if_neg h32f]
  refine ⟨_, _, rfl, rfl, ?_, rfl, ?_, rfl, ?_⟩
  · split_ifs <;> rfl
  · show (if (read_user_desc m1 k.isa_ctx.regs.esi).limit_in_pages = true then _ else _) = _
    unfold read_user_desc
    simp only [decide_eq_true_eq]
  · show mem_read32 (mem_write32 m1 k.isa_ctx.regs.esi 6) k.isa_ctx.regs.esi = 6
    rw [mem_read32_write32]

/-- Witness for C16: with the words 0xffffffff (entry_number -1), 0xdeadc000
(base_addr), 1 (limit) and 0x11 (seg_32bit and limit_in_pages) at 0x3000, the
child gets base 0xdeadc000 and limit 0x1000, and the word at 0x3000 reads 6
afterwards. -/
theorem clone_settls_contract_witness :
    mem_read32 clone_settls_demo.isa_mem 0x3000 = 0xffffffff ∧
    ∃ (child : Ctx) (k1 : Kernel),
      sys_clone env_demo clone_settls_demo = .ok (101, k1) ∧
      k1.ctx_list = clone_settls_demo.ctx_list ++ [child] ∧
      child.pid = 101 ∧
      child.glibc_segment_base = 0xdeadc000 ∧
      child.glibc_segment_limit = 0x1000 ∧
      k1.isa_mem = mem_write32 clone_settls_demo.isa_mem 0x3000 6 ∧
      mem_read32 k1.isa_mem 0x3000 = 6 :=
  ⟨by decide,
   clone_settls_contract env_demo clone_settls_demo 0x80f00 0x3000 0xdeadc000 1 0x11
    clone_settls_demo.isa_mem rfl rfl (by decide) (by decide) (by decide) rfl (by decide)
    (by decide) (by decide) (by decide)⟩

/-! ## disk_io -/

/-- C17: a request that fails the claimed validation and still reaches the disk.
With block 1, offset -4 and 4 bytes the only size test of the code,
`offset + numbytes > blocksize`, does not fire: the call seeks to byte 508 of
the disk file, inside block 0 owned by uid 2, writes 4 bytes there, marks block
1 as owned by the caller and returns 0.  With block -1 the only index test,
`blocknum >= numblocks`, does not fire either and `blockowners[-1]` is read
outside the array. -/
theorem disk_io_negative_offset_reaches_disk :
    toInt32 disk_io_negative_offset_demo.isa_ctx.regs.edi = -4 ∧
    (∃ k1, sys_disk_io env_demo disk_io_negative_offset_demo = .ok (0, k1) ∧
      k1.host_calls = [HostCall.disk_open, HostCall.disk_seek 508,
        HostCall.disk_write 4 [65, 65, 65, 65], HostCall.disk_close] ∧
      k1.blockowners = [2, 1, 0, 0, 0, 0, 0, 0]) ∧
    toInt32 disk_io_negative_block_demo.isa_ctx.regs.esi = -1 ∧
    sys_disk_io env_demo disk_io_negative_block_demo = .error .undefined :=
  ⟨by decide, ⟨_, rfl, rfl, rfl⟩, by decide, rfl⟩

theorem list_set_get_eq (l : List Int) (b : Nat) (v w : Int) (h : l.get? b = some w) :
    (l.set b v).get? b = some v := by
  induction l generalizing b with
  | nil => simp at h
  | cons x t ih =>
    cases b with
    | zero => rfl
    | succ n => exact ih n h

theorem list_set_get_ne (l : List Int) (b j : Nat) (v : Int) (h : j ≠ b) :
    (l.set b v).get? j = l.get? j := by
  induction l generalizing b j with
  | nil => rfl
  | cons x t ih =>
    cases b with
    | zero =>
      cases j with
      | zero => exact absurd rfl h
      | succ m => rfl
    | succ n =>
      cases j with
      | zero => rfl
      | succ m => exact ih n m (fun e => h (congrArg Nat.succ e))

theorem blockowners_get_of_get (k : Kernel) (b : Nat) (owner : Int)
    (h : k.blockowners.get? b = some owner) : blockowners_get k (b : Int) = .ok owner := by
  unfold blockowners_get
  have h0 : (0 : Int) ≤ (b : Int) := Int.ofNat_nonneg b
  simp only [if_pos h0, Int.toNat_ofNat, h]

/-- The write path of `disk_io` on a valid block that is unallocated or owned by
the caller, with a size that passes the test and a byte count that is not
negative. -/
theorem sys_disk_io_write (env : Env) (k : Kernel) (b : Nat) (owner : Int)
    (hb : toInt32 k.isa_ctx.regs.esi = (b : Int)) (hvalid : (b : Int) < k.numblocks)
    (hown : k.blockowners.get? b = some owner)
    (hmine : owner = 0 ∨ owner = k.isa_ctx.uid)
    (hop : toInt32 k.isa_ctx.regs.ebx = 0)
    (hsize : ¬ (toInt32 (toU32 (toInt32 k.isa_ctx.regs.edi + toInt32 k.isa_ctx.regs.ecx)) >
      k.blocksize))
    (hn : 0 ≤ toInt32 k.isa_ctx.regs.ecx) :
    ∃ k2, sys_disk_io env k = .ok (0, env.send_to_io k2 30) ∧
      k2.blockowners.get? b = some k.isa_ctx.uid ∧
      (∀ j, j ≠ b → k2.blockowners.get? j = k.blockowners.get? j) ∧
      k2.numblocks = k.numblocks ∧ k2.blocksize = k.blocksize ∧ k2.isa_ctx = k.isa_ctx := by
  have hge : ¬ ((b : Int) ≥ k.numblocks) := by omega
  have hforeign : ¬ (owner ≠ 0 ∧ owner ≠ k.isa_ctx.uid) := by
    rintro ⟨h0, h1⟩
    rcases hmine with h | h
    · exact h0 h
    · exact h1 h
  have hopn : ¬ ((0 : Int) ≠ 0) := fun h => h rfl
  have hnn : ¬ (toInt32 k.isa_ctx.regs.ecx < 0) := by omega
  unfold sys_disk_io
  simp only [hb, if_neg hge, blockowners_get_of_get k b owner hown, if_neg hforeign, hop,
    if_neg hsize, if_neg hopn, if_neg hnn]
  refine ⟨_, rfl, ?_, ?_, rfl, rfl, rfl⟩
  · by_cases h0 : owner = 0
    · simp only [if_pos h0, Int.toNat_ofNat]
      exact list_set_get_eq _ _ _ _ hown
    · simp only [if_neg h0]
      rcases hmine with h | h
      · exact absurd h h0
      · rw [← h]; exact hown
  · intro j hj
    by_cases h0 : owner = 0
    · simp only [if_pos h0, Int.toNat_ofNat]
      exact list_set_get_ne _ _ _ _ hj
    · simp only [if_neg h0]

/-- The write path of `disk_io` with a negative byte count: `fwrite` is called
with the NULL buffer and that count. -/
theorem sys_disk_io_write_negative (env : Env) (k : Kernel) (b : Nat) (owner : Int)
    (hb : toInt32 k.isa_ctx.regs.esi = (b : Int)) (hvalid : (b : Int) < k.numblocks)
    (hown : k.blockowners.get? b = some owner)
    (hmine : owner = 0 ∨ owner = k.isa_ctx.uid)
    (hop : toInt32 k.isa_ctx.regs.ebx = 0)
    (hsize : ¬ (toInt32 (toU32 (toInt32 k.isa_ctx.regs.edi + toInt32 k.isa_ctx.regs.ecx)) >
      k.blocksize))
    (hn : toInt32 k.isa_ctx.regs.ecx < 0) :
    sys_disk_io env k = .error .undefined := by
  have hge : ¬ ((b : Int) ≥ k.numblocks) := by omega
  have hforeign : ¬ (owner ≠ 0 ∧ owner ≠ k.isa_ctx.uid) := by
    rintro ⟨h0, h1⟩
    rcases hmine with h | h
    · exact h0 h
    · exact h1 h
  have hopn : ¬ ((0 : Int) ≠ 0) := fun h => h rfl
  unfold sys_disk_io
  simp only [hb, if_neg hge, blockowners_get_of_get k b owner hown, if_neg hforeign, hop,
    if_neg hsize, if_neg hopn, if_pos hn]

/-- The read path of `disk_io` on a valid block owned by the non-zero caller,
with a size that passes the test, a byte count that is not negative and a NUL
among the bytes read. -/
theorem sys_disk_io_read (env : Env) (k : Kernel) (b : Nat)
    (hu0 : k.isa_ctx.uid ≠ 0)
    (hb : toInt32 k.isa_ctx.regs.esi = (b : Int)) (hvalid : (b : Int) < k.numblocks)
    (hown : k.blockowners.get? b = some k.isa_ctx.uid)
    (hop : toInt32 k.isa_ctx.regs.ebx ≠ 0)
    (hsize : ¬ (toInt32 (toU32 (toInt32 k.isa_ctx.regs.edi + toInt32 k.isa_ctx.regs.ecx)) >
      k.blocksize))
    (hn : 0 ≤ toInt32 k.isa_ctx.regs.ecx)
    (hnul : 0 ∈ disk_io_bytes_read env k) :
    ∃ k2, sys_disk_io env k = .ok (0, env.send_to_io k2 30) ∧
      HostCall.disk_read (toInt32 k.isa_ctx.regs.ecx) ∈ k2.host_calls ∧
      k2.blockowners = k.blockowners ∧
      k2.isa_mem = mem_write_string k.isa_mem k.isa_ctx.regs.edx (disk_io_bytes_read env k) := by
  have hge : ¬ ((b : Int) ≥ k.numblocks) := by omega
  have hforeign : ¬ (k.isa_ctx.uid ≠ 0 ∧ k.isa_ctx.uid ≠ k.isa_ctx.uid) := fun h => h.2 rfl
  have hnn : ¬ (toInt32 k.isa_ctx.regs.ecx < 0) := by omega
  unfold disk_io_bytes_read at hnul
  simp only [hb] at hnul
  unfold sys_disk_io disk_io_bytes_read
  simp only [hb, if_neg hge, blockowners_get_of_get k b _ hown, if_neg hforeign,
    if_neg hsize, if_pos hop, if_neg hu0, if_neg hnn, if_pos hnul]
  refine ⟨_, rfl, ?_, rfl, rfl⟩
  simp

/-- The read path of `disk_io` on a block owned by the non-zero caller, with a
negative byte count or without a NUL among the bytes read. -/
theorem sys_disk_io_read_undefined (env : Env) (k : Kernel) (b : Nat)
    (hu0 : k.isa_ctx.uid ≠ 0)
    (hb : toInt32 k.isa_ctx.regs.esi = (b : Int)) (hvalid : (b : Int) < k.numblocks)
    (hown : k.blockowners.get? b = some k.isa_ctx.uid)
    (hop : toInt32 k.isa_ctx.regs.ebx ≠ 0)
    (hsize : ¬ (toInt32 (toU32 (toInt32 k.isa_ctx.regs.edi + toInt32 k.isa_ctx.regs.ecx)) >
      k.blocksize))
    (hbad : toInt32 k.isa_ctx.regs.ecx < 0 ∨ 0 ∉ disk_io_bytes_read env k) :
    sys_disk_io env k = .error .undefined := by
  have hge : ¬ ((b : Int) ≥ k.numblocks) := by omega
  have hforeign : ¬ (k.isa_ctx.uid ≠ 0 ∧ k.isa_ctx.uid ≠ k.isa_ctx.uid) := fun h => h.2 rfl
  unfold sys_disk_io
  simp only [hb, if_neg hge, blockowners_get_of_get k b _ hown, if_neg hforeign,
    if_neg hsize, if_pos hop, if_neg hu0]
  by_cases hn : toInt32 k.isa_ctx.regs.ecx < 0
  · simp only [if_pos hn]
  · rcases hbad with h | h
    · exact absurd h hn
    · unfold disk_io_bytes_read at h
      simp only [hb] at h
      simp only [if_neg hn, if_neg h]

/-- A read of a valid block that is unallocated, with a size that passes the
test, returns -2 after the disk file was opened. -/
theorem sys_disk_io_read_unallocated (env : Env) (k : Kernel) (b : Nat)
    (hb : toInt32 k.isa_ctx.regs.esi = (b : Int)) (hvalid : (b : Int) < k.numblocks)
    (hown : k.blockowners.get? b = some 0)
    (hop : toInt32 k.isa_ctx.regs.ebx ≠ 0)
    (hsize : ¬ (toInt32 (toU32 (toInt32 k.isa_ctx.regs.edi + toInt32 k.isa_ctx.regs.ecx)) >
      k.blocksize)) :
    ∃ k1, sys_disk_io env k = .ok (-2, k1) ∧ k1.blockowners = k.blockowners := by
  have hge : ¬ ((b : Int) ≥ k.numblocks) := by omega
  have hforeign : ¬ ((0 : Int) ≠ 0 ∧ (0 : Int) ≠ k.isa_ctx.uid) := fun h => h.1 rfl
  unfold sys_disk_io
  simp only [hb, if_neg hge, blockowners_get_of_get k b _ hown, if_neg hforeign,
    if_neg hsize, if_pos hop, if_true]
  exact ⟨_, rfl, rfl⟩

/-- A request on a valid block owned by a different non-zero uid returns -2 and
changes nothing. -/
theorem sys_disk_io_foreign (env : Env) (k : Kernel) (b : Nat) (owner : Int)
    (hb : toInt32 k.isa_ctx.regs.esi = (b : Int)) (hvalid : (b : Int) < k.numblocks)
    (hown : k.blockowners.get? b = some owner)
    (h0 : owner ≠ 0) (h1 : owner ≠ k.isa_ctx.uid) :
    sys_disk_io env k = .ok (-2, k) := by
  have hge : ¬ ((b : Int) ≥ k.numblocks) := by omega
  unfold sys_disk_io
  simp only [hb, if_neg hge, blockowners_get_of_get k b owner hown,
    if_pos (And.intro h0 h1)]

/-- Counterexample to C18 as stated, for the caller uid 0: the write to the
unallocated block 1 succeeds and leaves `blockowners[1]` at 0, the value of the
caller's uid and also the mark of an unallocated block, so the read of block 1
by the same uid directly after it returns -2. -/
theorem disk_io_uid_zero_read_after_write_rejected :
    disk_io_root_write_demo.isa_ctx.uid = 0 ∧
    ∃ kw, sys_disk_io env_demo disk_io_root_write_demo = .ok (0, kw) ∧
      kw.blockowners.get? 1 = some 0 ∧
      ∃ kr, sys_disk_io env_demo (kw.with_ebx 1) = .ok (-2, kr) :=
  ⟨rfl, _, rfl, rfl, _, rfl⟩

/-- C18, amended: for every caller uid `u` and every valid block `b` with owner
`owner`, on a request that passes the size test.  Write: while `owner` is 0 or
`u`, a write of a non-negative byte count hands to `send_to_io` a state with
`blockowners[b] = u` and every other entry as before (with a negative count
the call has no defined result).  Read: the request is refused with -2, the
owner table unchanged, exactly when `owner` is not `u` or is 0; otherwise it
goes to the disk read, and it returns 0 with the string read in guest memory
when the count is not negative and a NUL is among the bytes read (it has no
defined result otherwise).  A request on a block owned by a different non-zero
uid returns -2 with the state unchanged.  Read after write, for `u ≠ 0`: when
`send_to_io` keeps the owner table, a read of `b` by the same uid in a state
`kr` that follows the successful write is accepted. -/
theorem disk_io_ownership_contract (env : Env) (k : Kernel) (u : Int) (b : Nat) (owner : Int)
    (hu : k.isa_ctx.uid = u)
    (hb : toInt32 k.isa_ctx.regs.esi = (b : Int)) (hvalid : (b : Int) < k.numblocks)
    (hown : k.blockowners.get? b = some owner)
    (hsize : ¬ (toInt32 (toU32 (toInt32 k.isa_ctx.regs.edi + toInt32 k.isa_ctx.regs.ecx)) >
      k.blocksize)) :
    (toInt32 k.isa_ctx.regs.ebx = 0 → (owner = 0 ∨ owner = u) →
      (0 ≤ toInt32 k.isa_ctx.regs.ecx →
        ∃ k2, sys_disk_io env k = .ok (0, env.send_to_io k2 30) ∧
          k2.blockowners.get? b = some u ∧
          (∀ j, j ≠ b → k2.blockowners.get? j = k.blockowners.get? j) ∧
          (u ≠ 0 → (∀ s, (env.send_to_io s 30).blockowners = s.blockowners) →
            ∀ kr, kr.blockowners = (env.send_to_io k2 30).blockowners →
              kr.numblocks = k.numblocks → kr.isa_ctx.uid = u →
              toInt32 kr.isa_ctx.regs.esi = (b : Int) → toInt32 kr.isa_ctx.regs.ebx ≠ 0 →
              ¬ (toInt32 (toU32 (toInt32 kr.isa_ctx.regs.edi + toInt32 kr.isa_ctx.regs.ecx)) >
                kr.blocksize) →
              0 ≤ toInt32 kr.isa_ctx.regs.ecx → 0 ∈ disk_io_bytes_read env kr →
              ∃ k3, sys_disk_io env kr = .ok (0, env.send_to_io k3 30) ∧
                HostCall.disk_read (toInt32 kr.isa_ctx.regs.ecx) ∈ k3.host_calls ∧
                k3.isa_mem =
                  mem_write_string kr.isa_mem kr.isa_ctx.regs.edx (disk_io_bytes_read env kr))) ∧
      (toInt32 k.isa_ctx.regs.ecx < 0 → sys_disk_io env k = .error .undefined)) ∧
    (toInt32 k.isa_ctx.regs.ebx ≠ 0 →
      ((∃ k1, sys_disk_io env k = .ok (-2, k1)) ↔ ¬ (owner = u ∧ owner ≠ 0)) ∧
      (¬ (owner = u ∧ owner ≠ 0) →
        ∃ k1, sys_disk_io env k = .ok (-2, k1) ∧ k1.blockowners = k.blockowners) ∧
      (owner = u → owner ≠ 0 →
        (0 ≤ toInt32 k.isa_ctx.regs.ecx → 0 ∈ disk_io_bytes_read env k →
          ∃ k2, sys_disk_io env k = .ok (0, env.send_to_io k2 30) ∧
            HostCall.disk_read (toInt32 k.isa_ctx.regs.ecx) ∈ k2.host_calls ∧
            k2.blockowners = k.blockowners ∧
            k2.isa_mem =
              mem_write_string k.isa_mem k.isa_ctx.regs.edx (disk_io_bytes_read env k)) ∧
        (toInt32 k.isa_ctx.regs.ecx < 0 ∨ 0 ∉ disk_io_bytes_read env k →
          sys_disk_io env k = .error .undefined))) ∧
    (owner ≠ 0 → owner ≠ u → sys_disk_io env k = .ok (-2, k)) := by
  subst hu
  refine ⟨fun hop hmine => ⟨fun hn => ?_, fun hn => ?_⟩, fun hop => ?_, fun h0 h1 => ?_⟩
  · obtain ⟨k2, hr, hset, hother, -, -, -⟩ :=
      sys_disk_io_write env k b owner hb hvalid hown hmine hop hsize hn
    refine ⟨k2, hr, hset, hother, fun hu0 hio kr hbo hnum huid hbr hopr hsz hnr hnul => ?_⟩
    have hown2 : kr.blockowners.get? b = some kr.isa_ctx.uid := by
      rw [hbo, hio, hset, huid]
    obtain ⟨k3, h3, hlog, -, hmem⟩ :=
      sys_disk_io_read env kr b (by rw [huid]; exact hu0) hbr (by rw [hnum]; exact hvalid)
        hown2 hopr hsz hnr hnul
    exact ⟨k3, h3, hlog, hmem⟩
  · exact sys_disk_io_write_negative env k b owner hb hvalid hown hmine hop hsize hn
  · have hneg : ¬ (owner = k.isa_ctx.uid ∧ owner ≠ 0) →
        ∃ k1, sys_disk_io env k = .ok (-2, k1) ∧ k1.blockowners = k.blockowners := by
      intro hne
      by_cases h0 : owner = 0
      · subst h0
        exact sys_disk_io_read_unallocated env k b hb hvalid hown hop hsize
      · have h1 : owner ≠ k.isa_ctx.uid := fun h => hne ⟨h, h0⟩
        exact ⟨k, sys_disk_io_foreign env k b owner hb hvalid hown h0 h1, rfl⟩
    refine ⟨⟨fun href hacc => ?_, fun hne => ?_⟩, hneg, fun he h0 => ⟨fun hn hnul => ?_, fun hbad => ?_⟩⟩
    · obtain ⟨k1, h1⟩ := href
      obtain ⟨he, h0⟩ := hacc
      subst he
      by_cases hgood : 0 ≤ toInt32 k.isa_ctx.regs.ecx ∧ 0 ∈ disk_io_bytes_read env k
      · obtain ⟨k2, h2, -⟩ :=
          sys_disk_io_read env k b h0 hb hvalid hown hop hsize hgood.1 hgood.2
        rw [h2] at h1
        have := congrArg (fun r => match r with | Except.ok p => p.1 | Except.error _ => (0 : Int)) h1
        simp at this
      · have h2 := sys_disk_io_read_undefined env k b h0 hb hvalid hown hop hsize
          (by by_cases hn : toInt32 k.isa_ctx.regs.ecx < 0
              · exact Or.inl hn
              · exact Or.inr (fun hnul => hgood ⟨by omega, hnul⟩))
        rw [h2] at h1
        cases h1
    · obtain ⟨k1, h1, -⟩ := hneg hne
      exact ⟨k1, h1⟩
    · subst he
      exact sys_disk_io_read env k b h0 hb hvalid hown hop hsize hn hnul
    · subst he
      exact sys_disk_io_read_undefined env k b h0 hb hvalid hown hop hsize hbad
  · exact sys_disk_io_foreign env k b owner hb hvalid hown h0 h1

/-- Witness for C18: uid 1 writes 4 bytes to the unallocated block 1; the state
handed on has `blockowners[1] = 1`, and the read of 4 bytes of block 1 that
follows is accepted (the disk file of `env_demo` holds zero bytes). -/
theorem disk_io_ownership_contract_witness :
    ∃ k2, sys_disk_io env_demo disk_io_write_demo = .ok (0, env_demo.send_to_io k2 30) ∧
      k2.blockowners.get? 1 = some 1 ∧
      ∃ k3, sys_disk_io env_demo ((env_demo.send_to_io k2 30).with_ebx 1) =
          .ok (0, env_demo.send_to_io k3 30) ∧
        HostCall.disk_read 4 ∈ k3.host_calls := by
  obtain ⟨k2, hr, hset, -, hnext⟩ :=
    ((disk_io_ownership_contract env_demo disk_io_write_demo 1 1 0 rfl (by decide)
      (by decide) rfl (by decide)).1 (by decide) (Or.inl rfl)).1 (by decide)
  have hk2 : k2 = (match sys_disk_io env_demo disk_io_write_demo with
      | .ok p => p.2
      | .error _ => kernel_demo) := by
    rw [hr]; rfl
  have hq := hnext (by decide) (fun _ => rfl) ((env_demo.send_to_io k2 30).with_ebx 1) rfl
  subst hk2
  obtain ⟨k3, h3, hlog, -⟩ := hq rfl rfl (by decide) (by decide) (by decide) (by decide)
    (by decide)
  exact ⟨_, hr, hset, k3, h3, hlog⟩

/-! ## Calls on an unknown guest fd -/

theorem syscall_dispatch_writev (env : Env) (k : Kernel) (h : k.isa_ctx.regs.eax = 146) :
    syscall_dispatch env k = sys_writev env k := by
  unfold syscall_dispatch
  rw [h]
  simp only
  rw [if_neg (by decide), if_neg (fun c => absurd c.2 (by decide))]
  rfl

/-- C19: close, read, write, dup, ioctl and fcntl64 on a guest fd (EBX) that has
no entry in the caller's file-descriptor table, and poll with nfds = 1 on a
`pollfd` naming such a guest fd, return -EBADF = -9 and leave the whole state
as it was: no table entry is created or freed, the caller is not suspended and
no host call is made. -/
theorem unknown_fd_returns_ebadf (env : Env) (k : Kernel) (guest_fd : Int)
    (hnone : fdt_entry_get k.isa_ctx.fdt guest_fd = none) :
    (toInt32 k.isa_ctx.regs.ebx = guest_fd →
      sys_close k = .ok (-9, k) ∧ sys_read env k = .ok (-9, k) ∧
      sys_write env k = .ok (-9, k) ∧ sys_dup env k = .ok (-9, k) ∧
      sys_ioctl env k = .ok (-9, k) ∧ sys_fcntl64 env k = .ok (-9, k)) ∧
    (k.isa_ctx.regs.ecx = 1 → toInt32 (mem_read32 k.isa_mem k.isa_ctx.regs.ebx) = guest_fd →
      sys_poll env k = .ok (-9, k)) := by
  refine ⟨fun hfd => ?_, fun hn hfd => ?_⟩
  · subst hfd
    refine ⟨?_, ?_, ?_, ?_, ?_, ?_⟩
    · unfold sys_close; simp only [hnone]; rfl
    · unfold sys_read; simp only [hnone]; rfl
    · unfold sys_write; simp only [hnone]; rfl
    · unfold sys_dup; simp only [hnone]; rfl
    · unfold sys_ioctl; simp only [hnone]; rfl
    · unfold sys_fcntl64; simp only [hnone]; rfl
  · subst hfd
    have h1 : ¬ (k.isa_ctx.regs.ecx ≠ 1) := fun h => h hn
    unfold sys_poll
    simp only [if_neg h1, hnone]
    rfl

/-- Witness for C19: with an empty file-descriptor table every one of the seven
calls on guest fd 5 returns -9 and changes nothing. -/
theorem unknown_fd_returns_ebadf_witness :
    (sys_close (unknown_fd_demo 6) = .ok (-9, unknown_fd_demo 6) ∧
      sys_read env_demo (unknown_fd_demo 6) = .ok (-9, unknown_fd_demo 6) ∧
      sys_write env_demo (unknown_fd_demo 6) = .ok (-9, unknown_fd_demo 6) ∧
      sys_dup env_demo (unknown_fd_demo 6) = .ok (-9, unknown_fd_demo 6) ∧
      sys_ioctl env_demo (unknown_fd_demo 6) = .ok (-9, unknown_fd_demo 6) ∧
      sys_fcntl64 env_demo (unknown_fd_demo 6) = .ok (-9, unknown_fd_demo 6)) ∧
    sys_poll env_demo (unknown_fd_demo 6) = .ok (-9, unknown_fd_demo 6) :=
  ⟨(unknown_fd_returns_ebadf env_demo (unknown_fd_demo 6) 5 rfl).1 (by decide),
   (unknown_fd_returns_ebadf env_demo (unknown_fd_demo 6) 5 rfl).2 rfl (by decide)⟩

/-- C20: writev on a guest fd (EBX) that has no entry in the caller's
file-descriptor table.  The handler leaves the return value at its initial 0
(the source assigns `errno = -EBADF`, not `retval`), so `syscall_do` stores 0 in
EAX of a caller that is not suspended, not -9; the state is otherwise
unchanged, so no host write is made. -/
theorem writev_unknown_fd_returns_zero (env : Env) (k : Kernel)
    (heax : k.isa_ctx.regs.eax = 146)
    (hnone : fdt_entry_get k.isa_ctx.fdt (toInt32 k.isa_ctx.regs.ebx) = none)
    (hrun : k.isa_ctx.status.suspended = false) :
    sys_writev env k = .ok (0, k) ∧
    syscall_do env k = .ok (k.set_eax 0) ∧
    (k.set_eax 0).isa_ctx.regs.eax ≠ toU32 (-9) ∧
    (k.set_eax 0).host_calls = k.host_calls := by
  have hw : sys_writev env k = .ok (0, k) := by
    unfold sys_writev
    simp only [hnone]
  have hd : syscall_dispatch env k = .ok (0, k) := by
    rw [syscall_dispatch_writev env k heax, hw]
  have hne : (0 : Nat) ≠ toU32 (-9) := by decide
  refine ⟨hw, ?_, hne, rfl⟩
  rw [syscall_do_of_dispatch env k k 0 hd, heax]
  have hc : toInt32 146 ≠ syscall_code_sigreturn ∧ k.isa_ctx.status.suspended = false :=
    ⟨by decide, hrun⟩
  rw [if_pos hc]
  rfl

/-- Witness for C20: writev on guest fd 5 with an empty file-descriptor table
ends with EAX = 0. -/
theorem writev_unknown_fd_returns_zero_witness :
    syscall_do env_demo (unknown_fd_demo 146) = .ok ((unknown_fd_demo 146).set_eax 0) ∧
    ((unknown_fd_demo 146).set_eax 0).isa_ctx.regs.eax = 0 :=
  ⟨(writev_unknown_fd_returns_zero env_demo (unknown_fd_demo 146) rfl rfl rfl).2.1, rfl⟩

/-! ## ioctl, write and brk on the paths the code misses -/

/-- C21: the range test of the ioctl case is `cmd >= 0x5401 || cmd <= 0x5408`,
true of every `cmd`.  So on a known guest fd the 60-byte pass-through to the
host ioctl is made for every command, also outside 0x5401..0x5408, and the
call is never fatal. -/
theorem ioctl_passes_every_cmd_to_host (env : Env) (k : Kernel) (fd : FdEntry)
    (hfd : fdt_entry_get k.isa_ctx.fdt (toInt32 k.isa_ctx.regs.ebx) = some fd) :
    ∃ (r : Int) (k1 : Kernel), sys_ioctl env k = .ok (r, k1) ∧
      HostCall.ioctl fd.host_fd k.isa_ctx.regs.ecx (mem_read k.isa_mem k.isa_ctx.regs.edx 60) ∈
        k1.host_calls := by
  have hall : k.isa_ctx.regs.ecx ≥ 0x5401 ∨ k.isa_ctx.regs.ecx ≤ 0x5408 := by omega
  unfold sys_ioctl
  simp only [hfd, if_pos hall]
  split
  · exact ⟨_, _, rfl, by simp [Kernel.set_mem, Kernel.log]⟩
  · exact ⟨_, _, rfl, by simp [Kernel.log]⟩

/-- Witness for C21: `ioctl(5, 0x5409, 0x1000)` on a known guest fd returns and
has issued the host ioctl with command 0x5409. -/
theorem ioctl_passes_every_cmd_to_host_witness :
    ¬ (0x5401 ≤ ioctl_out_of_range_demo.isa_ctx.regs.ecx ∧
        ioctl_out_of_range_demo.isa_ctx.regs.ecx ≤ 0x5408) ∧
    ∃ (r : Int) (k1 : Kernel), sys_ioctl env_demo ioctl_out_of_range_demo = .ok (r, k1) ∧
      HostCall.ioctl 7 0x5409 (mem_read ioctl_out_of_range_demo.isa_mem 0x1000 60) ∈
        k1.host_calls :=
  ⟨by decide,
   ioctl_passes_every_cmd_to_host env_demo ioctl_out_of_range_demo
    { guest_fd := 5, host_fd := 7, kind := FdKind.regular, flags := 0 } rfl⟩

/-- C22: the write case tests only whether the host fd is ready for output.
On a known guest fd whose host fd is not ready, whatever the entry's flags
(O_NONBLOCK included), no host write is made: the caller gets the suspended
and write status bits and `wakeup_fd` = the guest fd, and `wakeup_events` is
left as it was, not set to POLLOUT. -/
theorem write_not_ready_suspends_whatever_flags (env : Env) (k : Kernel) (fd : FdEntry)
    (hfd : fdt_entry_get k.isa_ctx.fdt (toInt32 k.isa_ctx.regs.ebx) = some fd)
    (hbusy : (env.host_poll k fd.host_fd POLLOUT).2 = 0) :
    ∃ k1, sys_write env k = .ok (0, env.ke_process_events_schedule k1) ∧
      k1.isa_ctx.status = k.isa_ctx.status.or (ctx_suspended.or ctx_write) ∧
      k1.isa_ctx.status.suspended = true ∧ k1.isa_ctx.status.write = true ∧
      k1.isa_ctx.wakeup_fd = toInt32 k.isa_ctx.regs.ebx ∧
      k1.isa_ctx.wakeup_events = k.isa_ctx.wakeup_events ∧
      k1.host_calls = k.host_calls ++ [HostCall.poll fd.host_fd POLLOUT] := by
  have hn : ¬ ((env.host_poll k fd.host_fd POLLOUT).2 ≠ 0) := fun h => h hbusy
  unfold sys_write
  simp only [hfd, if_neg hn]
  refine ⟨_, rfl, rfl, ?_, ?_, rfl, rfl, rfl⟩
  · simp [Kernel.set_ctx, ctx_set_status, Status.or, ctx_suspended]
  · simp [Kernel.set_ctx, ctx_set_status, Status.or, ctx_write]

/-- Witness for C22: `write(5, 0x1000, 4)` on a guest fd opened with O_NONBLOCK
whose host fd is not ready suspends the caller, with `wakeup_events` still 0. -/
theorem write_not_ready_suspends_whatever_flags_witness :
    (∃ fd, fdt_entry_get write_nonblock_demo.isa_ctx.fdt 5 = some fd ∧
      fd.flags &&& O_NONBLOCK ≠ 0) ∧
    ∃ k1, sys_write env_not_ready write_nonblock_demo = .ok (0, k1) ∧
      k1.isa_ctx.status.suspended = true ∧ k1.isa_ctx.status.write = true ∧
      k1.isa_ctx.wakeup_fd = 5 ∧ k1.isa_ctx.wakeup_events = 0 ∧
      k1.host_calls = [HostCall.poll 7 POLLOUT] := by
  obtain ⟨k1, hr, -, hs, hw, hfd, hev, hc⟩ :=
    write_not_ready_suspends_whatever_flags env_not_ready write_nonblock_demo
      { guest_fd := 5, host_fd := 7, kind := FdKind.regular, flags := O_NONBLOCK } rfl rfl
  exact ⟨⟨_, rfl, by decide⟩, k1, hr, hs, hw, hfd, hev, hc⟩

/-- C28: `brk(newbrk)` with a non-zero `newbrk` equal to the current break takes
none of the three branches of the brk case: the break and the mappings stay as
they are, but the return value is the initial 0 of `retval`, not `newbrk`, and
`syscall_do` stores 0 in EAX of a caller that is not suspended. -/
theorem brk_same_break_returns_zero (env : Env) (k : Kernel)
    (h0 : k.isa_ctx.regs.ebx ≠ 0) (hsame : k.isa_ctx.regs.ebx = k.isa_ctx.loader.brk) :
    sys_brk k = .ok (0, k) ∧
      (k.isa_ctx.regs.eax = 45 → k.isa_ctx.status.suspended = false →
        syscall_do env k = .ok (k.set_eax 0)) := by
  have hb : sys_brk k = .ok (0, k) := by
    unfold sys_brk
    have h1 : ¬ (k.isa_ctx.regs.ebx > k.isa_ctx.loader.brk) := by omega
    have h2 : ¬ (k.isa_ctx.regs.ebx < k.isa_ctx.loader.brk) := by omega
    simp only [if_neg h0, if_neg h1, if_neg h2]
  refine ⟨hb, fun hc hs => ?_⟩
  have hd : syscall_dispatch env k = .ok (0, k) := by
    rw [syscall_dispatch_brk env k hc, hb]
  rw [syscall_do_of_dispatch env k k _ hd, hc, if_pos ⟨by decide, hs⟩]
  rfl

/-- Witness for C28: with the break at 0x10000000, `brk(0x10000000)` leaves 0 in
EAX. -/
theorem brk_same_break_returns_zero_witness :
    brk_same_demo.isa_ctx.loader.brk = 0x10000000 ∧
    syscall_do env_demo brk_same_demo = .ok (brk_same_demo.set_eax 0) ∧
    (brk_same_demo.set_eax 0).isa_ctx.regs.eax = 0 :=
  ⟨rfl, (brk_same_break_returns_zero env_demo brk_same_demo (by decide) rfl).2 rfl rfl, rfl⟩

/-! ## The record `sim_stat64` -/

theorem toU64_lt (i : Int) : toU64 i < 18446744073709551616 := by
  unfold toU64
  omega

theorem field_at_head (a rest : List Nat) (w : Nat) (h : a.length = w) :
    field_at (a ++ rest) 0 w = le_decode a := by
  unfold field_at
  rw [List.drop_zero, ← h, List.take_left']
  rfl

theorem field_at_skip (a rest : List Nat) (off w : Nat) (h : a.length ≤ off) :
    field_at (a ++ rest) off w = field_at rest (off - a.length) w := by
  unfold field_at
  rw [List.drop_append_eq_append_drop, List.drop_of_length_le h, List.nil_append]

theorem field_at_u32 (i : Int) (rest : List Nat) :
    field_at (le_encode 4 (toU32 i) ++ rest) 0 4 = toU32 i := by
  rw [field_at_head _ _ _ (le_encode_length 4 _), le_decode_encode]
  exact Nat.mod_eq_of_lt (toU32_lt i)

theorem field_at_u64 (i : Int) (rest : List Nat) :
    field_at (le_encode 8 (toU64 i) ++ rest) 0 8 = toU64 i := by
  rw [field_at_head _ _ _ (le_encode_length 8 _), le_decode_encode]
  exact Nat.mod_eq_of_lt (toU64_lt i)

theorem field_at_zero32 (rest : List Nat) : field_at (le_encode 4 0 ++ rest) 0 4 = 0 := by
  rw [field_at_head _ _ _ (le_encode_length 4 _), le_decode_encode]
  exact Nat.zero_mod _

theorem field_at_skip32 (v : Nat) (rest : List Nat) (off w : Nat) (h : 4 ≤ off) :
    field_at (le_encode 4 v ++ rest) off w = field_at rest (off - 4) w := by
  rw [field_at_skip _ _ _ _ (by rw [le_encode_length]; exact h), le_encode_length]

theorem field_at_skip64 (v : Nat) (rest : List Nat) (off w : Nat) (h : 8 ≤ off) :
    field_at (le_encode 8 v ++ rest) off w = field_at rest (off - 8) w := by
  rw [field_at_skip _ _ _ _ (by rw [le_encode_length]; exact h), le_encode_length]

theorem toU32_eq_toU64_mod (i : Int) : toU32 i = toU64 i % 4294967296 := by
  unfold toU32 toU64
  omega

/-- C24: the packed `sim_stat64` record is 96 bytes, its fields start at the
offsets 0, 8, 12, 16, 20, 24, 28, 32, 40, 44, 52, 56, 64, 68, 72, 76, 80, 84,
88, and for every host `struct stat` the record made by `syscall_copy_stat64`
decodes, at those offsets, to the host values reduced to the width of the
field: `ino` is `st_ino` on 64 bits (and `st_ino` itself when that is a 64-bit
value), `__ino` its low 32 bits, and `pad1`, `pad2` and the three `*_nsec`
fields are 0. -/
theorem sim_stat64_layout_and_copy (real : stat) :
    (sim_stat64_bytes (syscall_copy_stat64 real)).length = 96 ∧
    packed_offsets sim_stat64_widths 0 =
      [0, 8, 12, 16, 20, 24, 28, 32, 40, 44, 52, 56, 64, 68, 72, 76, 80, 84, 88] ∧
    field_at (sim_stat64_bytes (syscall_copy_stat64 real)) 0 8 = toU64 real.st_dev ∧
    field_at (sim_stat64_bytes (syscall_copy_stat64 real)) 8 4 = 0 ∧
    field_at (sim_stat64_bytes (syscall_copy_stat64 real)) 12 4 = toU32 real.st_ino ∧
    field_at (sim_stat64_bytes (syscall_copy_stat64 real)) 16 4 = toU32 real.st_mode ∧
    field_at (sim_stat64_bytes (syscall_copy_stat64 real)) 20 4 = toU32 real.st_nlink ∧
    field_at (sim_stat64_bytes (syscall_copy_stat64 real)) 24 4 = toU32 real.st_uid ∧
    field_at (sim_stat64_bytes (syscall_copy_stat64 real)) 28 4 = toU32 real.st_gid ∧
    field_at (sim_stat64_bytes (syscall_copy_stat64 real)) 32 8 = toU64 real.st_rdev ∧
    field_at (sim_stat64_bytes (syscall_copy_stat64 real)) 40 4 = 0 ∧
    field_at (sim_stat64_bytes (syscall_copy_stat64 real)) 44 8 = toU64 real.st_size ∧
    field_at (sim_stat64_bytes (syscall_copy_stat64 real)) 52 4 = toU32 real.st_blksize ∧
    field_at (sim_stat64_bytes (syscall_copy_stat64 real)) 56 8 = toU64 real.st_blocks ∧
    field_at (sim_stat64_bytes (syscall_copy_stat64 real)) 64 4 = toU32 real.st_atime ∧
    field_at (sim_stat64_bytes (syscall_copy_stat64 real)) 68 4 = 0 ∧
    field_at (sim_stat64_bytes (syscall_copy_stat64 real)) 72 4 = toU32 real.st_mtime ∧
    field_at (sim_stat64_bytes (syscall_copy_stat64 real)) 76 4 = 0 ∧
    field_at (sim_stat64_bytes (syscall_copy_stat64 real)) 80 4 = toU32 real.st_ctime ∧
    field_at (sim_stat64_bytes (syscall_copy_stat64 real)) 84 4 = 0 ∧
    field_at (sim_stat64_bytes (syscall_copy_stat64 real)) 88 8 = toU64 real.st_ino ∧
    (0 ≤ real.st_ino → real.st_ino < 18446744073709551616 →
      ((field_at (sim_stat64_bytes (syscall_copy_stat64 real)) 88 8 : Nat) : Int) = real.st_ino ∧
      field_at (sim_stat64_bytes (syscall_copy_stat64 real)) 12 4 =
        field_at (sim_stat64_bytes (syscall_copy_stat64 real)) 88 8 % 4294967296) := by
  have hlen : (sim_stat64_bytes (syscall_copy_stat64 real)).length = 96 := by
    simp [sim_stat64_bytes, sim_stat64_widths, sim_stat64_fields, packed_bytes, le_encode_length]
  have hino : field_at (sim_stat64_bytes (syscall_copy_stat64 real)) 88 8 =
      toU64 real.st_ino := by
    simp only [sim_stat64_bytes, sim_stat64_widths, sim_stat64_fields, syscall_copy_stat64,
      packed_bytes, field_at_skip32, field_at_skip64, field_at_u64, Nat.le_refl,
      Nat.reduceLeDiff, Nat.reduceSub]
  have hino32 : field_at (sim_stat64_bytes (syscall_copy_stat64 real)) 12 4 =
      toU32 real.st_ino := by
    simp only [sim_stat64_bytes, sim_stat64_widths, sim_stat64_fields, syscall_copy_stat64,
      packed_bytes, field_at_skip32, field_at_skip64, field_at_u32, Nat.le_refl,
      Nat.reduceLeDiff, Nat.reduceSub]
  refine ⟨hlen, rfl, ?_, ?_, hino32, ?_, ?_, ?_, ?_, ?_, ?_, ?_, ?_, ?_, ?_, ?_, ?_, ?_, ?_, ?_,
    hino, fun h0 h1 => ⟨?_, ?_⟩⟩
  all_goals first
    | (simp only [sim_stat64_bytes, sim_stat64_widths, sim_stat64_fields, syscall_copy_stat64,
        packed_bytes, field_at_skip32, field_at_skip64, field_at_u32, field_at_u64,
        field_at_zero32, Nat.le_refl, Nat.reduceLeDiff, Nat.reduceSub]; done)
    | (rw [hino]; unfold toU64; omega)
    | (rw [hino, hino32]; exact toU32_eq_toU64_mod _)

/-- Witness for C24: a host record with `st_ino` = 2^32 + 1 and `st_size` = 1234
gives `ino` = 2^32 + 1 at offset 88, `__ino` = 1 at offset 12 and `size` = 1234
at offset 44. -/
theorem sim_stat64_layout_and_copy_witness :
    (sim_stat64_bytes (syscall_copy_stat64 stat_demo)).length = 96 ∧
    field_at (sim_stat64_bytes (syscall_copy_stat64 stat_demo)) 88 8 = 4294967297 ∧
    field_at (sim_stat64_bytes (syscall_copy_stat64 stat_demo)) 12 4 = 1 ∧
    field_at (sim_stat64_bytes (syscall_copy_stat64 stat_demo)) 44 8 = 1234 := by
  obtain ⟨hlen, -, -, -, h12, -, -, -, -, -, -, h44, -, -, -, -, -, -, -, -, h88, -⟩ :=
    sim_stat64_layout_and_copy stat_demo
  exact ⟨hlen, h88.trans (by decide), h12.trans (by decide), h44.trans (by decide)⟩

/-! ## Interval timers -/

/-- C25: `setitimer(0, v)` with `v.it_value` = (4295 s, 0 us) and
`v.it_interval` = (0, 0) at simulator time 0.  The product 4295 * 1000000 is
formed in 32 bits, so slot 0 gets the value 4295000000 - 2^32 = 32704, and
`getitimer(0)` at the same time reports `it_value` = (0 s, 32704 us), not
(4295 s, 0 us). -/
theorem setitimer_seconds_wrap_at_32_bits :
    mem_read32 setitimer_demo.isa_mem 0x1008 = 4295 ∧
    mem_read32 setitimer_demo.isa_mem 0x100c = 0 ∧
    ∃ k1, sys_setitimer env_demo setitimer_demo = .ok (0, k1) ∧
      k1.isa_ctx.itimer_value = [32704, 0, 0] ∧
      ∃ k2, sys_getitimer env_demo k1.with_getitimer = .ok (0, k2) ∧
        mem_read32 k2.isa_mem 0x2008 = 0 ∧ mem_read32 k2.isa_mem 0x200c = 32704 :=
  ⟨rfl, rfl, _, rfl, rfl, _, rfl, rfl, rfl⟩

/-! ## The hashtable -/

/-- C27: updating the first key of a bin.  After `ht_create(1)` and
`ht_set(h, "a", "1")`, the call `ht_set(h, "a", "2")` leaves the loop at once
(the first node has the key), takes the branch `last->next = ht_newpair(...)`
and stores through `last`, which was never assigned: the call has no defined
result, so `ht_get(h, "a")` is not known to return "2". -/
theorem ht_set_head_key_again_is_undefined :
    ht_set (ht_create 1) [97] [49] =
      .ok { size := 1, table := [[{ key := [97], value := [49] }]] } ∧
    ht_get { size := 1, table := [[{ key := [97], value := [49] }]] } [97] = .ok (some [49]) ∧
    ht_set { size := 1, table := [[{ key := [97], value := [49] }]] } [97] [50] =
      .error .undefined :=
  ⟨rfl, rfl, rfl⟩

/-- C29: `ht_set` on a key below the first key of its bin.  After
`ht_create(1)` and `ht_set(h, "b", "1")`, `ht_get(h, "b")` returns "1"; the call
`ht_set(h, "a", "2")` takes the last branch of `ht_set` and replaces the value
of the node of "b", so `ht_get(h, "b")` returns "2" afterwards.  The key "c" was
never inserted and `ht_get(h, "c")` returns NULL; after `ht_set(h, "d", "3")`
it returns "3". -/
theorem ht_set_changes_another_key :
    ht_set (ht_create 1) [98] [49] = .ok ht_demo ∧
    ht_get ht_demo [98] = .ok (some [49]) ∧
    ht_set ht_demo [97] [50] = .ok { size := 1, table := [[{ key := [98], value := [50] }]] } ∧
    ht_get { size := 1, table := [[{ key := [98], value := [50] }]] } [98] = .ok (some [50]) ∧
    ht_get ht_demo [99] = .ok none ∧
    ht_set ht_demo [100] [51] =
      .ok { size := 1, table := [[{ key := [98], value := [49] }, { key := [100], value := [51] }]] } ∧
    ht_get { size := 1, table := [[{ key := [98], value := [49] }, { key := [100], value := [51] }]] }
      [99] = .ok (some [51]) :=
  ⟨rfl, rfl, rfl, rfl, rfl, rfl, rfl⟩

/-! ## The fd-set translators -/

/-- C30: a valid guest set that the translators do not give back.  Guest fd 3
has a table entry, on host fd 10; with n = 4 and the bitmap {3} at 0x1000,
`sim_fd_set_read` returns 1 and the host set {10}.  `sim_fd_set_write` of that
set with n = 4 tests only the host fds 0..3, so it writes back the empty
bitmap: bit 3 is lost. -/
theorem sim_fd_set_write_drops_host_fd_beyond_n :
    fdt_entry_get fd_set_demo.isa_ctx.fdt 3 =
      some { guest_fd := 3, host_fd := 10, kind := FdKind.regular, flags := 0 } ∧
    mem_read8 fd_set_demo.isa_mem 0x1000 = 8 ∧
    sim_fd_set_read fd_set_demo 0x1000 4 = .ok (1, 1024) ∧
    ∃ k1, sim_fd_set_write fd_set_demo 0x1000 1024 4 = .ok k1 ∧
      mem_read8 k1.isa_mem 0x1000 = 0 :=
  ⟨rfl, rfl, rfl, _, rfl, rfl⟩

/-! ## getdents and getdents64 -/

theorem mem_write_bytes_outside (m : Mem) (addr : Nat) (data : List Nat) (a : Nat)
    (h : data.length ≤ sub32 a addr) : (mem_write m addr data).bytes a = m.bytes a := by
  unfold mem_write
  simp only
  rw [if_neg]
  intro hc
  omega

theorem mem_read_congr (m1 m2 : Mem) (a n : Nat)
    (h : ∀ i, i < n → m1.bytes ((a + i) % 4294967296) = m2.bytes ((a + i) % 4294967296)) :
    mem_read m1 a n = mem_read m2 a n := by
  unfold mem_read
  apply List.map_congr_left
  intro i hi
  exact h i (List.mem_range.1 hi)

theorem mem_read_write_disjoint (m : Mem) (addr : Nat) (data : List Nat) (a n : Nat)
    (h : ∀ i, i < n → data.length ≤ sub32 ((a + i) % 4294967296) addr) :
    mem_read (mem_write m addr data) a n = mem_read m a n :=
  mem_read_congr _ _ _ _ (fun i hi => mem_write_bytes_outside _ _ _ _ (h i hi))

theorem mem_read_write_same_mod (m : Mem) (a b : Nat) (data : List Nat)
    (hab : a % 4294967296 = b % 4294967296) (h : data.length ≤ 4294967296) :
    mem_read (mem_write m a data) b data.length = data := by
  apply List.ext_getElem
  · simp [mem_read]
  · intro i h1 h2
    have hi : sub32 ((b + i) % 4294967296) a = i := by
      unfold sub32; omega
    have hlt : (b + i) % 4294967296 < 4294967296 := by omega
    simp only [mem_read, mem_write, List.getElem_map, List.getElem_range, hi]
    rw [if_pos ⟨hlt, h2⟩]
    exact List.getD_eq_getElem _ _ h2

theorem getdents_reclen_eq (e : linux_dirent) (h : strlen e.d_name ≤ 65508) :
    getdents_reclen e = (15 + strlen e.d_name) / 4 * 4 := by
  unfold getdents_reclen
  omega

theorem getdents64_reclen_eq (e : linux_dirent) (h : strlen e.d_name ≤ 65508) :
    getdents64_reclen e = (27 + strlen e.d_name) / 8 * 8 := by
  unfold getdents64_reclen
  omega

theorem strlen_add_one (s : List Nat) :
    (s.takeWhile (fun b => b != 0) ++ [0]).length = strlen s + 1 := by
  simp [strlen]

theorem getdents_record_frame (pdirent off : Nat) (e : linux_dirent) (m : Mem) (a : Nat)
    (hL : strlen e.d_name ≤ 65508)
    (h : getdents_reclen e ≤ sub32 a (pdirent + off)) :
    (getdents_record pdirent off e m).bytes a = m.bytes a := by
  have hr := getdents_reclen_eq e hL
  have hs := strlen_add_one e.d_name
  unfold getdents_record mem_write_string
  simp only
  rw [mem_write_bytes_outside, mem_write_bytes_outside, mem_write_bytes_outside,
    mem_write_bytes_outside, mem_write_bytes_outside]
  · rw [le_encode_length]; unfold sub32 at h ⊢; omega
  · rw [le_encode_length]; unfold sub32 at h ⊢; omega
  · rw [le_encode_length]; unfold sub32 at h ⊢; omega
  · rw [hs]; unfold sub32 at h ⊢; omega
  · simp only [List.length_singleton]; unfold sub32 at h ⊢; omega

theorem mem_read_write_enc (m : Mem) (a b w v : Nat)
    (hab : a % 4294967296 = b % 4294967296) (hw : w ≤ 4294967296) :
    le_decode (mem_read (mem_write m a (le_encode w v)) b w) = v % 256 ^ w := by
  have h := mem_read_write_same_mod m a b (le_encode w v) hab (by rw [le_encode_length]; exact hw)
  rw [le_encode_length] at h
  rw [h, le_decode_encode]

theorem getdents_record_written (pdirent off : Nat) (e : linux_dirent) (m : Mem)
    (hL : strlen e.d_name ≤ 65508) :
    getdents_record_at (getdents_record pdirent off e m) (pdirent + off) e := by
  have hr := getdents_reclen_eq e hL
  have hs := strlen_add_one e.d_name
  unfold getdents_record_at getdents_record mem_write_string mem_read32 mem_read16 mem_read8
  simp only
  refine ⟨?_, ?_, ?_, ?_, ?_⟩
  · rw [mem_read_write_disjoint, mem_read_write_disjoint, mem_read_write_disjoint,
      mem_read_write_disjoint, mem_read_write_enc _ _ _ _ _ rfl (by decide)]
    · norm_num
    · intro i hi; rw [le_encode_length]; unfold sub32; omega
    · intro i hi; rw [le_encode_length]; unfold sub32; omega
    · intro i hi; rw [hs]; unfold sub32; omega
    · intro i hi; simp only [List.length_singleton]; unfold sub32; omega
  · rw [mem_read_write_disjoint, mem_read_write_disjoint, mem_read_write_disjoint,
      mem_read_write_enc _ _ _ _ _ rfl (by decide)]
    · norm_num
    · intro i hi; rw [le_encode_length]; unfold sub32; omega
    · intro i hi; rw [hs]; unfold sub32; omega
    · intro i hi; simp only [List.length_singleton]; unfold sub32; omega
  · rw [mem_read_write_disjoint, mem_read_write_disjoint,
      mem_read_write_enc _ _ _ _ _ rfl (by decide)]
    · have : getdents_reclen e < 65536 := by omega
      norm_num
      omega
    · intro i hi; rw [hs]; unfold sub32; omega
    · intro i hi; simp only [List.length_singleton]; unfold sub32; omega
  · rw [mem_read_write_disjoint]
    · have h := mem_read_write_same_mod
        (mem_write (mem_write (mem_write m (pdirent + off) (le_encode 4 e.d_ino))
          (pdirent + off + 4) (le_encode 4 e.d_off)) (pdirent + off + 8)
          (le_encode 2 (getdents_reclen e)))
        (pdirent + off + 10) (pdirent + off + 10)
        (e.d_name.takeWhile (fun b => b != 0) ++ [0]) rfl (by rw [hs]; omega)
      rw [hs] at h
      exact h
    · intro i hi; simp only [List.length_singleton]; unfold sub32; omega
  · have h := mem_read_write_same_mod
      (mem_write (mem_write (mem_write (mem_write m (pdirent + off) (le_encode 4 e.d_ino))
        (pdirent + off + 4) (le_encode 4 e.d_off)) (pdirent + off + 8)
        (le_encode 2 (getdents_reclen e))) (pdirent + off + 10)
        (e.d_name.takeWhile (fun b => b != 0) ++ [0]))
      (sub32 (pdirent + off + getdents_reclen e) 1) (pdirent + off + getdents_reclen e - 1)
      [e.d_type % 256] (by unfold sub32; omega) (by simp)
    simp only [List.length_singleton] at h
    rw [h]
    simp [le_decode]

theorem getdents_record_at_congr (m1 m2 : Mem) (base : Nat) (e : linux_dirent)
    (hL : strlen e.d_name ≤ 65508)
    (h : ∀ t, t < getdents_reclen e →
      m1.bytes ((base + t) % 4294967296) = m2.bytes ((base + t) % 4294967296))
    (h2 : getdents_record_at m2 base e) : getdents_record_at m1 base e := by
  have hr := getdents_reclen_eq e hL
  obtain ⟨a1, a2, a3, a4, a5⟩ := h2
  unfold mem_read32 at a1 a2
  unfold mem_read16 at a3
  unfold mem_read8 at a5
  unfold getdents_record_at mem_read32 mem_read16 mem_read8
  refine ⟨?_, ?_, ?_, ?_, ?_⟩
  · rw [← a1, mem_read_congr m1 m2]
    intro i hi; exact h i (by omega)
  · rw [← a2, mem_read_congr m1 m2]
    intro i hi
    have := h (4 + i) (by omega)
    rwa [← Nat.add_assoc] at this
  · rw [← a3, mem_read_congr m1 m2]
    intro i hi
    have := h (8 + i) (by omega)
    rwa [← Nat.add_assoc] at this
  · rw [← a4, mem_read_congr m1 m2]
    intro i hi
    have := h (10 + i) (by omega)
    rwa [← Nat.add_assoc] at this
  · rw [← a5, mem_read_congr m1 m2]
    intro i hi
    have := h (getdents_reclen e - 1) (by omega)
    have e0 : i = 0 := by omega
    subst e0
    have e1 : base + getdents_reclen e - 1 + 0 = base + (getdents_reclen e - 1) := by omega
    rw [e1]
    exact this

theorem getdents_loop_spec (pdirent count : Nat) (hcount : count < 4294967296)
    (es : List linux_dirent) :
    ∀ (off : Nat) (m : Mem), (∀ e ∈ es, strlen e.d_name ≤ 65508) →
      off + (es.map getdents_reclen).sum ≤ count →
      ∃ m1, getdents_loop pdirent count es off m =
          .ok (off + (es.map getdents_reclen).sum, m1) ∧
        (∀ a, (es.map getdents_reclen).sum ≤ sub32 a (pdirent + off) →
          m1.bytes a = m.bytes a) ∧
        (∀ i (hi : i < es.length), getdents_record_at m1
          (pdirent + off + ((es.take i).map getdents_reclen).sum) (es.get ⟨i, hi⟩)) := by
  induction es with
  | nil =>
    intro off m _ _
    exact ⟨m, rfl, fun _ _ => rfl, fun i hi => absurd hi (Nat.not_lt_zero i)⟩
  | cons e es ih =>
    intro off m hL hfit
    have hLe : strlen e.d_name ≤ 65508 := hL e (List.mem_cons_self e es)
    have hr := getdents_reclen_eq e hLe
    simp only [List.map_cons, List.sum_cons] at hfit ⊢
    obtain ⟨m1, hloop, hframe, hrec⟩ :=
      ih (off + getdents_reclen e) (getdents_record pdirent off e m)
        (fun x hx => hL x (List.mem_cons_of_mem e hx)) (by omega)
    have hmod : (off + getdents_reclen e) % 4294967296 = off + getdents_reclen e :=
      Nat.mod_eq_of_lt (by omega)
    have hle : ¬ (off + getdents_reclen e > count) := by omega
    refine ⟨m1, ?_, ?_, ?_⟩
    · rw [getdents_loop]
      simp only [hmod, if_neg hle]
      rw [hloop, Nat.add_assoc]
    · intro a ha
      rw [hframe a (by unfold sub32 at ha ⊢; omega)]
      exact getdents_record_frame pdirent off e m a hLe (by unfold sub32 at ha ⊢; omega)
    · intro i hi
      cases i with
      | zero =>
        simp only [List.take_zero, List.map_nil, List.sum_nil, Nat.add_zero, List.get_eq_getElem,
          List.getElem_cons_zero]
        refine getdents_record_at_congr m1 _ (pdirent + off) e hLe (fun t ht => ?_)
          (getdents_record_written pdirent off e m hLe)
        exact hframe _ (by unfold sub32; omega)
      | succ j =>
        have hj : j < es.length := by simpa using hi
        have h := hrec j hj
        simp only [List.take_succ_cons, List.map_cons, List.sum_cons, List.get_eq_getElem,
          List.getElem_cons_succ]
        have ea : pdirent + off + (getdents_reclen e + ((es.take j).map getdents_reclen).sum) =
            pdirent + (off + getdents_reclen e) + ((es.take j).map getdents_reclen).sum := by
          omega
        rw [ea]
        exact h

theorem getdents64_record_frame (pdirent off : Nat) (e : linux_dirent) (m : Mem) (a : Nat)
    (hL : strlen e.d_name ≤ 65508)
    (h : getdents64_reclen e ≤ sub32 a (pdirent + off)) :
    (getdents64_record pdirent off e m).bytes a = m.bytes a := by
  have hr := getdents64_reclen_eq e hL
  have hs := strlen_add_one e.d_name
  unfold getdents64_record mem_write_string
  simp only
  rw [mem_write_bytes_outside, mem_write_bytes_outside, mem_write_bytes_outside,
    mem_write_bytes_outside, mem_write_bytes_outside]
  · rw [le_encode_length]; unfold sub32 at h ⊢; omega
  · rw [le_encode_length]; unfold sub32 at h ⊢; omega
  · rw [le_encode_length]; unfold sub32 at h ⊢; omega
  · simp only [List.length_singleton]; unfold sub32 at h ⊢; omega
  · rw [hs]; unfold sub32 at h ⊢; omega

theorem getdents64_record_written (pdirent off : Nat) (e : linux_dirent) (m : Mem)
    (hL : strlen e.d_name ≤ 65508) :
    getdents64_record_at (getdents64_record pdirent off e m) (pdirent + off) e := by
  have hr := getdents64_reclen_eq e hL
  have hs := strlen_add_one e.d_name
  unfold getdents64_record_at getdents64_record mem_write_string mem_read64 mem_read16 mem_read8
  simp only
  refine ⟨?_, ?_, ?_, ?_, ?_⟩
  · rw [mem_read_write_disjoint, mem_read_write_disjoint, mem_read_write_disjoint,
      mem_read_write_disjoint, mem_read_write_enc _ _ _ _ _ rfl (by decide)]
    · norm_num
    · intro i hi; rw [le_encode_length]; unfold sub32; omega
    · intro i hi; rw [le_encode_length]; unfold sub32; omega
    · intro i hi; simp only [List.length_singleton]; unfold sub32; omega
    · intro i hi; rw [hs]; unfold sub32; omega
  · rw [mem_read_write_disjoint, mem_read_write_disjoint, mem_read_write_disjoint,
      mem_read_write_enc _ _ _ _ _ rfl (by decide)]
    · norm_num
    · intro i hi; rw [le_encode_length]; unfold sub32; omega
    · intro i hi; simp only [List.length_singleton]; unfold sub32; omega
    · intro i hi; rw [hs]; unfold sub32; omega
  · rw [mem_read_write_disjoint, mem_read_write_disjoint,
      mem_read_write_enc _ _ _ _ _ rfl (by decide)]
    · have : getdents64_reclen e < 65536 := by omega
      norm_num
      omega
    · intro i hi; simp only [List.length_singleton]; unfold sub32; omega
    · intro i hi; rw [hs]; unfold sub32; omega
  · rw [mem_read_write_disjoint]
    · have h := mem_read_write_same_mod
        (mem_write (mem_write (mem_write m (pdirent + off) (le_encode 8 e.d_ino))
          (pdirent + off + 8) (le_encode 8 e.d_off)) (pdirent + off + 16)
          (le_encode 2 (getdents64_reclen e)))
        (pdirent + off + 18) (pdirent + off + 18) [e.d_type % 256] rfl (by simp)
      simp only [List.length_singleton] at h
      rw [h]
      simp [le_decode]
    · intro i hi; rw [hs]; unfold sub32; omega
  · have h := mem_read_write_same_mod
      (mem_write (mem_write (mem_write (mem_write m (pdirent + off) (le_encode 8 e.d_ino))
        (pdirent + off + 8) (le_encode 8 e.d_off)) (pdirent + off + 16)
        (le_encode 2 (getdents64_reclen e))) (pdirent + off + 18) [e.d_type % 256])
      (pdirent + off + 19) (pdirent + off + 19)
      (e.d_name.takeWhile (fun b => b != 0) ++ [0]) rfl (by rw [hs]; omega)
    rw [hs] at h
    exact h

theorem getdents64_record_at_congr (m1 m2 : Mem) (base : Nat) (e : linux_dirent)
    (hL : strlen e.d_name ≤ 65508)
    (h : ∀ t, t < getdents64_reclen e →
      m1.bytes ((base + t) % 4294967296) = m2.bytes ((base + t) % 4294967296))
    (h2 : getdents64_record_at m2 base e) : getdents64_record_at m1 base e := by
  have hr := getdents64_reclen_eq e hL
  obtain ⟨a1, a2, a3, a4, a5⟩ := h2
  unfold mem_read64 at a1 a2
  unfold mem_read16 at a3
  unfold mem_read8 at a4
  unfold getdents64_record_at mem_read64 mem_read16 mem_read8
  refine ⟨?_, ?_, ?_, ?_, ?_⟩
  · rw [← a1, mem_read_congr m1 m2]
    intro i hi; exact h i (by omega)
  · rw [← a2, mem_read_congr m1 m2]
    intro i hi
    have := h (8 + i) (by omega)
    rwa [← Nat.add_assoc] at this
  · rw [← a3, mem_read_congr m1 m2]
    intro i hi
    have := h (16 + i) (by omega)
    rwa [← Nat.add_assoc] at this
  · rw [← a4, mem_read_congr m1 m2]
    intro i hi
    have := h (18 + i) (by omega)
    rwa [← Nat.add_assoc] at this
  · rw [← a5, mem_read_congr m1 m2]
    intro i hi
    have := h (19 + i) (by omega)
    rwa [← Nat.add_assoc] at this

theorem getdents64_loop_spec (pdirent count : Nat) (hcount : count < 4294967296)
    (es : List linux_dirent) :
    ∀ (off : Nat) (m : Mem), (∀ e ∈ es, strlen e.d_name ≤ 65508) →
      off + (es.map getdents64_reclen).sum ≤ count →
      ∃ m1, getdents64_loop pdirent count es off m =
          .ok (off + (es.map getdents64_reclen).sum, m1) ∧
        (∀ a, (es.map getdents64_reclen).sum ≤ sub32 a (pdirent + off) →
          m1.bytes a = m.bytes a) ∧
        (∀ i (hi : i < es.length), getdents64_record_at m1
          (pdirent + off + ((es.take i).map getdents64_reclen).sum) (es.get ⟨i, hi⟩)) := by
  induction es with
  | nil =>
    intro off m _ _
    exact ⟨m, rfl, fun _ _ => rfl, fun i hi => absurd hi (Nat.not_lt_zero i)⟩
  | cons e es ih =>
    intro off m hL hfit
    have hLe : strlen e.d_name ≤ 65508 := hL e (List.mem_cons_self e es)
    have hr := getdents64_reclen_eq e hLe
    simp only [List.map_cons, List.sum_cons] at hfit ⊢
    obtain ⟨m1, hloop, hframe, hrec⟩ :=
      ih (off + getdents64_reclen e) (getdents64_record pdirent off e m)
        (fun x hx => hL x (List.mem_cons_of_mem e hx)) (by omega)
    have hmod : (off + getdents64_reclen e) % 4294967296 = off + getdents64_reclen e :=
      Nat.mod_eq_of_lt (by omega)
    have hle : ¬ (off + getdents64_reclen e > count) := by omega
    refine ⟨m1, ?_, ?_, ?_⟩
    · rw [getdents64_loop]
      simp only [hmod, if_neg hle]
      rw [hloop, Nat.add_assoc]
    · intro a ha
      rw [hframe a (by unfold sub32 at ha ⊢; omega)]
      exact getdents64_record_frame pdirent off e m a hLe (by unfold sub32 at ha ⊢; omega)
    · intro i hi
      cases i with
      | zero =>
        simp only [List.take_zero, List.map_nil, List.sum_nil, Nat.add_zero, List.get_eq_getElem,
          List.getElem_cons_zero]
        refine getdents64_record_at_congr m1 _ (pdirent + off) e hLe (fun t ht => ?_)
          (getdents64_record_written pdirent off e m hLe)
        exact hframe _ (by unfold sub32; omega)
      | succ j =>
        have hj : j < es.length := by simpa using hi
        have h := hrec j hj
        simp only [List.take_succ_cons, List.map_cons, List.sum_cons, List.get_eq_getElem,
          List.getElem_cons_succ]
        have ea : pdirent + off +
            (getdents64_reclen e + ((es.take j).map getdents64_reclen).sum) =
            pdirent + (off + getdents64_reclen e) + ((es.take j).map getdents64_reclen).sum := by
          omega
        rw [ea]
        exact h

theorem sys_getdents_spec (env : Env) (k : Kernel) (es : List linux_dirent)
    (hhost : env.host_getdents k
      (toInt32 (toU32 (fdt_get_host_fd k.isa_ctx.fdt (toInt32 k.isa_ctx.regs.ebx))))
      k.isa_ctx.regs.edx = some es)
    (hL : ∀ e ∈ es, strlen e.d_name ≤ 65508)
    (hcount : k.isa_ctx.regs.edx < 4294967296)
    (hfit : (es.map getdents_reclen).sum ≤ k.isa_ctx.regs.edx) :
    ∃ k1, sys_getdents env k = .ok (toInt32 (es.map getdents_reclen).sum, k1) ∧
      ∀ i (hi : i < es.length), getdents_record_at k1.isa_mem
        (k.isa_ctx.regs.ecx + ((es.take i).map getdents_reclen).sum) (es.get ⟨i, hi⟩) := by
  unfold sys_getdents
  simp only [hhost]
  cases es with
  | nil => exact ⟨_, rfl, fun i hi => absurd hi (Nat.not_lt_zero i)⟩
  | cons e es =>
    obtain ⟨m1, hloop, -, hrec⟩ :=
      getdents_loop_spec k.isa_ctx.regs.ecx k.isa_ctx.regs.edx hcount (e :: es) 0
        (k.log (HostCall.getdents
          (toInt32 (toU32 (fdt_get_host_fd k.isa_ctx.fdt (toInt32 k.isa_ctx.regs.ebx))))
          k.isa_ctx.regs.edx)).isa_mem hL (by omega)
    simp only [Nat.zero_add, Nat.add_zero] at hloop hrec
    simp only [hloop]
    exact ⟨_, rfl, hrec⟩

theorem sys_getdents64_spec (env : Env) (k : Kernel) (es : List linux_dirent)
    (hhost : env.host_getdents k
      (toInt32 (toU32 (fdt_get_host_fd k.isa_ctx.fdt (toInt32 k.isa_ctx.regs.ebx))))
      k.isa_ctx.regs.edx = some es)
    (hL : ∀ e ∈ es, strlen e.d_name ≤ 65508)
    (hcount : k.isa_ctx.regs.edx < 4294967296)
    (hfit : (es.map getdents64_reclen).sum ≤ k.isa_ctx.regs.edx) :
    ∃ k1, sys_getdents64 env k = .ok (toInt32 (es.map getdents64_reclen).sum, k1) ∧
      ∀ i (hi : i < es.length), getdents64_record_at k1.isa_mem
        (k.isa_ctx.regs.ecx + ((es.take i).map getdents64_reclen).sum) (es.get ⟨i, hi⟩) := by
  unfold sys_getdents64
  simp only [hhost]
  cases es with
  | nil => exact ⟨_, rfl, fun i hi => absurd hi (Nat.not_lt_zero i)⟩
  | cons e es =>
    obtain ⟨m1, hloop, -, hrec⟩ :=
      getdents64_loop_spec k.isa_ctx.regs.ecx k.isa_ctx.regs.edx hcount (e :: es) 0
        (k.log (HostCall.getdents
          (toInt32 (toU32 (fdt_get_host_fd k.isa_ctx.fdt (toInt32 k.isa_ctx.regs.ebx))))
          k.isa_ctx.regs.edx)).isa_mem hL (by omega)
    simp only [Nat.zero_add, Nat.add_zero] at hloop hrec
    simp only [hloop]
    exact ⟨_, rfl, hrec⟩

/-- C23: the records `es` of a host `getdents` result whose names are at most
65508 bytes long (every name of at most NAME_MAX = 255 bytes is), with `count`
in EDX a 32-bit value.  For a name of length `L` the guest record length of
getdents is the least multiple of 4 that is at least `10 + L + 2`, so the type
byte at offset `reclen - 1` lies beyond the NUL of the name at offset `10 + L`;
the record length of getdents64 is the least multiple of 8 that is at least
`19 + L + 1`.  When the guest records fit in `count` bytes, each call returns
the sum of the record lengths, as a C `int`, and every guest record is in
guest memory at the sum of the lengths before it, with its `d_reclen`, its
name and its type byte intact. -/
theorem getdents_record_lengths (env : Env) (k : Kernel) (es : List linux_dirent)
    (hhost : env.host_getdents k
      (toInt32 (toU32 (fdt_get_host_fd k.isa_ctx.fdt (toInt32 k.isa_ctx.regs.ebx))))
      k.isa_ctx.regs.edx = some es)
    (hL : ∀ e ∈ es, strlen e.d_name ≤ 65508)
    (hcount : k.isa_ctx.regs.edx < 4294967296) :
    (∀ e ∈ es,
      getdents_reclen e % 4 = 0 ∧ 10 + strlen e.d_name + 2 ≤ getdents_reclen e ∧
      (∀ r, r % 4 = 0 → 10 + strlen e.d_name + 2 ≤ r → getdents_reclen e ≤ r) ∧
      10 + strlen e.d_name < getdents_reclen e - 1 ∧
      getdents64_reclen e % 8 = 0 ∧ 19 + strlen e.d_name + 1 ≤ getdents64_reclen e ∧
      (∀ r, r % 8 = 0 → 19 + strlen e.d_name + 1 ≤ r → getdents64_reclen e ≤ r)) ∧
    ((es.map getdents_reclen).sum ≤ k.isa_ctx.regs.edx →
      ∃ k1, sys_getdents env k = .ok (toInt32 (es.map getdents_reclen).sum, k1) ∧
        ∀ i (hi : i < es.length), getdents_record_at k1.isa_mem
          (k.isa_ctx.regs.ecx + ((es.take i).map getdents_reclen).sum) (es.get ⟨i, hi⟩)) ∧
    ((es.map getdents64_reclen).sum ≤ k.isa_ctx.regs.edx →
      ∃ k1, sys_getdents64 env k = .ok (toInt32 (es.map getdents64_reclen).sum, k1) ∧
        ∀ i (hi : i < es.length), getdents64_record_at k1.isa_mem
          (k.isa_ctx.regs.ecx + ((es.take i).map getdents64_reclen).sum) (es.get ⟨i, hi⟩)) := by
  refine ⟨fun e he => ?_, sys_getdents_spec env k es hhost hL hcount,
    sys_getdents64_spec env k es hhost hL hcount⟩
  have h4 := getdents_reclen_eq e (hL e he)
  have h8 := getdents64_reclen_eq e (hL e he)
  refine ⟨by omega, by omega, fun r h1 h2 => by omega, by omega, by omega, by omega,
    fun r h1 h2 => by omega⟩

/-- Witness for C23: the host returns the records of "." and "hello"; getdents
writes records of 16 and 20 bytes and returns 36, getdents64 writes records of
24 and 32 bytes and returns 56. -/
theorem getdents_record_lengths_witness :
    (∃ k1, sys_getdents env_demo getdents_demo = .ok (36, k1) ∧
      mem_read16 k1.isa_mem (0x1000 + 8) = 16 ∧ mem_read16 k1.isa_mem (0x1000 + 16 + 8) = 20 ∧
      mem_read8 k1.isa_mem (0x1000 + 16 + 20 - 1) = 8) ∧
    (∃ k1, sys_getdents64 env_demo getdents_demo = .ok (56, k1) ∧
      mem_read16 k1.isa_mem (0x1000 + 16) = 24 ∧
      mem_read16 k1.isa_mem (0x1000 + 24 + 16) = 32) := by
  obtain ⟨-, h32, h64⟩ := getdents_record_lengths env_demo getdents_demo
    [{ d_ino := 11, d_off := 1, d_reclen := 24, d_name := [46], d_type := 4 },
     { d_ino := 12, d_off := 2, d_reclen := 32, d_name := [104, 101, 108, 108, 111],
       d_type := 8 }] rfl (by decide) (by decide)
  obtain ⟨k1, hr, hrec⟩ := h32 (by decide)
  obtain ⟨k2, hr2, hrec2⟩ := h64 (by decide)
  have a0 := hrec 0 (by decide)
  have a1 := hrec 1 (by decide)
  have b0 := hrec2 0 (by decide)
  have b1 := hrec2 1 (by decide)
  exact ⟨⟨k1, hr, a0.2.2.1, a1.2.2.1, a1.2.2.2.2⟩, ⟨k2, hr2, b0.2.2.1, b1.2.2.1⟩⟩

/-! ## Suspension reasons -/

/-- The 80 `case` labels of the `switch` are distinct numbers. -/
theorem syscall_linux_cases_nodup : syscall_linux_cases.Nodup := by
  decide

end PranaliOS
